import Mathlib

/-!
Verification of the CreatorIQ AI-services core (TypeScript sources under
`packages/ai-services/src` plus the rate-limiting middleware).

The development shallowly embeds the relevant TypeScript functions as Lean
definitions and proves (or refutes) the specified properties about them.
JavaScript machine numbers are modelled by `Int`/`Nat` where only integral
values occur, and by `Rat` where fractional arithmetic matters; timestamps
(`Date.now()`, `new Date()`) are modelled as explicit integer parameters.
-/

set_option maxRecDepth 4096

/-! ### Rate limiter (middleware/rate-limiter.ts)

The in-memory fixed-window counter `MemoryStore` and the enforcing
middleware produced by `createRateLimiter`. -/

/-- Entry of the rate-limit store: request count and window-reset timestamp. -/
structure RateLimitEntry where
  count : Nat
  resetTime : Int
  deriving Repr, DecidableEq

/-- The store maps keys to optional entries (absent key = no entry). -/
def RLStore : Type := String → Option RateLimitEntry

/-- Empty rate-limit store. -/
def RLStore.empty : RLStore := fun _ => none

/-- Result returned by `MemoryStore.increment`. -/
structure IncrementResult where
  totalHits : Nat
  timeToReset : Int
  deriving Repr, DecidableEq

namespace MemoryStore

/-- Embedding of `MemoryStore.increment(key, windowMs)` at clock value `now`:
if the key has no entry, or the entry's window has expired
(`resetTime <= now`), a fresh entry with count 1 and reset time
`now + windowMs` is created; otherwise the count is incremented.
Returns the hit count and clamped time-to-reset, plus the updated store. -/
def increment (store : RLStore) (key : String) (windowMs : Int) (now : Int) :
    IncrementResult × RLStore :=
  let entry :=
    match store key with
    | none => { count := 1, resetTime := now + windowMs }
    | some e =>
        if e.resetTime ≤ now then
          { count := 1, resetTime := now + windowMs }
        else
          { e with count := e.count + 1 }
  (⟨entry.count, max 0 (entry.resetTime - now)⟩,
   fun k => if k = key then some entry else store k)

/-- Hit counts of a sequence of `increment` calls on one key, at the given
sequence of clock values, threading the store through. -/
def incrementMany (key : String) (windowMs : Int) :
    RLStore → List Int → List Nat × RLStore
  | store, [] => ([], store)
  | store, t :: ts =>
      let r := increment store key windowMs t
      let rest := incrementMany key windowMs r.2 ts
      (r.1.totalHits :: rest.1, rest.2)

end MemoryStore

/-- Configuration passed to `createRateLimiter`. -/
structure RateLimitConfig where
  windowMs : Int
  max : Nat
  deriving Repr, DecidableEq

/-- Outcome of one pass through the middleware returned by
`createRateLimiter(config)`: the informational headers
(limit / remaining / reset) and whether the request was rejected
(`RateLimitError` thrown because `totalHits > config.max`). -/
structure RateLimitOutcome where
  limit : Nat
  remaining : Int
  totalHits : Nat
  timeToReset : Int
  blocked : Bool
  deriving Repr, DecidableEq

/-- Embedding of the middleware body produced by `createRateLimiter`:
increments the store for the request's key, sets
`X-RateLimit-Remaining = max(0, config.max - totalHits)` and throws
`RateLimitError` exactly when `totalHits > config.max`. -/
def createRateLimiter (config : RateLimitConfig) (store : RLStore)
    (key : String) (now : Int) : RateLimitOutcome × RLStore :=
  let r := MemoryStore.increment store key config.windowMs now
  (⟨config.max,
    max 0 ((config.max : Int) - (r.1.totalHits : Int)),
    r.1.totalHits,
    r.1.timeToReset,
    decide (r.1.totalHits > config.max)⟩,
   r.2)

/-! ### Cost tracker (cost-tracker.ts) -/

/-- Embedding of the `UsageRecord` interface.  The optional `timestamp`
(`Date`) is modelled as an optional integer clock value. -/
structure UsageRecord where
  provider : String
  model : String
  analysisType : String
  tokensUsed : Nat
  costCents : Int
  processingTime : Nat
  success : Bool
  error : Option String := none
  timestamp : Option Int := none
  deriving Repr, DecidableEq

namespace CostTracker

/-- `maxHistorySize` constant: keep the last 10k records in memory. -/
def maxHistorySize : Nat := 10000

/-- Embedding of `CostTracker.recordUsage(record)` executed at clock value
`now`: the stored record is the input record with its `timestamp` replaced
by the insertion time, appended to the history; if the history then exceeds
`maxHistorySize`, `slice(-maxHistorySize)` keeps exactly the most recent
`maxHistorySize` records. -/
def recordUsage (record : UsageRecord) (now : Int) (history : List UsageRecord) :
    List UsageRecord :=
  let full := { record with timestamp := some now }
  let h := history ++ [full]
  if h.length > maxHistorySize then h.drop (h.length - maxHistorySize) else h

/-- The stored form of a record inserted at time `now`. -/
def fullRecord (record : UsageRecord) (now : Int) : UsageRecord :=
  { record with timestamp := some now }

/-- History resulting from a sequence of `recordUsage` calls
(record, insertion time) starting from a given history. -/
def recordAll (history : List UsageRecord) (calls : List (UsageRecord × Int)) :
    List UsageRecord :=
  calls.foldl (fun h c => recordUsage c.1 c.2 h) history

/-- Timestamp of a stored record, as an integer (stored records always carry
a timestamp; `0` is a dummy for the absent case). -/
def tsOf (r : UsageRecord) : Int := r.timestamp.getD 0

end CostTracker

/-! ### Provider model configurations and cost functions
(openai.ts / claude.ts) -/

/-- Embedding of `AIModelConfig` (types.ts); the two per-token prices are
fractional, modelled as rationals. -/
structure AIModelConfig where
  provider : String
  model : String
  maxTokens : Nat
  temperature : Rat
  costPerInputToken : Rat
  costPerOutputToken : Rat
  deriving Repr, DecidableEq

namespace OpenAIService

/-- Embedding of `OpenAIService.MODEL_CONFIGS` as a lookup (`getModelConfig`). -/
def getModelConfig (model : String) : Option AIModelConfig :=
  if model = "gpt-4" then
    some ⟨"openai", "gpt-4", 8192, 7/10, 3/1000, 6/1000⟩
  else if model = "gpt-4-turbo" then
    some ⟨"openai", "gpt-4-turbo-preview", 4096, 7/10, 1/1000, 3/1000⟩
  else if model = "gpt-3.5-turbo" then
    some ⟨"openai", "gpt-3.5-turbo", 4096, 7/10, 5/10000, 15/10000⟩
  else none

/-- Embedding of `OpenAIService.calculateCost(inputTokens, outputTokens,
config)`: `(inputTokens/1000)*costPerInputToken +
(outputTokens/1000)*costPerOutputToken`. -/
def calculateCost (inputTokens outputTokens : Rat) (config : AIModelConfig) : Rat :=
  (inputTokens / 1000) * config.costPerInputToken
    + (outputTokens / 1000) * config.costPerOutputToken

end OpenAIService

namespace ClaudeService

/-- Embedding of `ClaudeService.MODEL_CONFIGS` as a lookup (`getModelConfig`). -/
def getModelConfig (model : String) : Option AIModelConfig :=
  if model = "claude-3-opus" then
    some ⟨"claude", "claude-3-opus-20240229", 4096, 7/10, 15/1000, 75/1000⟩
  else if model = "claude-3-sonnet" then
    some ⟨"claude", "claude-3-sonnet-20240229", 4096, 7/10, 3/1000, 15/1000⟩
  else if model = "claude-3-haiku" then
    some ⟨"claude", "claude-3-haiku-20240307", 4096, 7/10, 25/100000, 125/100000⟩
  else none

/-- Embedding of `ClaudeService.calculateCost(inputTokens, outputTokens,
config)`: `(inputTokens/1000000)*costPerInputToken*1000 +
(outputTokens/1000000)*costPerOutputToken*1000`. -/
def calculateCost (inputTokens outputTokens : Rat) (config : AIModelConfig) : Rat :=
  (inputTokens / 1000000) * config.costPerInputToken * 1000
    + (outputTokens / 1000000) * config.costPerOutputToken * 1000

end ClaudeService

/-- JavaScript `Math.round`: round half toward positive infinity. -/
def jsRound (q : Rat) : Int := ⌊q + 1/2⌋

/-- Integer cents actually charged at the call sites of `calculateCost`
(`Math.round(totalCost * 100)`). -/
def toCents (totalCost : Rat) : Int := jsRound (totalCost * 100)

/-! ### JSON values and provider response parsing
(openai.ts / claude.ts `parseAnalysisResponse`, `validateScore`,
`calculateConfidence`) -/

/-- Parse tree of a JSON value, as produced by `JSON.parse`. -/
inductive JVal where
  | jnull : JVal
  | jbool : Bool → JVal
  | jnum : Rat → JVal
  | jstr : String → JVal
  | jarr : List JVal → JVal
  | jobj : List (String × JVal) → JVal
  deriving Repr

namespace JVal

/-- Property access `v.f` on a JSON value: defined fields of objects;
`none` models JavaScript `undefined`. -/
def get (v : JVal) (field : String) : Option JVal :=
  match v with
  | jobj fields => (fields.find? (fun p => p.1 = field)).map Prod.snd
  | _ => none

/-- JavaScript truthiness of a (possibly undefined) JSON value:
`undefined`, `null`, `false`, `0` and `""` are falsy; every object and
array (including empty ones) is truthy. -/
def truthy : Option JVal → Bool
  | none => false
  | some jnull => false
  | some (jbool b) => b
  | some (jnum q) => decide (q ≠ 0)
  | some (jstr s) => decide (s ≠ "")
  | some (jarr _) => true
  | some (jobj _) => true

/-- Numeric value of a decimal digit character, if any. -/
def digitVal (c : Char) : Option Nat :=
  if c.isDigit then some (c.toNat - 48) else none

/-- Value of a nonempty all-digit character list, if any. -/
def digitsVal : List Char → Option Nat
  | [] => none
  | cs => cs.foldlM (fun acc c => (digitVal c).map (fun d => acc * 10 + d)) 0

/-- Restricted model of JavaScript `Number(string)`: the empty string is 0,
an optional minus sign followed by decimal digits with an optional
fractional part parses to the evident rational, and any other string is
NaN (`none`).  (The full JS grammar also admits exponents, hex literals
and surrounding whitespace, none of which occur in the repository's data.) -/
def numberOfString (s : String) : Option Rat :=
  match s.data with
  | [] => some 0
  | cs =>
      let body := if cs.head? = some '-' then cs.drop 1 else cs
      let sign : Rat := if cs.head? = some '-' then -1 else 1
      let intPart := body.takeWhile (· ≠ '.')
      match body.dropWhile (· ≠ '.') with
      | [] => (digitsVal intPart).map (fun n => sign * n)
      | _ :: fracPart =>
          if fracPart.contains '.' then none
          else
            match digitsVal intPart, digitsVal fracPart with
            | some n, some f =>
                some (sign * (n + (f : Rat) / ((10 : Rat) ^ fracPart.length)))
            | _, _ => none

/-- Model of JavaScript `Number(value)` on a non-array leaf value. -/
def numberOfLeaf : JVal → Option Rat
  | jnull => some 0
  | jbool b => some (if b then 1 else 0)
  | jnum q => some q
  | jstr s => numberOfString s
  | jarr _ => none
  | jobj _ => none

/-- Model of JavaScript `Number(value)` coercion; `none` models NaN.
A one-element array coerces through its (leaf) element, matching JS on the
flat arrays that occur in this repository. -/
def toNumber : Option JVal → Option Rat
  | none => none
  | some (jarr []) => some 0
  | some (jarr [v]) => numberOfLeaf v
  | some (jarr (_ :: _ :: _)) => none
  | some v => numberOfLeaf v

/-- The elements of an array value, or `[]` when the value is absent or not
an array (`Array.isArray(x) ? x : []`). -/
def arrayOrEmpty : Option JVal → List JVal
  | some (jarr xs) => xs
  | _ => []

/-- JavaScript `x || d` for a possibly undefined value with a default. -/
def orDefault (v : Option JVal) (d : JVal) : JVal :=
  if truthy v then v.getD d else d

end JVal

/-- Embedding of `validateScore(score)` (identical in openai.ts and
claude.ts): `Number(score)`, `0` when NaN, otherwise
`Math.max(0, Math.min(100, Math.round(num)))`. -/
def validateScore (score : Option JVal) : Int :=
  match JVal.toNumber score with
  | none => 0
  | some num => max 0 (min 100 (jsRound num))

/-- Strengths section of a parsed `AIAnalysisResponse`. -/
structure StrengthsSection where
  summary : JVal
  details : List JVal
  score : Int
  deriving Repr

/-- Weaknesses section of a parsed `AIAnalysisResponse`. -/
structure WeaknessesSection where
  summary : JVal
  details : List JVal
  areas : List JVal
  deriving Repr

/-- Opportunities section of a parsed `AIAnalysisResponse`. -/
structure OpportunitiesSection where
  summary : JVal
  recommendations : List JVal
  deriving Repr

/-- The four numeric scores of a parsed `AIAnalysisResponse`. -/
structure ScoresSection where
  overall : Int
  contentQuality : Int
  engagement : Int
  growthPotential : Int
  deriving Repr, DecidableEq

/-- Result metadata attached by the provider clients. -/
structure ResponseMetadata where
  aiModel : String
  promptVersion : String
  processingTime : Nat
  confidence : Rat
  costCents : Int
  deriving Repr, DecidableEq

/-- Embedding of the `AIAnalysisResponse` shape as built by
`parseAnalysisResponse` (defensively coerced fields). -/
structure AIAnalysisResponse where
  strengths : StrengthsSection
  weaknesses : WeaknessesSection
  opportunities : OpportunitiesSection
  competitors : Option JVal
  contentStrategy : Option JVal
  scores : ScoresSection
  metadata : ResponseMetadata
  deriving Repr

/-- Embedding of `parseAnalysisResponse` applied to an already-parsed JSON
value (the `JSON.parse` result; a string without a parseable JSON object
fails earlier): fails when any of the four required top-level sections is
absent or falsy, otherwise builds the response with every leaf field
defensively coerced (`|| ''`, `Array.isArray ? _ : []`, `validateScore`). -/
def parseAnalysisResponse (parsed : JVal) : Except String AIAnalysisResponse :=
  if ¬ (JVal.truthy (parsed.get "strengths")
        ∧ JVal.truthy (parsed.get "weaknesses")
        ∧ JVal.truthy (parsed.get "opportunities")
        ∧ JVal.truthy (parsed.get "scores")) then
    .error "Invalid response format: missing required fields"
  else
    let strengths := parsed.get "strengths"
    let weaknesses := parsed.get "weaknesses"
    let opportunities := parsed.get "opportunities"
    let scores := parsed.get "scores"
    .ok
      { strengths :=
          { summary := JVal.orDefault (strengths.bind (·.get "summary")) (.jstr "")
            details := JVal.arrayOrEmpty (strengths.bind (·.get "details"))
            score := validateScore (strengths.bind (·.get "score")) }
        weaknesses :=
          { summary := JVal.orDefault (weaknesses.bind (·.get "summary")) (.jstr "")
            details := JVal.arrayOrEmpty (weaknesses.bind (·.get "details"))
            areas := JVal.arrayOrEmpty (weaknesses.bind (·.get "areas")) }
        opportunities :=
          { summary := JVal.orDefault (opportunities.bind (·.get "summary")) (.jstr "")
            recommendations :=
              JVal.arrayOrEmpty (opportunities.bind (·.get "recommendations")) }
        competitors :=
          if JVal.truthy (parsed.get "competitors") then parsed.get "competitors"
          else none
        contentStrategy :=
          if JVal.truthy (parsed.get "contentStrategy") then
            parsed.get "contentStrategy"
          else none
        scores :=
          { overall := validateScore (scores.bind (·.get "overall"))
            contentQuality := validateScore (scores.bind (·.get "contentQuality"))
            engagement := validateScore (scores.bind (·.get "engagement"))
            growthPotential := validateScore (scores.bind (·.get "growthPotential")) }
        metadata :=
          { aiModel := "", promptVersion := "", processingTime := 0
            confidence := 0, costCents := 0 } }

/-- Embedding of `OpenAIService.calculateConfidence(result)`: base 0.5 plus
0.1 for each completeness criterion, capped at 1.0. -/
def openaiCalculateConfidence (result : AIAnalysisResponse) : Rat :=
  let c0 : Rat := 1/2
  let c1 := if result.strengths.details.length ≥ 3 then c0 + 1/10 else c0
  let c2 := if result.weaknesses.details.length ≥ 2 then c1 + 1/10 else c1
  let c3 := if result.opportunities.recommendations.length ≥ 1 then c2 + 1/10 else c2
  let c4 := if result.scores.overall > 0 then c3 + 1/10 else c3
  let c5 := if result.contentStrategy.isSome then c4 + 1/10 else c4
  min 1 c5

/-- Embedding of `ClaudeService.calculateConfidence(result)`: base 0.6 plus
provider-specific increments, capped at 1.0. -/
def claudeCalculateConfidence (result : AIAnalysisResponse) : Rat :=
  let c0 : Rat := 6/10
  let c1 := if result.strengths.details.length ≥ 3 then c0 + 1/10 else c0
  let c2 := if result.weaknesses.details.length ≥ 2 then c1 + 1/10 else c1
  let c3 := if result.opportunities.recommendations.length ≥ 1 then c2 + 1/10 else c2
  let c4 := if result.scores.overall > 0 then c3 + 1/20 else c3
  let c5 := if result.contentStrategy.isSome then c4 + 1/20 else c4
  min 1 c5

/-! ### Prompt template rendering (prompts.ts `PromptTemplates.replaceVariables`)

The engine works over `List Char`; the scanners take an explicit fuel
argument (seeded with the input length, which every recursive call
strictly decreases) so that they are structural and evaluate by `decide`. -/

/-- Values of the `Record<string, any>` variables mapping passed to
`replaceVariables`.  Arrays occurring in the repository are arrays of plain
objects, modelled as association lists of fields. -/
inductive TVal where
  | vstr : String → TVal
  | vnum : Int → TVal
  | vbool : Bool → TVal
  | varr : List (List (String × TVal)) → TVal
  deriving Repr

/-- JavaScript `String(value)` for the values above: strings unchanged,
numbers printed, arrays of objects join as `[object Object]` with commas. -/
def TVal.jsToString : TVal → String
  | .vstr s => s
  | .vnum n => toString n
  | .vbool b => if b then "true" else "false"
  | .varr items => String.intercalate "," (items.map (fun _ => "[object Object]"))

/-- JavaScript truthiness of a possibly-undefined variable value
(`variables[name]`): absent, `""`, `0` and `false` are falsy; every array
is truthy. -/
def TVal.truthyVar : Option TVal → Bool
  | none => false
  | some (.vstr s) => decide (s ≠ "")
  | some (.vnum n) => decide (n ≠ 0)
  | some (.vbool b) => b
  | some (.varr _) => true

/-- Variables mapping in `Object.entries` (insertion) order. -/
def TVars : Type := List (String × TVal)

/-- Lookup `variables[name]`. -/
def lookupVar (vars : TVars) (name : String) : Option TVal :=
  (vars.find? (fun p => p.1 = name)).map Prod.snd

/-- JavaScript word character (`\w`): ASCII letter, digit or underscore. -/
def isWordChar (c : Char) : Bool := c.isAlphanum || c = '_'

/-- Global literal replacement, as `String.replace(new RegExp(lit, 'g'),
rep)`: leftmost non-overlapping matches, scanning resumes after each
replacement. -/
def replaceAllFuel : Nat → List Char → List Char → List Char → List Char
  | 0, s, _, _ => s
  | fuel + 1, s, pat, rep =>
      match s with
      | [] => []
      | c :: rest =>
          if pat ≠ [] ∧ pat.isPrefixOf (c :: rest) then
            rep ++ replaceAllFuel fuel ((c :: rest).drop pat.length) pat rep
          else
            c :: replaceAllFuel fuel rest pat rep

/-- Wrapper seeding the fuel with the input length. -/
def replaceAll (s pat rep : List Char) : List Char :=
  replaceAllFuel s.length s pat rep

/-- Pass 1 of `replaceVariables`: for each mapping entry in order, replace
every occurrence of the literal token `\x7b\x7bkey\x7d\x7d` in the whole
text by `String(value)`. -/
def substPass (vars : TVars) (t : List Char) : List Char :=
  vars.foldl
    (fun acc kv =>
      replaceAll acc ("\x7b\x7b".data ++ kv.1.data ++ "\x7d\x7d".data)
        kv.2.jsToString.data) t

/-- Split a character list at the first occurrence of `pat`, returning the
text before it and the text after it. -/
def splitAtSub (pat : List Char) : List Char → Option (List Char × List Char)
  | [] => if pat = [] then some ([], []) else none
  | c :: rest =>
      if pat ≠ [] ∧ pat.isPrefixOf (c :: rest) then
        some ([], (c :: rest).drop pat.length)
      else
        (splitAtSub pat rest).map (fun p => (c :: p.1, p.2))

/-- Pass 2 of `replaceVariables`: the global regex
`\x7b\x7b#if (\w+)\x7d\x7d([\s\S]*?)\x7b\x7b/if\x7d\x7d` replaces each
leftmost match by its (lazily matched) content when the variable is truthy
and by the empty string otherwise; scanning resumes after the match. -/
def processIfFuel (vars : TVars) : Nat → List Char → List Char
  | 0, s => s
  | fuel + 1, s =>
      match s with
      | [] => []
      | c :: rest =>
          if "\x7b\x7b#if ".data.isPrefixOf (c :: rest) then
            let afterTag := (c :: rest).drop 6
            let w := afterTag.takeWhile isWordChar
            let afterW := afterTag.drop w.length
            if w ≠ [] ∧ "\x7d\x7d".data.isPrefixOf afterW then
              match splitAtSub "\x7b\x7b/if\x7d\x7d".data (afterW.drop 2) with
              | some (content, tail) =>
                  (if TVal.truthyVar (lookupVar vars (String.mk w)) then content
                   else []) ++ processIfFuel vars fuel tail
              | none => c :: processIfFuel vars fuel rest
            else c :: processIfFuel vars fuel rest
          else c :: processIfFuel vars fuel rest

/-- Body of the `\x7b\x7b#each\x7d\x7d` replacement for one array element:
for each field of the element in order, replace its
`\x7b\x7bprop\x7d\x7d` tokens in the loop body by `String(value)`. -/
def renderItem (body : List Char) (item : List (String × TVal)) : List Char :=
  item.foldl
    (fun acc kv =>
      replaceAll acc ("\x7b\x7b".data ++ kv.1.data ++ "\x7d\x7d".data)
        kv.2.jsToString.data) body

/-- Pass 3 of `replaceVariables`: the global regex
`\x7b\x7b#each (\w+)\x7d\x7d([\s\S]*?)\x7b\x7b/each\x7d\x7d` replaces each
leftmost match by the concatenated per-element renderings when the variable
is an array, and by the empty string otherwise (missing or non-array). -/
def processEachFuel (vars : TVars) : Nat → List Char → List Char
  | 0, s => s
  | fuel + 1, s =>
      match s with
      | [] => []
      | c :: rest =>
          if "\x7b\x7b#each ".data.isPrefixOf (c :: rest) then
            let afterTag := (c :: rest).drop 8
            let w := afterTag.takeWhile isWordChar
            let afterW := afterTag.drop w.length
            if w ≠ [] ∧ "\x7d\x7d".data.isPrefixOf afterW then
              match splitAtSub "\x7b\x7b/each\x7d\x7d".data (afterW.drop 2) with
              | some (content, tail) =>
                  (match lookupVar vars (String.mk w) with
                   | some (.varr items) => (items.map (renderItem content)).flatten
                   | _ => []) ++ processEachFuel vars fuel tail
              | none => c :: processEachFuel vars fuel rest
            else c :: processEachFuel vars fuel rest
          else c :: processEachFuel vars fuel rest

namespace PromptTemplates

/-- Embedding of `PromptTemplates.replaceVariables(template, variables)`:
pass 1 literal substitution over the whole text, then pass 2 conditional
blocks, then pass 3 loop expansion. -/
def replaceVariables (template : String) (vars : TVars) : String :=
  let p1 := substPass vars template.data
  let p2 := processIfFuel vars p1.length p1
  let p3 := processEachFuel vars p2.length p2
  String.mk p3

/-- Embedding of `PromptTemplates.estimateTokens(text)`:
`Math.ceil(text.length / 4)`. -/
def estimateTokens (text : String) : Nat := (text.length + 3) / 4

end PromptTemplates

/-! ### Prompt template definitions (prompts.ts static objects) -/

/-- Shape of the four static prompt-template objects in prompts.ts. -/
structure PromptTemplateDef where
  id : String
  name : String
  version : String
  analysisType : String
  template : String
  «variables» : List String
  estimatedTokens : Nat
  deriving Repr, DecidableEq

/-- Embedding of `PromptTemplates.QUICK_SCAN`. -/
def PromptTemplates.QUICK_SCAN : PromptTemplateDef where
  id := "quick_scan_v1"
  name := "Quick Channel Scan"
  version := "1.0"
  analysisType := "QUICK_SCAN"
  template := 
    "Analyze this YouTube channel for a quick assessment:\n\nChannel: \x7b\x7bchannelTitle\x7d\x7d\n" ++
    ("Description: \x7b\x7bchannelDescription\x7d\x7d\nSubscribers: \x7b\x7bsubscriberCount\x7d\x7d\nVideos: \x7b\x7bvideoCount\x7d\x7d\n" ++
    ("Total Views: \x7b\x7bviewCount\x7d\x7d\nContent Type: \x7b\x7bcontentType\x7d\x7d\nTopics: \x7b\x7btopics\x7d\x7d\n\n" ++
    ("Provide a concise analysis in JSON format:\n\x7b\n \"strengths\": \x7b\n   \"summa" ++
    ("ry\": \"Brief overview of main strengths\",\n   \"details\": [\"strength 1\", " ++
    ("\"strength 2\", \"strength 3\"],\n   \"score\": 0-100\n \x7d,\n \"weaknesses\": \x7b\n   \"summa" ++
    ("ry\": \"Brief overview of main weaknesses\",\n   \"details\": [\"weakness 1\"," ++
    (" \"weakness 2\"],\n   \"areas\": [\"area for improvement 1\", \"area 2\"]\n \x7d,\n " ++
    ("\"opportunities\": \x7b\n   \"summary\": \"Key growth opportunities\",\n   \"recom" ++
    ("mendations\": [\n     \x7b\n       \"title\": \"Recommendation title\",\n       \"" ++
    ("description\": \"Detailed description\",\n       \"priority\": \"HIGH|MEDIUM|" ++
    ("LOW\",\n       \"estimatedImpact\": \"Description of potential impact\"\n    " ++
    (" \x7d\n   ]\n \x7d,\n \"scores\": \x7b\n   \"overall\": 0-100,\n   \"contentQuality\": 0-1" ++
    ("00,\n   \"engagement\": 0-100,\n   \"growthPotential\": 0-100\n \x7d\n\x7d\n\nFocus on" ++
    (" actionable insights. Be specific and constructive." ++
    ""))))))))))))))
  «variables» := ["channelTitle", "channelDescription", "subscriberCount", "videoCount", "viewCount", "contentType", "topics"]
  estimatedTokens := 800

/-- Embedding of `PromptTemplates.DEEP_DIVE`. -/
def PromptTemplates.DEEP_DIVE : PromptTemplateDef where
  id := "deep_dive_v1"
  name := "Deep Channel Analysis"
  version := "1.0"
  analysisType := "DEEP_DIVE"
  template := 
    "Perform a comprehensive analysis of this YouTube channel:\n\nChannel Inf" ++
    ("ormation:\n- Title: \x7b\x7bchannelTitle\x7d\x7d\n- Description: \x7b\x7bchannelDescription\x7d\x7d\n" ++
    ("- Subscribers: \x7b\x7bsubscriberCount\x7d\x7d\n- Total Videos: \x7b\x7bvideoCount\x7d\x7d\n- To" ++
    ("tal Views: \x7b\x7bviewCount\x7d\x7d\n- Content Type: \x7b\x7bcontentType\x7d\x7d\n- Topics: \x7b\x7btopics\x7d\x7d\n-" ++
    (" Published: \x7b\x7bpublishedAt\x7d\x7d\n\n\x7b\x7b#if recentVideos\x7d\x7d\nRecent Videos Performance:\n\x7b\x7b#each recentVideos\x7d\x7d\n- \"\x7b\x7btitle\x7d\x7d\" - \x7b\x7bviews\x7d\x7d views, \x7b\x7blikes\x7d\x7d likes, \x7b\x7bcomments\x7d\x7d comments (\x7b\x7bpublishedAt\x7d\x7d)\n\x7b\x7b/each\x7d\x7d\n\x7b\x7b/if\x7d\x7d\n\nPro" ++
    ("vide a detailed analysis in JSON format with:\n\n1. **Comprehensive Stre" ++
    ("ngths Analysis**\n2. **Detailed Weaknesses Assessment**\n3. **Growth Opp" ++
    ("ortunities with Priorities**\n4. **Content Strategy Recommendations**\n5" ++
    (". **Competitive Positioning**\n6. **Detailed Scoring with Rationale**\n\n" ++
    ("JSON Response Format:\n\x7b\n \"strengths\": \x7b\n   \"summary\": \"Detailed overvi" ++
    ("ew of channel strengths\",\n   \"details\": [\"specific strength with evide" ++
    ("nce\", \"strength 2\", \"strength 3\", \"strength 4\", \"strength 5\"],\n   \"sco" ++
    ("re\": 0-100\n \x7d,\n \"weaknesses\": \x7b\n   \"summary\": \"Comprehensive weakness " ++
    ("analysis\",\n   \"details\": [\"specific weakness with suggestion\", \"weakne" ++
    ("ss 2\", \"weakness 3\"],\n   \"areas\": [\"improvement area 1\", \"area 2\", \"ar" ++
    ("ea 3\"]\n \x7d,\n \"opportunities\": \x7b\n   \"summary\": \"Strategic growth opportu" ++
    ("nities\",\n   \"recommendations\": [\n     \x7b\n       \"title\": \"Specific acti" ++
    ("onable recommendation\",\n       \"description\": \"Detailed implementation" ++
    (" strategy\",\n       \"priority\": \"HIGH|MEDIUM|LOW\",\n       \"estimatedImp" ++
    ("act\": \"Quantified impact description\"\n     \x7d\n   ]\n \x7d,\n \"contentStrateg" ++
    ("y\": \x7b\n   \"recommendedTopics\": [\"topic 1\", \"topic 2\", \"topic 3\"],\n   \"c" ++
    ("ontentGaps\": [\"gap 1\", \"gap 2\"],\n   \"optimizationTips\": [\"tip 1\", \"tip" ++
    (" 2\", \"tip 3\"]\n \x7d,\n \"scores\": \x7b\n   \"overall\": 0-100,\n   \"contentQuality" ++
    ("\": 0-100,\n   \"engagement\": 0-100,\n   \"growthPotential\": 0-100\n \x7d\n\x7d\n\nPr" ++
    ("ovide data-driven insights with specific examples and actionable recom" ++
    ("mendations." ++
    "")))))))))))))))))))))))))
  «variables» := ["channelTitle", "channelDescription", "subscriberCount", "videoCount", "viewCount", "contentType", "topics", "publishedAt", "recentVideos"]
  estimatedTokens := 1500

/-- Embedding of `PromptTemplates.COMPETITOR_COMPARE`. -/
def PromptTemplates.COMPETITOR_COMPARE : PromptTemplateDef where
  id := "competitor_compare_v1"
  name := "Competitor Comparison"
  version := "1.0"
  analysisType := "COMPETITOR_COMPARE"
  template := 
    "Analyze this channel in comparison to its competitive landscape:\n\nTarg" ++
    ("et Channel:\n- Title: \x7b\x7bchannelTitle\x7d\x7d\n- Subscribers: \x7b\x7bsubscriberCount\x7d\x7d\n" ++
    ("- Content Type: \x7b\x7bcontentType\x7d\x7d\n- Topics: \x7b\x7btopics\x7d\x7d\n\nAnalyze competit" ++
    ("ive positioning and provide strategic insights in JSON format:\n\n\x7b\n \"strengt" ++
    ("hs\": \x7b\n   \"summary\": \"Competitive advantages analysis\",\n   \"details\": " ++
    ("[\"unique strength vs competitors\", \"advantage 2\", \"advantage 3\"],\n   \"" ++
    ("score\": 0-100\n \x7d,\n \"weaknesses\": \x7b\n   \"summary\": \"Competitive disadvan" ++
    ("tages\",\n   \"details\": [\"gap vs competitors\", \"weakness 2\"],\n   \"areas\"" ++
    (": [\"area to match competitors\", \"improvement area 2\"]\n \x7d,\n \"opportunit" ++
    ("ies\": \x7b\n   \"summary\": \"Market gaps and opportunities\",\n   \"recommendat" ++
    ("ions\": [\n     \x7b\n       \"title\": \"Competitive opportunity\",\n       \"des" ++
    ("cription\": \"How to capitalize vs competitors\",\n       \"priority\": \"HIG" ++
    ("H|MEDIUM|LOW\",\n       \"estimatedImpact\": \"Competitive advantage gained" ++
    ("\"\n     \x7d\n   ]\n \x7d,\n \"competitors\": \x7b\n   \"similarChannels\": [\n     \x7b\n       \"c" ++
    ("hannelId\": \"estimated_channel_id\",\n       \"name\": \"Competitor channel " ++
    ("name\",\n       \"subscribers\": 0,\n       \"whyRelevant\": \"Why this channe" ++
    ("l is a relevant competitor\"\n     \x7d\n   ],\n   \"competitiveAdvantages\": [" ++
    ("\"advantage 1\", \"advantage 2\"],\n   \"gaps\": [\"gap to fill\", \"gap 2\"]\n \x7d," ++
    ("\n \"scores\": \x7b\n   \"overall\": 0-100,\n   \"contentQuality\": 0-100,\n   \"eng" ++
    ("agement\": 0-100,\n   \"growthPotential\": 0-100\n \x7d\n\x7d\n\nFocus on competitiv" ++
    ("e differentiation and market positioning." ++
    ""))))))))))))))))))))
  «variables» := ["channelTitle", "subscriberCount", "contentType", "topics"]
  estimatedTokens := 1200

/-- Embedding of `PromptTemplates.GROWTH_STRATEGY`. -/
def PromptTemplates.GROWTH_STRATEGY : PromptTemplateDef where
  id := "growth_strategy_v1"
  name := "Growth Strategy Analysis"
  version := "1.0"
  analysisType := "GROWTH_STRATEGY"
  template := 
    "Create a comprehensive growth strategy for this YouTube channel:\n\nChan" ++
    ("nel Details:\n- Title: \x7b\x7bchannelTitle\x7d\x7d\n- Current Subscribers: \x7b\x7bsubscriberCount\x7d\x7d\n" ++
    ("- Content Focus: \x7b\x7bcontentType\x7d\x7d\n- Topics: \x7b\x7btopics\x7d\x7d\n\n\x7b\x7b#if recentVideos\x7d\x7d\n" ++
    ("Recent Performance:\n\x7b\x7b#each recentVideos\x7d\x7d\n- \"\x7b\x7btitle\x7d\x7d\" - \x7b\x7bviews\x7d\x7d views, \x7b\x7blikes\x7d\x7d likes (\x7b\x7bpublishedAt\x7d\x7d)\n\x7b\x7b/each\x7d\x7d\n\x7b\x7b/if\x7d\x7d\n\nDev" ++
    ("elop a strategic growth plan in JSON format:\n\n\x7b\n \"strengths\": \x7b\n   \"summa" ++
    ("ry\": \"Current assets to leverage for growth\",\n   \"details\": [\"leverage" ++
    ("able strength 1\", \"growth asset 2\", \"strength 3\"],\n   \"score\": 0-100\n " ++
    ("\x7d,\n \"weaknesses\": \x7b\n   \"summary\": \"Growth blockers to address\",\n   \"de" ++
    ("tails\": [\"growth blocker 1\", \"limiting factor 2\"],\n   \"areas\": [\"criti" ++
    ("cal improvement area\", \"optimization area 2\"]\n \x7d,\n \"opportunities\": \x7b\n   \"summa" ++
    ("ry\": \"Strategic growth opportunities\",\n   \"recommendations\": [\n     \x7b\n       \"t" ++
    ("itle\": \"Growth strategy recommendation\",\n       \"description\": \"Detail" ++
    ("ed implementation plan with timeline\",\n       \"priority\": \"HIGH|MEDIUM" ++
    ("|LOW\",\n       \"estimatedImpact\": \"Expected growth outcome (subscribers" ++
    (", views, etc.)\"\n     \x7d\n   ]\n \x7d,\n \"contentStrategy\": \x7b\n   \"recommendedT" ++
    ("opics\": [\"high-growth topic 1\", \"trending topic 2\", \"niche topic 3\"],\n" ++
    ("   \"contentGaps\": [\"underserved content area 1\", \"gap 2\"],\n   \"optimiz" ++
    ("ationTips\": [\n     \"SEO optimization strategy\",\n     \"Engagement optim" ++
    ("ization tip\",\n     \"Algorithm optimization strategy\"\n   ]\n \x7d,\n \"scores" ++
    ("\": \x7b\n   \"overall\": 0-100,\n   \"contentQuality\": 0-100,\n   \"engagement\":" ++
    (" 0-100,\n   \"growthPotential\": 0-100\n \x7d\n\x7d\n\nFocus on actionable, timelin" ++
    ("e-specific growth strategies with measurable outcomes." ++
    "")))))))))))))))))))))
  «variables» := ["channelTitle", "subscriberCount", "contentType", "topics", "recentVideos"]
  estimatedTokens := 1400

/-- Embedding of `PromptTemplates.getPromptTemplate(analysisType)`:
returns the template for the four known kinds, throws
`Unknown analysis type` otherwise. -/
def PromptTemplates.getPromptTemplate (analysisType : String) :
    Except String PromptTemplateDef :=
  if analysisType = "QUICK_SCAN" then .ok PromptTemplates.QUICK_SCAN
  else if analysisType = "DEEP_DIVE" then .ok PromptTemplates.DEEP_DIVE
  else if analysisType = "COMPETITOR_COMPARE" then .ok PromptTemplates.COMPETITOR_COMPARE
  else if analysisType = "GROWTH_STRATEGY" then .ok PromptTemplates.GROWTH_STRATEGY
  else .error ("Unknown analysis type: " ++ analysisType)

/-! ### Referenced template variables (for the declared-superset property)

A scanner over the template text collecting the variable names it
references: plain `\x7b\x7bname\x7d\x7d` tokens plus the names of
`\x7b\x7b#if name\x7d\x7d` and `\x7b\x7b#each name\x7d\x7d` directives.
With `skipEachBodies = true` the tokens inside `\x7b\x7b#each\x7d\x7d`
bodies are skipped (those positions are filled from array-element fields,
not from the variables mapping); with `false` every token in the text is
collected.  The scan is tail-recursive over an accumulator (returned in
scan order); positions whose head is not a brace are skipped via a fast
path. -/
def scanVarsFuel (skipEachBodies : Bool) :
    List String → Nat → List Char → List String
  | acc, 0, _ => acc.reverse
  | acc, fuel + 1, s =>
      match s with
      | [] => acc.reverse
      | c :: rest =>
          if c = '\x7b' then
            if "\x7b\x7b#each ".data.isPrefixOf s then
              let afterTag := s.drop 8
              let w := afterTag.takeWhile isWordChar
              let afterW := afterTag.drop w.length
              if w ≠ [] ∧ "\x7d\x7d".data.isPrefixOf afterW then
                if skipEachBodies then
                  match splitAtSub "\x7b\x7b/each\x7d\x7d".data (afterW.drop 2) with
                  | some (_, tail) =>
                      scanVarsFuel skipEachBodies (String.mk w :: acc) fuel tail
                  | none =>
                      scanVarsFuel skipEachBodies (String.mk w :: acc) fuel
                        (afterW.drop 2)
                else
                  scanVarsFuel skipEachBodies (String.mk w :: acc) fuel (afterW.drop 2)
              else scanVarsFuel skipEachBodies acc fuel rest
            else if "\x7b\x7b#if ".data.isPrefixOf s then
              let afterTag := s.drop 6
              let w := afterTag.takeWhile isWordChar
              let afterW := afterTag.drop w.length
              if w ≠ [] ∧ "\x7d\x7d".data.isPrefixOf afterW then
                scanVarsFuel skipEachBodies (String.mk w :: acc) fuel (afterW.drop 2)
              else scanVarsFuel skipEachBodies acc fuel rest
            else if "\x7b\x7b".data.isPrefixOf s then
              let afterTag := s.drop 2
              let w := afterTag.takeWhile isWordChar
              if w ≠ [] ∧ "\x7d\x7d".data.isPrefixOf (afterTag.drop w.length) then
                scanVarsFuel skipEachBodies (String.mk w :: acc) fuel
                  (afterTag.drop (w.length + 2))
              else scanVarsFuel skipEachBodies acc fuel rest
            else scanVarsFuel skipEachBodies acc fuel rest
          else scanVarsFuel skipEachBodies acc fuel rest

/-- Fuel bound for the template scanners: an upper bound on the scan step
count, far above the length of every template in the repository. -/
def scanFuelBound : Nat := 100000

/-- Every variable name referenced anywhere in the template text, including
tokens inside `\x7b\x7b#if\x7d\x7d` and `\x7b\x7b#each\x7d\x7d` blocks. -/
def referencedVarsAll (template : String) : List String :=
  scanVarsFuel false [] scanFuelBound template.data

/-- Variable names referenced outside `\x7b\x7b#each\x7d\x7d` loop bodies
(including the `#if` and `#each` directive names themselves). -/
def referencedVarsTop (template : String) : List String :=
  scanVarsFuel true [] scanFuelBound template.data

/-! ### Analyzer orchestration (analyzer.ts `AIAnalyzer`)

The provider clients (`OpenAIService.analyzeChannel`,
`ClaudeService.analyzeChannel`) wrap their whole body in `try/catch` and
always return a tagged `AIServiceResponse` value — they never throw.  Each
configured client is therefore modelled as an oracle from the request and
model to the tagged result it returns (the oracle absorbs the external
HTTP call and response parsing).  Exceptions thrown inside the analyzer
itself are modelled by `Except.error` with the thrown message; an
`Except.error` escaping `analyzeChannel` models an uncaught rejection of
the returned promise. -/

/-- The `AIProvider` union type (types.ts). -/
inductive AIProvider where
  | openai | claude | google
  deriving Repr, DecidableEq

/-- String value of a provider tag. -/
def AIProvider.toString : AIProvider → String
  | .openai => "openai"
  | .claude => "claude"
  | .google => "google"

/-- The `analysisType` union of `AIAnalysisRequest` (types.ts). -/
inductive AnalysisType where
  | QUICK_SCAN | DEEP_DIVE | COMPETITOR_COMPARE | GROWTH_STRATEGY
  deriving Repr, DecidableEq

/-- String value of an analysis type. -/
def AnalysisType.toString : AnalysisType → String
  | .QUICK_SCAN => "QUICK_SCAN"
  | .DEEP_DIVE => "DEEP_DIVE"
  | .COMPETITOR_COMPARE => "COMPETITOR_COMPARE"
  | .GROWTH_STRATEGY => "GROWTH_STRATEGY"

/-- An element of `channelData.recentVideos` (types.ts). -/
structure ChannelVideo where
  title : String
  views : Nat
  likes : Nat
  comments : Nat
  publishedAt : String
  deriving Repr, DecidableEq

/-- The `channelData` field of `AIAnalysisRequest` (types.ts). -/
structure ChannelData where
  id : String
  title : String
  description : String
  subscriberCount : Nat
  videoCount : Nat
  viewCount : Nat
  contentType : String
  topics : List String
  recentVideos : Option (List ChannelVideo) := none
  deriving Repr, DecidableEq

/-- The `AIAnalysisRequest` input value (types.ts); the optional `options`
flags are irrelevant to the orchestration logic and omitted from use. -/
structure AIAnalysisRequest where
  channelData : ChannelData
  analysisType : AnalysisType
  deriving Repr, DecidableEq

/-- Error part of an `AIServiceResponse` (types.ts). -/
structure ServiceResultError where
  code : String
  message : String
  provider : Option AIProvider := none
  deriving Repr, DecidableEq

/-- Metadata part of an `AIServiceResponse` (types.ts). -/
structure ServiceResultMeta where
  requestId : String
  processingTime : Nat
  tokensUsed : Nat
  costCents : Int
  deriving Repr, DecidableEq

/-- A tagged `AIServiceResponse<AIAnalysisResponse>` value (types.ts). -/
structure ServiceResult where
  success : Bool
  data : Option AIAnalysisResponse := none
  error : Option ServiceResultError := none
  metadata : ServiceResultMeta
  deriving Repr

/-- Behaviour of one provider client's `analyzeChannel(request, model)`:
the tagged result it returns (provider clients never throw). -/
def ProviderOracle : Type := AIAnalysisRequest → String → ServiceResult

/-- Analyzer state after construction: a provider client exists exactly
when its API key was configured. -/
structure AnalyzerConfig where
  openaiService : Option ProviderOracle := none
  claudeService : Option ProviderOracle := none

/-- Options argument of `AIAnalyzer.analyzeChannel`. -/
structure AnalyzeOptions where
  provider : Option AIProvider := none
  model : Option String := none
  fallbackProvider : Option AIProvider := none
  deriving Repr, DecidableEq

namespace AIAnalyzer

/-- Embedding of `AIAnalyzer.selectOptimalProvider(request)`: prefer Claude
for DEEP_DIVE / GROWTH_STRATEGY, OpenAI for QUICK_SCAN, then any available
service in the order OpenAI, Claude; throws when no service exists. -/
def selectOptimalProvider (cfg : AnalyzerConfig) (request : AIAnalysisRequest) :
    Except String AIProvider :=
  if (request.analysisType = .DEEP_DIVE ∨ request.analysisType = .GROWTH_STRATEGY)
      ∧ cfg.claudeService.isSome then .ok .claude
  else if request.analysisType = .QUICK_SCAN ∧ cfg.openaiService.isSome then
    .ok .openai
  else if cfg.openaiService.isSome then .ok .openai
  else if cfg.claudeService.isSome then .ok .claude
  else .error "No AI services available. Check API keys."

/-- Embedding of `AIAnalyzer.getDefaultModel(provider)`; throws for the
`google` tag, which has no client. -/
def getDefaultModel : AIProvider → Except String String
  | .openai => .ok "gpt-4-turbo"
  | .claude => .ok "claude-3-sonnet"
  | .google => .error "Unknown provider: google"

/-- Embedding of `AIAnalyzer.estimateInputTokens(request)`:
500 base tokens, one token per four characters of title and description
(rounded up), 50 for metadata, 100 per recent video, plus a per-type
constant. -/
def estimateInputTokens (request : AIAnalysisRequest) : Nat :=
  let base := 500 + (request.channelData.title.length + 3) / 4
      + (request.channelData.description.length + 3) / 4 + 50
      + (match request.channelData.recentVideos with
         | some vs => vs.length * 100
         | none => 0)
  base + (match request.analysisType with
          | .QUICK_SCAN => 300
          | .DEEP_DIVE => 800
          | .COMPETITOR_COMPARE => 600
          | .GROWTH_STRATEGY => 700)

/-- Embedding of `AIAnalyzer.estimateOutputTokens(analysisType)`. -/
def estimateOutputTokens : AnalysisType → Nat
  | .QUICK_SCAN => 800
  | .DEEP_DIVE => 1500
  | .COMPETITOR_COMPARE => 1200
  | .GROWTH_STRATEGY => 1400

/-- The `CostEstimate` result shape (types.ts). -/
structure CostEstimate where
  provider : AIProvider
  model : String
  estimatedInputTokens : Nat
  estimatedOutputTokens : Nat
  estimatedCostCents : Int
  deriving Repr, DecidableEq

/-- Embedding of `AIAnalyzer.estimateCost(request, provider, model)` with
the model already resolved: looks up the provider's model configuration
(throwing `Unsupported provider` for `google` and `Unknown model` for an
unknown model id) and prices the estimated tokens. -/
def estimateCost (request : AIAnalysisRequest) (provider : AIProvider)
    (model : String) : Except String CostEstimate :=
  let configO : Except String (Option AIModelConfig) :=
    match provider with
    | .openai => .ok (OpenAIService.getModelConfig model)
    | .claude => .ok (ClaudeService.getModelConfig model)
    | .google => .error "Unsupported provider: google"
  match configO with
  | .error e => .error e
  | .ok none =>
      .error ("Unknown model: " ++ model ++ " for provider: " ++ provider.toString)
  | .ok (some config) =>
      let estimatedInputTokens := estimateInputTokens request
      let estimatedOutputTokens := estimateOutputTokens request.analysisType
      let inputCost := ((estimatedInputTokens : Rat) / 1000) * config.costPerInputToken
      let outputCost := ((estimatedOutputTokens : Rat) / 1000) * config.costPerOutputToken
      .ok { provider := provider, model := model,
            estimatedInputTokens := estimatedInputTokens,
            estimatedOutputTokens := estimatedOutputTokens,
            estimatedCostCents := jsRound ((inputCost + outputCost) * 100) }

/-- The failed `UsageRecord` written in the catch branch of
`analyzeChannel` (zero tokens and cost, `success=false`, error message). -/
def failedUsage (provider : AIProvider) (model : String)
    (request : AIAnalysisRequest) (emsg : String) : UsageRecord :=
  { provider := provider.toString, model := model,
    analysisType := request.analysisType.toString,
    tokensUsed := 0, costCents := 0, processingTime := 0,
    success := false, error := some emsg }

/-- The successful `UsageRecord` written when the provider result is
tagged `success`. -/
def successUsage (provider : AIProvider) (model : String)
    (request : AIAnalysisRequest) (result : ServiceResult) : UsageRecord :=
  { provider := provider.toString, model := model,
    analysisType := request.analysisType.toString,
    tokensUsed := result.metadata.tokensUsed,
    costCents := result.metadata.costCents,
    processingTime := result.metadata.processingTime,
    success := true }

/-- The structured failure result returned from the catch branch of
`analyzeChannel` (`code: ANALYSIS_FAILED`, failing provider tagged). -/
def analysisFailedResult (emsg : String) (provider : AIProvider) (now : Int) :
    ServiceResult :=
  { success := false,
    error := some { code := "ANALYSIS_FAILED", message := emsg,
                    provider := some provider },
    metadata := { requestId := "failed_" ++ toString now,
                  processingTime := 0, tokensUsed := 0, costCents := 0 } }

/-- Embedding of `AIAnalyzer.analyzeChannel(request, options)` at clock
value `now`, threading the cost tracker's history.  `Except.error` models
an exception escaping the method (the provider selection, default-model
lookup and cost estimation on lines 44-48 run before the `try` block, so
their throws are uncaught).  Inside the `try`, invoking a missing or
unsupported service throws, which the `catch` turns into a fallback
recursion (when a distinct fallback provider was given) or into one failed
usage record plus a structured failure result.  A provider client that
completes returns a tagged result: on `success` one successful usage
record is written, otherwise the failure result is returned unchanged. -/
def analyzeChannel (cfg : AnalyzerConfig) (request : AIAnalysisRequest)
    (options : AnalyzeOptions) (now : Int) (tracker : List UsageRecord) :
    Except String (ServiceResult × List UsageRecord) :=
  let providerE : Except String AIProvider :=
    match options.provider with
    | some p => .ok p
    | none => selectOptimalProvider cfg request
  match providerE with
  | .error e => .error e
  | .ok provider =>
    let modelE : Except String String :=
      match options.model with
      | some m => .ok m
      | none => getDefaultModel provider
    match modelE with
    | .error e => .error e
    | .ok model =>
      match estimateCost request provider model with
      | .error e => .error e
      | .ok _costEstimate =>
        let inv : Except String ServiceResult :=
          match provider with
          | .openai =>
              match cfg.openaiService with
              | none => .error "OpenAI service not initialized. Check API key."
              | some svc => .ok (svc request model)
          | .claude =>
              match cfg.claudeService with
              | none => .error "Claude service not initialized. Check API key."
              | some svc => .ok (svc request model)
          | .google => .error "Unsupported provider: google"
        match inv with
        | .ok result =>
            if result.success then
              .ok (result,
                CostTracker.recordUsage (successUsage provider model request result)
                  now tracker)
            else
              .ok (result, tracker)
        | .error emsg =>
            match hfb : options.fallbackProvider with
            | some fb =>
                if fb ≠ provider then
                  match getDefaultModel fb with
                  | .error e => .error e
                  | .ok fbModel =>
                      analyzeChannel cfg request
                        { provider := some fb, model := some fbModel,
                          fallbackProvider := none } now tracker
                else
                  .ok (analysisFailedResult emsg provider now,
                    CostTracker.recordUsage (failedUsage provider model request emsg)
                      now tracker)
            | none =>
                .ok (analysisFailedResult emsg provider now,
                  CostTracker.recordUsage (failedUsage provider model request emsg)
                    now tracker)
termination_by (if options.fallbackProvider.isSome then 1 else 0)
decreasing_by simp [hfb]

end AIAnalyzer

/-! ## Theorems -/

/-! ### Claim C5: provider cost functions -/

/-- Claim C5 (counterexample to the claim as stated).  The claim asserts
that the two providers' cost functions of
`(inputTokens, outputTokens, costPerInputToken, costPerOutputToken)` apply
different scale factors rather than being the same function.  In fact the
two functions are extensionally equal: Claude's
`(t/1000000) * cost * 1000` reduces to OpenAI's `(t/1000) * cost`. -/
theorem claim_C5_counterexample :
    ClaudeService.calculateCost = OpenAIService.calculateCost := by
  funext i o cfg
  unfold ClaudeService.calculateCost OpenAIService.calculateCost
  ring

/-- Claim C5 (amended): each provider computes invocation cost as
`(inputTokens/1000)*costPerInputToken + (outputTokens/1000)*costPerOutputToken`,
rounded to integer cents at the call site (`Math.round(totalCost * 100)`),
and the two providers' cost functions are the *same* function of the four
arguments — the per-1M notation in the Claude client cancels against its
`* 1000` factor. -/
theorem claim_C5 : ∀ (i o : Rat) (cfg : AIModelConfig),
    ClaudeService.calculateCost i o cfg = OpenAIService.calculateCost i o cfg
    ∧ toCents (OpenAIService.calculateCost i o cfg) =
        jsRound (((i / 1000) * cfg.costPerInputToken
          + (o / 1000) * cfg.costPerOutputToken) * 100)
    ∧ toCents (ClaudeService.calculateCost i o cfg) =
        jsRound (((i / 1000) * cfg.costPerInputToken
          + (o / 1000) * cfg.costPerOutputToken) * 100) := by
  intro i o cfg
  have h : ClaudeService.calculateCost i o cfg = OpenAIService.calculateCost i o cfg := by
    unfold ClaudeService.calculateCost OpenAIService.calculateCost
    ring
  refine ⟨h, ?_, ?_⟩
  · unfold toCents OpenAIService.calculateCost
    rfl
  · rw [h]
    unfold toCents OpenAIService.calculateCost
    rfl

/-! ### Claim C7: rate limiter -/

/-- Helper: starting from an entry with count `c` and reset time `R`, calls
whose clock values are all before `R` produce the counts `c+1, c+2, ...`. -/
theorem incrementMany_counts (key : String) (w : Int) :
    ∀ (ts : List Int) (store : RLStore) (c : Nat) (R : Int),
      store key = some ⟨c, R⟩ → (∀ t ∈ ts, t < R) →
      (MemoryStore.incrementMany key w store ts).1 = List.range' (c + 1) ts.length := by
  intro ts
  induction ts with
  | nil => intro store c R _ _; rfl
  | cons t ts ih =>
      intro store c R h ht
      have hlt : t < R := ht t (by simp)
      have hnle : ¬ R ≤ t := not_le.mpr hlt
      simp only [MemoryStore.incrementMany, MemoryStore.increment, h, hnle, if_false,
        List.length_cons]
      rw [List.range'_succ]
      refine congrArg (List.cons (c + 1)) ?_
      exact ih _ (c + 1) R (by simp) (fun t' ht' => ht t' (by simp [ht']))

/-- Claim C7: (i) for any key with window `w`, successive calls within one
window starting from no entry return hit counts `1, 2, 3, ...`;
(ii) the middleware flags a call as over-limit exactly when its hit count
exceeds `config.max`; (iii) a call at or after the entry's reset time
creates a fresh entry with count 1 and reset time `now + windowMs`;
(iv) the remaining count reported to the caller is never negative. -/
theorem claim_C7 :
    (∀ (store : RLStore) (key : String) (w t0 : Int) (ts : List Int),
       store key = none → (∀ t ∈ ts, t < t0 + w) →
       (MemoryStore.incrementMany key w store (t0 :: ts)).1 =
         List.range' 1 (ts.length + 1))
    ∧ (∀ (config : RateLimitConfig) (store : RLStore) (key : String) (now : Int),
        (createRateLimiter config store key now).1.blocked = true ↔
          (MemoryStore.increment store key config.windowMs now).1.totalHits
            > config.max)
    ∧ (∀ (store : RLStore) (key : String) (w now : Int) (e : RateLimitEntry),
        store key = some e → e.resetTime ≤ now →
        (MemoryStore.increment store key w now).1.totalHits = 1
        ∧ (MemoryStore.increment store key w now).2 key = some ⟨1, now + w⟩)
    ∧ (∀ (config : RateLimitConfig) (store : RLStore) (key : String) (now : Int),
        0 ≤ (createRateLimiter config store key now).1.remaining) := by
  refine ⟨?_, ?_, ?_, ?_⟩
  · intro store key w t0 ts h ht
    simp only [MemoryStore.incrementMany, MemoryStore.increment, h, List.length_cons]
    rw [List.range'_succ]
    refine congrArg (List.cons 1) ?_
    exact incrementMany_counts key w ts _ 1 (t0 + w) (by simp) ht
  · intro config store key now
    simp [createRateLimiter]
  · intro store key w now e h he
    constructor
    · simp [MemoryStore.increment, h, he]
    · simp [MemoryStore.increment, h, he]
  · intro config store key now
    simp [createRateLimiter]

/-- Claim C7 witness: the spec's concrete example — window 1000 ms, max 2:
three calls at times 0, 1, 2 from an empty store yield hit counts 1, 2, 3,
the third call (hit count 3 > 2) is flagged over-limit, a call at time
1000 (at the reset time) creates a fresh entry with count 1 and reset time
2000, and the reported remaining count of an over-limit call is
clamped at 0. -/
theorem claim_C7_witness :
    ((MemoryStore.incrementMany "analyze:u1" 1000 RLStore.empty [0, 1, 2]).1 =
      List.range' 1 3)
    ∧ ((createRateLimiter ⟨1000, 2⟩
          (fun _ => some ⟨2, 1000⟩) "analyze:u1" 2).1.blocked = true ↔
        (MemoryStore.increment (fun _ => some ⟨2, 1000⟩) "analyze:u1" 1000 2).1.totalHits
          > 2)
    ∧ ((MemoryStore.increment (fun _ => some ⟨3, 1000⟩) "analyze:u1" 1000 1000).1.totalHits = 1
       ∧ (MemoryStore.increment (fun _ => some ⟨3, 1000⟩) "analyze:u1" 1000 1000).2
           "analyze:u1" = some ⟨1, 2000⟩)
    ∧ 0 ≤ (createRateLimiter ⟨1000, 2⟩
          (fun _ => some ⟨2, 1000⟩) "analyze:u1" 2).1.remaining := by
  refine ⟨claim_C7.1 RLStore.empty "analyze:u1" 1000 0 [1, 2] rfl (by decide),
    claim_C7.2.1 ⟨1000, 2⟩ _ "analyze:u1" 2,
    ?_,
    claim_C7.2.2.2 ⟨1000, 2⟩ _ "analyze:u1" 2⟩
  have h := claim_C7.2.2.1 (fun _ => some ⟨3, 1000⟩) "analyze:u1" 1000 1000
    ⟨3, 1000⟩ rfl (by decide)
  simpa using h

/-! ### Claims C8 and C10: cost-tracker history -/

/-- Helper: one `recordUsage` call appends the timestamped record and keeps
the most recent `maxHistorySize` entries, uniformly written as a `drop`. -/
theorem recordUsage_eq_drop (rec : UsageRecord) (now : Int)
    (hist : List UsageRecord) :
    CostTracker.recordUsage rec now hist =
      (hist ++ [CostTracker.fullRecord rec now]).drop
        (hist.length + 1 - CostTracker.maxHistorySize) := by
  by_cases h : hist.length + 1 > CostTracker.maxHistorySize
  · simp [CostTracker.recordUsage, CostTracker.fullRecord, h]
  · have h0 : hist.length + 1 - CostTracker.maxHistorySize = 0 :=
      Nat.sub_eq_zero_of_le (not_lt.mp h)
    simp [CostTracker.recordUsage, CostTracker.fullRecord, h, h0]

/-- Helper: closed form of a whole sequence of `recordUsage` calls starting
from a history within the cap: the concatenation of the old history and the
timestamped records, with everything but the most recent
`maxHistorySize` entries dropped. -/
theorem recordAll_eq_drop :
    ∀ (calls : List (UsageRecord × Int)) (hist : List UsageRecord),
      hist.length ≤ CostTracker.maxHistorySize →
      CostTracker.recordAll hist calls =
        (hist ++ calls.map (fun c => CostTracker.fullRecord c.1 c.2)).drop
          (hist.length + calls.length - CostTracker.maxHistorySize) := by
  intro calls
  induction calls with
  | nil =>
      intro hist h
      simp [CostTracker.recordAll, Nat.sub_eq_zero_of_le h]
  | cons c cs ih =>
      intro hist h
      have hstep : CostTracker.recordAll hist (c :: cs)
          = CostTracker.recordAll (CostTracker.recordUsage c.1 c.2 hist) cs := rfl
      rw [hstep, recordUsage_eq_drop]
      rcases lt_or_eq_of_le h with hlt | heq
      · have h1 : hist.length + 1 - CostTracker.maxHistorySize = 0 :=
          Nat.sub_eq_zero_of_le hlt
        rw [h1, List.drop_zero]
        rw [ih _ (by simp [Nat.succ_le_of_lt hlt])]
        simp only [List.append_assoc, List.length_append, List.length_cons,
          List.length_nil, List.map_cons, List.singleton_append, List.length_map]
        have hidx : hist.length + 1 + cs.length - CostTracker.maxHistorySize
            = hist.length + (cs.length + 1) - CostTracker.maxHistorySize := by
          omega
        rw [hidx]
      · have h1 : hist.length + 1 - CostTracker.maxHistorySize = 1 := by omega
        rw [h1]
        have hlen : ((hist ++ [CostTracker.fullRecord c.1 c.2]).drop 1).length
            = CostTracker.maxHistorySize := by
          simp [heq]
        rw [ih _ (le_of_eq hlen)]
        rw [hlen]
        have hsplit : (hist ++ [CostTracker.fullRecord c.1 c.2]).drop 1
              ++ cs.map (fun c => CostTracker.fullRecord c.1 c.2)
            = ((hist ++ [CostTracker.fullRecord c.1 c.2])
              ++ cs.map (fun c => CostTracker.fullRecord c.1 c.2)).drop 1 :=
          (List.drop_append_of_le_length (by simp)).symm
        rw [hsplit, List.drop_drop]
        simp only [List.append_assoc, List.singleton_append]
        have hidx : 1 + (CostTracker.maxHistorySize + cs.length
              - CostTracker.maxHistorySize)
            = hist.length + (cs.length + 1) - CostTracker.maxHistorySize := by
          omega
        rw [hidx]
        simp only [List.map_cons, List.length_cons]

/-- Claim C8: after any sequence of `recordUsage` calls the tracker retains
at most 10,000 records (`min` of the call count and the cap), and after
exactly 10,001 calls it retains exactly 10,000 records, the earliest record
having been discarded first (the result is the timestamped records with the
first one dropped). -/
theorem claim_C8 :
    (∀ calls : List (UsageRecord × Int),
       (CostTracker.recordAll [] calls).length =
         min calls.length CostTracker.maxHistorySize)
    ∧ (∀ calls : List (UsageRecord × Int), calls.length = 10001 →
       CostTracker.recordAll [] calls =
         (calls.map (fun c => CostTracker.fullRecord c.1 c.2)).drop 1
       ∧ (CostTracker.recordAll [] calls).length = 10000) := by
  constructor
  · intro calls
    rw [recordAll_eq_drop calls [] (by simp)]
    simp only [List.nil_append, List.length_drop, List.length_map,
      List.length_nil, Nat.zero_add]
    unfold CostTracker.maxHistorySize
    omega
  · intro calls h
    have hp := recordAll_eq_drop calls [] (by simp)
    rw [h, List.nil_append] at hp
    have hidx : (List.length ([] : List UsageRecord)) + 10001
        - CostTracker.maxHistorySize = 1 := by
      unfold CostTracker.maxHistorySize
      simp
    rw [hidx] at hp
    refine ⟨hp, ?_⟩
    rw [hp]
    simp only [List.length_drop, List.length_map, h]

/-- Claim C8 witness: 10,001 concrete calls leave exactly 10,000 records
with the first discarded. -/
theorem claim_C8_witness :
    CostTracker.recordAll []
        (List.replicate 10001 (⟨"openai", "gpt-4-turbo", "QUICK_SCAN",
          100, 5, 200, true, none, none⟩, (0 : Int))) =
      ((List.replicate 10001 (⟨"openai", "gpt-4-turbo", "QUICK_SCAN",
          100, 5, 200, true, none, none⟩, (0 : Int))).map
        (fun c => CostTracker.fullRecord c.1 c.2)).drop 1
    ∧ (CostTracker.recordAll []
        (List.replicate 10001 (⟨"openai", "gpt-4-turbo", "QUICK_SCAN",
          100, 5, 200, true, none, none⟩, (0 : Int)))).length = 10000 :=
  claim_C8.2 _ (List.length_replicate 10001 _)

/-- Ordering of stored usage records by timestamp. -/
def tsLE (a b : UsageRecord) : Prop := CostTracker.tsOf a ≤ CostTracker.tsOf b

/-- Claim C10: (i) `recordUsage` stores exactly the input record with its
`timestamp` field replaced by the insertion time (appended, then capped);
(ii) any caller-supplied timestamp is ignored — the stored history does not
depend on it; (iii) when the existing history has non-decreasing timestamps
all at or before the insertion time, the updated history again has
non-decreasing timestamps all at or before the insertion time. -/
theorem claim_C10 :
    (∀ (rec : UsageRecord) (now : Int) (hist : List UsageRecord),
       CostTracker.recordUsage rec now hist =
         (hist ++ [CostTracker.fullRecord rec now]).drop
           (hist.length + 1 - CostTracker.maxHistorySize))
    ∧ (∀ (rec : UsageRecord) (ts0 : Option Int) (now : Int)
         (hist : List UsageRecord),
       CostTracker.recordUsage { rec with timestamp := ts0 } now hist =
         CostTracker.recordUsage rec now hist)
    ∧ (∀ (rec : UsageRecord) (now : Int) (hist : List UsageRecord),
       hist.Pairwise tsLE → (∀ r ∈ hist, CostTracker.tsOf r ≤ now) →
       (CostTracker.recordUsage rec now hist).Pairwise tsLE
       ∧ ∀ r ∈ CostTracker.recordUsage rec now hist, CostTracker.tsOf r ≤ now) := by
  refine ⟨recordUsage_eq_drop, fun rec ts0 now hist => rfl, ?_⟩
  intro rec now hist hsorted hle
  have hfull : CostTracker.tsOf (CostTracker.fullRecord rec now) = now := rfl
  have happ : (hist ++ [CostTracker.fullRecord rec now]).Pairwise tsLE := by
    rw [List.pairwise_append]
    refine ⟨hsorted, List.pairwise_singleton _ _, ?_⟩
    intro a ha b hb
    rw [List.mem_singleton] at hb
    subst hb
    unfold tsLE
    rw [hfull]
    exact hle a ha
  have hmem : ∀ r ∈ hist ++ [CostTracker.fullRecord rec now],
      CostTracker.tsOf r ≤ now := by
    intro r hr
    rcases List.mem_append.mp hr with h | h
    · exact hle r h
    · rw [List.mem_singleton] at h
      subst h
      rw [hfull]
  rw [recordUsage_eq_drop]
  exact ⟨happ.sublist (List.drop_sublist _ _),
    fun r hr => hmem r (List.mem_of_mem_drop hr)⟩

/-- Base record and history used by the C10 witness. -/
def c10rec : UsageRecord :=
  ⟨"openai", "gpt-4-turbo", "QUICK_SCAN", 100, 5, 200, true, none, none⟩

/-- History used by the C10 witness: timestamps 3 and 5. -/
def c10hist : List UsageRecord :=
  [⟨"claude", "claude-3-sonnet", "DEEP_DIVE", 50, 3, 100, true, none, some 3⟩,
   ⟨"openai", "gpt-4", "QUICK_SCAN", 60, 4, 150, false, none, some 5⟩]

/-- Claim C10 witness: a record carrying a stale caller timestamp inserted
at time 7 into a history with timestamps 3 and 5 is stored as if the caller
timestamp were absent, and the history stays non-decreasing and bounded by
the insertion time. -/
theorem claim_C10_witness :
    (CostTracker.recordUsage { c10rec with timestamp := some 999 } 7 c10hist =
      CostTracker.recordUsage c10rec 7 c10hist)
    ∧ ((CostTracker.recordUsage c10rec 7 c10hist).Pairwise tsLE
      ∧ ∀ r ∈ CostTracker.recordUsage c10rec 7 c10hist,
          CostTracker.tsOf r ≤ 7) := by
  refine ⟨claim_C10.2.1 c10rec (some 999) 7 c10hist,
    claim_C10.2.2 c10rec 7 c10hist ?_ ?_⟩
  · refine List.Pairwise.cons ?_ ?_
    · intro b hb
      rw [List.mem_singleton] at hb
      subst hb
      unfold tsLE CostTracker.tsOf
      decide
    · exact List.pairwise_singleton _ _
  · intro r hr
    rcases List.mem_cons.mp hr with h | h
    · subst h; decide
    · rw [List.mem_singleton] at h
      subst h; decide

/-! ### Claim C9: score clamping and confidence bounds -/

/-- Helper: `validateScore` always lands in `[0, 100]`. -/
theorem validateScore_bounds (v : Option JVal) :
    0 ≤ validateScore v ∧ validateScore v ≤ 100 := by
  unfold validateScore
  cases JVal.toNumber v with
  | none => exact ⟨le_refl 0, by norm_num⟩
  | some q =>
      refine ⟨le_max_left 0 _, max_le (by norm_num) (min_le_left 100 _)⟩

/-- Helper: the OpenAI confidence heuristic always lands in `[0, 1]`. -/
theorem openaiCalculateConfidence_bounds (r : AIAnalysisResponse) :
    0 ≤ openaiCalculateConfidence r ∧ openaiCalculateConfidence r ≤ 1 := by
  unfold openaiCalculateConfidence
  refine ⟨le_min (by norm_num) ?_, min_le_left 1 _⟩
  split_ifs <;> norm_num

/-- Helper: the Claude confidence heuristic always lands in `[0, 1]`. -/
theorem claudeCalculateConfidence_bounds (r : AIAnalysisResponse) :
    0 ≤ claudeCalculateConfidence r ∧ claudeCalculateConfidence r ≤ 1 := by
  unfold claudeCalculateConfidence
  refine ⟨le_min (by norm_num) ?_, min_le_left 1 _⟩
  split_ifs <;> norm_num

/-- Claim C9: every score of a successfully parsed provider payload lies in
`[0, 100]` and both providers' computed confidence lies in `[0, 1]`, for
arbitrary raw payloads; an out-of-range numeric score (150) is clamped to
100 and a non-numeric score (`"abc"`) is coerced to 0. -/
theorem claim_C9 :
    (∀ (parsed : JVal) (r : AIAnalysisResponse),
       parseAnalysisResponse parsed = .ok r →
       (0 ≤ r.strengths.score ∧ r.strengths.score ≤ 100)
       ∧ (0 ≤ r.scores.overall ∧ r.scores.overall ≤ 100)
       ∧ (0 ≤ r.scores.contentQuality ∧ r.scores.contentQuality ≤ 100)
       ∧ (0 ≤ r.scores.engagement ∧ r.scores.engagement ≤ 100)
       ∧ (0 ≤ r.scores.growthPotential ∧ r.scores.growthPotential ≤ 100)
       ∧ (0 ≤ openaiCalculateConfidence r ∧ openaiCalculateConfidence r ≤ 1)
       ∧ (0 ≤ claudeCalculateConfidence r ∧ claudeCalculateConfidence r ≤ 1))
    ∧ validateScore (some (.jnum 150)) = 100
    ∧ validateScore (some (.jstr "abc")) = 0 := by
  have h150 : jsRound (150 : Rat) = 150 := by
    unfold jsRound
    norm_num
  refine ⟨?_, ?_, ?_⟩
  case refine_2 =>
    simp only [validateScore, JVal.toNumber, JVal.numberOfLeaf]
    rw [h150]
    decide
  case refine_3 =>
    have habc : JVal.numberOfString "abc" = none := by decide
    simp only [validateScore, JVal.toNumber, JVal.numberOfLeaf, habc]
  intro parsed r h
  unfold parseAnalysisResponse at h
  split_ifs at h
  all_goals first
    | exact Except.noConfusion h
    | (simp only [Except.ok.injEq] at h
       subst h
       exact ⟨validateScore_bounds _, validateScore_bounds _, validateScore_bounds _,
         validateScore_bounds _, validateScore_bounds _,
         openaiCalculateConfidence_bounds _, claudeCalculateConfidence_bounds _⟩)

/-- Raw payload used by the C9 witness: score 150 (out of range), score
`"abc"` (non-numeric), score −7 (negative), a `null` score, and garbled
section bodies. -/
def c9payload : JVal :=
  .jobj [("strengths", .jobj [("summary", .jstr "good"),
            ("details", .jarr [.jstr "a", .jstr "b", .jstr "c"]),
            ("score", .jnum 150)]),
         ("weaknesses", .jobj [("summary", .jstr "w"),
            ("details", .jarr []), ("areas", .jnum 5)]),
         ("opportunities", .jobj [("recommendations", .jstr "abc")]),
         ("scores", .jobj [("overall", .jnum 150),
            ("contentQuality", .jstr "abc"),
            ("engagement", .jnum (-7)),
            ("growthPotential", .jnull)])]

/-- The structurally valid response obtained from the garbled payload:
150 clamped to 100, `"abc"` and `null` coerced to 0, −7 clamped to 0,
non-array fields defaulted to empty arrays. -/
def c9result : AIAnalysisResponse where
  strengths := { summary := .jstr "good",
                 details := [.jstr "a", .jstr "b", .jstr "c"], score := 100 }
  weaknesses := { summary := .jstr "w", details := [], areas := [] }
  opportunities := { summary := .jstr "", recommendations := [] }
  competitors := none
  contentStrategy := none
  scores := { overall := 100, contentQuality := 0, engagement := 0,
              growthPotential := 0 }
  metadata := { aiModel := "", promptVersion := "", processingTime := 0,
                confidence := 0, costCents := 0 }

/-- Claim C9 witness: the garbled payload parses successfully into the
clamped response and all bounds hold for it. -/
theorem claim_C9_witness :
    parseAnalysisResponse c9payload = .ok c9result
    ∧ ((0 ≤ c9result.strengths.score ∧ c9result.strengths.score ≤ 100)
       ∧ (0 ≤ c9result.scores.overall ∧ c9result.scores.overall ≤ 100)
       ∧ (0 ≤ c9result.scores.contentQuality ∧ c9result.scores.contentQuality ≤ 100)
       ∧ (0 ≤ c9result.scores.engagement ∧ c9result.scores.engagement ≤ 100)
       ∧ (0 ≤ c9result.scores.growthPotential ∧ c9result.scores.growthPotential ≤ 100)
       ∧ (0 ≤ openaiCalculateConfidence c9result
          ∧ openaiCalculateConfidence c9result ≤ 1)
       ∧ (0 ≤ claudeCalculateConfidence c9result
          ∧ claudeCalculateConfidence c9result ≤ 1)) := by
  have h150 : validateScore (some (.jnum 150)) = 100 := claim_C9.2.1
  have habc : validateScore (some (.jstr "abc")) = 0 := claim_C9.2.2
  have hm7 : validateScore (some (.jnum (-7))) = 0 := by
    have h : jsRound ((-7 : Rat)) = -7 := by
      unfold jsRound
      norm_num
    simp only [validateScore, JVal.toNumber, JVal.numberOfLeaf, h]
    decide
  have hnull : validateScore (some .jnull) = 0 := by
    have h : jsRound ((0 : Rat)) = 0 := by
      unfold jsRound
      norm_num
    simp only [validateScore, JVal.toNumber, JVal.numberOfLeaf, h]
    decide
  have hparse : parseAnalysisResponse c9payload = .ok c9result := by
    simp [parseAnalysisResponse, c9payload, c9result, JVal.get, JVal.truthy,
      JVal.orDefault, JVal.arrayOrEmpty, h150, habc, hm7, hnull]
  exact ⟨hparse, claim_C9.1 c9payload c9result hparse⟩

/-! ### Claim C4: template rendering passes and scoping -/

/-- Claim C4 (counterexample to the claim as stated).  The claim asserts
that a `\x7b\x7bname\x7d\x7d` token inside a `\x7b\x7b#each\x7d\x7d` loop
body is never replaced by the top-level substitution pass.  With `name`
bound to `"X"` in the mapping and the loop element binding `name` to
`"A"`, rendering yields `"X"`: the substitution pass (which runs first,
over the whole text) replaced the loop-body token, and the element value
never appears. -/
theorem claim_C4_counterexample :
    PromptTemplates.replaceVariables
        "\x7b\x7b#each items\x7d\x7d\x7b\x7bname\x7d\x7d\x7b\x7b/each\x7d\x7d"
        [("name", .vstr "X"), ("items", .varr [[("name", .vstr "A")]])] = "X"
    ∧ ("X" : String) ≠ "A" := by
  constructor
  · rfl
  · decide

/-- Claim C4 (amended): rendering is a pure function running exactly three
passes in the order literal substitution, then conditional blocks, then
loop expansion; the substitution pass operates on the whole text including
`\x7b\x7b#each\x7d\x7d` bodies, so a loop-body token is replaced by the
top-level pass whenever its name is bound in the mapping and is filled
from the array element only when the name is absent from the mapping; a
missing or non-array `\x7b\x7b#each\x7d\x7d` variable expands the whole
loop segment to empty text; unmatched tokens stay as dead text. -/
theorem claim_C4 :
    (∀ (template : String) (vars : TVars),
       PromptTemplates.replaceVariables template vars =
         (let p1 := substPass vars template.data
          let p2 := processIfFuel vars p1.length p1
          String.mk (processEachFuel vars p2.length p2)))
    ∧ PromptTemplates.replaceVariables
        "\x7b\x7b#each items\x7d\x7d\x7b\x7bname\x7d\x7d\x7b\x7b/each\x7d\x7d"
        [("name", .vstr "X"), ("items", .varr [[("name", .vstr "A")]])] = "X"
    ∧ PromptTemplates.replaceVariables
        "a\x7b\x7b#each items\x7d\x7d\x7b\x7btitle\x7d\x7d;\x7b\x7b/each\x7d\x7db"
        [("items", .varr [[("title", .vstr "A")], [("title", .vstr "B")]])]
        = "aA;B;b"
    ∧ PromptTemplates.replaceVariables
        "a\x7b\x7b#each items\x7d\x7dX\x7b\x7b/each\x7d\x7db" [] = "ab"
    ∧ PromptTemplates.replaceVariables
        "a\x7b\x7b#each items\x7d\x7dX\x7b\x7b/each\x7d\x7db"
        [("items", .vstr "hi")] = "ab"
    ∧ PromptTemplates.replaceVariables "\x7b\x7bfoo\x7d\x7d" [] =
        "\x7b\x7bfoo\x7d\x7d" := by
  exact ⟨fun template vars => rfl, rfl, rfl, rfl, rfl, rfl⟩

/-- Scan step over one template piece (QUICK_SCAN, top mode). -/
theorem c6_quick_scan_top_step0 (rest : List Char) :
    scanVarsFuel true [] 100000 ("Analyze this YouTube channel for a quick assessment:\n\nChannel: \x7b\x7bchannelTitle\x7d\x7d\n".data ++ rest)
      = scanVarsFuel true ["channelTitle"] 99935 rest := rfl

/-- Scan step over one template piece (QUICK_SCAN, top mode). -/
theorem c6_quick_scan_top_step1 (rest : List Char) :
    scanVarsFuel true ["channelTitle"] 99935 ("Description: \x7b\x7bchannelDescription\x7d\x7d\nSubscribers: \x7b\x7bsubscriberCount\x7d\x7d\nVideos: \x7b\x7bvideoCount\x7d\x7d\n".data ++ rest)
      = scanVarsFuel true ["videoCount", "subscriberCount", "channelDescription", "channelTitle"] 99895 rest := rfl

/-- Scan step over one template piece (QUICK_SCAN, top mode). -/
theorem c6_quick_scan_top_step2 (rest : List Char) :
    scanVarsFuel true ["videoCount", "subscriberCount", "channelDescription", "channelTitle"] 99895 ("Total Views: \x7b\x7bviewCount\x7d\x7d\nContent Type: \x7b\x7bcontentType\x7d\x7d\nTopics: \x7b\x7btopics\x7d\x7d\n\n".data ++ rest)
      = scanVarsFuel true ["topics", "contentType", "viewCount", "videoCount", "subscriberCount", "channelDescription", "channelTitle"] 99853 rest := rfl

/-- Scan step over one template piece (QUICK_SCAN, top mode). -/
theorem c6_quick_scan_top_step3 (rest : List Char) :
    scanVarsFuel true ["topics", "contentType", "viewCount", "videoCount", "subscriberCount", "channelDescription", "channelTitle"] 99853 ("Provide a concise analysis in JSON format:\n\x7b\n \"strengths\": \x7b\n   \"summa".data ++ rest)
      = scanVarsFuel true ["topics", "contentType", "viewCount", "videoCount", "subscriberCount", "channelDescription", "channelTitle"] 99783 rest := rfl

/-- Scan step over one template piece (QUICK_SCAN, top mode). -/
theorem c6_quick_scan_top_step4 (rest : List Char) :
    scanVarsFuel true ["topics", "contentType", "viewCount", "videoCount", "subscriberCount", "channelDescription", "channelTitle"] 99783 ("ry\": \"Brief overview of main strengths\",\n   \"details\": [\"strength 1\", ".data ++ rest)
      = scanVarsFuel true ["topics", "contentType", "viewCount", "videoCount", "subscriberCount", "channelDescription", "channelTitle"] 99713 rest := rfl

/-- Scan step over one template piece (QUICK_SCAN, top mode). -/
theorem c6_quick_scan_top_step5 (rest : List Char) :
    scanVarsFuel true ["topics", "contentType", "viewCount", "videoCount", "subscriberCount", "channelDescription", "channelTitle"] 99713 ("\"strength 2\", \"strength 3\"],\n   \"score\": 0-100\n \x7d,\n \"weaknesses\": \x7b\n   \"summa".data ++ rest)
      = scanVarsFuel true ["topics", "contentType", "viewCount", "videoCount", "subscriberCount", "channelDescription", "channelTitle"] 99636 rest := rfl

/-- Scan step over one template piece (QUICK_SCAN, top mode). -/
theorem c6_quick_scan_top_step6 (rest : List Char) :
    scanVarsFuel true ["topics", "contentType", "viewCount", "videoCount", "subscriberCount", "channelDescription", "channelTitle"] 99636 ("ry\": \"Brief overview of main weaknesses\",\n   \"details\": [\"weakness 1\",".data ++ rest)
      = scanVarsFuel true ["topics", "contentType", "viewCount", "videoCount", "subscriberCount", "channelDescription", "channelTitle"] 99566 rest := rfl

/-- Scan step over one template piece (QUICK_SCAN, top mode). -/
theorem c6_quick_scan_top_step7 (rest : List Char) :
    scanVarsFuel true ["topics", "contentType", "viewCount", "videoCount", "subscriberCount", "channelDescription", "channelTitle"] 99566 (" \"weakness 2\"],\n   \"areas\": [\"area for improvement 1\", \"area 2\"]\n \x7d,\n ".data ++ rest)
      = scanVarsFuel true ["topics", "contentType", "viewCount", "videoCount", "subscriberCount", "channelDescription", "channelTitle"] 99496 rest := rfl

/-- Scan step over one template piece (QUICK_SCAN, top mode). -/
theorem c6_quick_scan_top_step8 (rest : List Char) :
    scanVarsFuel true ["topics", "contentType", "viewCount", "videoCount", "subscriberCount", "channelDescription", "channelTitle"] 99496 ("\"opportunities\": \x7b\n   \"summary\": \"Key growth opportunities\",\n   \"recom".data ++ rest)
      = scanVarsFuel true ["topics", "contentType", "viewCount", "videoCount", "subscriberCount", "channelDescription", "channelTitle"] 99426 rest := rfl

/-- Scan step over one template piece (QUICK_SCAN, top mode). -/
theorem c6_quick_scan_top_step9 (rest : List Char) :
    scanVarsFuel true ["topics", "contentType", "viewCount", "videoCount", "subscriberCount", "channelDescription", "channelTitle"] 99426 ("mendations\": [\n     \x7b\n       \"title\": \"Recommendation title\",\n       \"".data ++ rest)
      = scanVarsFuel true ["topics", "contentType", "viewCount", "videoCount", "subscriberCount", "channelDescription", "channelTitle"] 99356 rest := rfl

/-- Scan step over one template piece (QUICK_SCAN, top mode). -/
theorem c6_quick_scan_top_step10 (rest : List Char) :
    scanVarsFuel true ["topics", "contentType", "viewCount", "videoCount", "subscriberCount", "channelDescription", "channelTitle"] 99356 ("description\": \"Detailed description\",\n       \"priority\": \"HIGH|MEDIUM|".data ++ rest)
      = scanVarsFuel true ["topics", "contentType", "viewCount", "videoCount", "subscriberCount", "channelDescription", "channelTitle"] 99286 rest := rfl

/-- Scan step over one template piece (QUICK_SCAN, top mode). -/
theorem c6_quick_scan_top_step11 (rest : List Char) :
    scanVarsFuel true ["topics", "contentType", "viewCount", "videoCount", "subscriberCount", "channelDescription", "channelTitle"] 99286 ("LOW\",\n       \"estimatedImpact\": \"Description of potential impact\"\n    ".data ++ rest)
      = scanVarsFuel true ["topics", "contentType", "viewCount", "videoCount", "subscriberCount", "channelDescription", "channelTitle"] 99216 rest := rfl

/-- Scan step over one template piece (QUICK_SCAN, top mode). -/
theorem c6_quick_scan_top_step12 (rest : List Char) :
    scanVarsFuel true ["topics", "contentType", "viewCount", "videoCount", "subscriberCount", "channelDescription", "channelTitle"] 99216 (" \x7d\n   ]\n \x7d,\n \"scores\": \x7b\n   \"overall\": 0-100,\n   \"contentQuality\": 0-1".data ++ rest)
      = scanVarsFuel true ["topics", "contentType", "viewCount", "videoCount", "subscriberCount", "channelDescription", "channelTitle"] 99146 rest := rfl

/-- Scan step over one template piece (QUICK_SCAN, top mode). -/
theorem c6_quick_scan_top_step13 (rest : List Char) :
    scanVarsFuel true ["topics", "contentType", "viewCount", "videoCount", "subscriberCount", "channelDescription", "channelTitle"] 99146 ("00,\n   \"engagement\": 0-100,\n   \"growthPotential\": 0-100\n \x7d\n\x7d\n\nFocus on".data ++ rest)
      = scanVarsFuel true ["topics", "contentType", "viewCount", "videoCount", "subscriberCount", "channelDescription", "channelTitle"] 99076 rest := rfl

/-- Scan step over one template piece (QUICK_SCAN, top mode). -/
theorem c6_quick_scan_top_step14 (rest : List Char) :
    scanVarsFuel true ["topics", "contentType", "viewCount", "videoCount", "subscriberCount", "channelDescription", "channelTitle"] 99076 (" actionable insights. Be specific and constructive.".data ++ rest)
      = scanVarsFuel true ["topics", "contentType", "viewCount", "videoCount", "subscriberCount", "channelDescription", "channelTitle"] 99025 rest := rfl

/-- Terminal scan step (QUICK_SCAN, top mode). -/
theorem c6_quick_scan_top_end :
    scanVarsFuel true ["topics", "contentType", "viewCount", "videoCount", "subscriberCount", "channelDescription", "channelTitle"] 99025 ([] : List Char)
      = ["channelTitle", "channelDescription", "subscriberCount", "videoCount", "viewCount", "contentType", "topics"] := rfl

/-- Scan step over one template piece (DEEP_DIVE, top mode). -/
theorem c6_deep_dive_top_step0 (rest : List Char) :
    scanVarsFuel true [] 100000 ("Perform a comprehensive analysis of this YouTube channel:\n\nChannel Inf".data ++ rest)
      = scanVarsFuel true [] 99930 rest := rfl

/-- Scan step over one template piece (DEEP_DIVE, top mode). -/
theorem c6_deep_dive_top_step1 (rest : List Char) :
    scanVarsFuel true [] 99930 ("ormation:\n- Title: \x7b\x7bchannelTitle\x7d\x7d\n- Description: \x7b\x7bchannelDescription\x7d\x7d\n".data ++ rest)
      = scanVarsFuel true ["channelDescription", "channelTitle"] 99892 rest := rfl

/-- Scan step over one template piece (DEEP_DIVE, top mode). -/
theorem c6_deep_dive_top_step2 (rest : List Char) :
    scanVarsFuel true ["channelDescription", "channelTitle"] 99892 ("- Subscribers: \x7b\x7bsubscriberCount\x7d\x7d\n- Total Videos: \x7b\x7bvideoCount\x7d\x7d\n- To".data ++ rest)
      = scanVarsFuel true ["videoCount", "subscriberCount", "channelDescription", "channelTitle"] 99853 rest := rfl

/-- Scan step over one template piece (DEEP_DIVE, top mode). -/
theorem c6_deep_dive_top_step3 (rest : List Char) :
    scanVarsFuel true ["videoCount", "subscriberCount", "channelDescription", "channelTitle"] 99853 ("tal Views: \x7b\x7bviewCount\x7d\x7d\n- Content Type: \x7b\x7bcontentType\x7d\x7d\n- Topics: \x7b\x7btopics\x7d\x7d\n-".data ++ rest)
      = scanVarsFuel true ["topics", "contentType", "viewCount", "videoCount", "subscriberCount", "channelDescription", "channelTitle"] 99809 rest := rfl

/-- Scan step over one template piece (DEEP_DIVE, top mode). -/
theorem c6_deep_dive_top_step4 (rest : List Char) :
    scanVarsFuel true ["topics", "contentType", "viewCount", "videoCount", "subscriberCount", "channelDescription", "channelTitle"] 99809 (" Published: \x7b\x7bpublishedAt\x7d\x7d\n\n\x7b\x7b#if recentVideos\x7d\x7d\nRecent Videos Performance:\n\x7b\x7b#each recentVideos\x7d\x7d\n- \"\x7b\x7btitle\x7d\x7d\" - \x7b\x7bviews\x7d\x7d views, \x7b\x7blikes\x7d\x7d likes, \x7b\x7bcomments\x7d\x7d comments (\x7b\x7bpublishedAt\x7d\x7d)\n\x7b\x7b/each\x7d\x7d\n\x7b\x7b/if\x7d\x7d\n\nPro".data ++ rest)
      = scanVarsFuel true ["recentVideos", "recentVideos", "publishedAt", "topics", "contentType", "viewCount", "videoCount", "subscriberCount", "channelDescription", "channelTitle"] 99751 rest := rfl

/-- Scan step over one template piece (DEEP_DIVE, top mode). -/
theorem c6_deep_dive_top_step5 (rest : List Char) :
    scanVarsFuel true ["recentVideos", "recentVideos", "publishedAt", "topics", "contentType", "viewCount", "videoCount", "subscriberCount", "channelDescription", "channelTitle"] 99751 ("vide a detailed analysis in JSON format with:\n\n1. **Comprehensive Stre".data ++ rest)
      = scanVarsFuel true ["recentVideos", "recentVideos", "publishedAt", "topics", "contentType", "viewCount", "videoCount", "subscriberCount", "channelDescription", "channelTitle"] 99681 rest := rfl

/-- Scan step over one template piece (DEEP_DIVE, top mode). -/
theorem c6_deep_dive_top_step6 (rest : List Char) :
    scanVarsFuel true ["recentVideos", "recentVideos", "publishedAt", "topics", "contentType", "viewCount", "videoCount", "subscriberCount", "channelDescription", "channelTitle"] 99681 ("ngths Analysis**\n2. **Detailed Weaknesses Assessment**\n3. **Growth Opp".data ++ rest)
      = scanVarsFuel true ["recentVideos", "recentVideos", "publishedAt", "topics", "contentType", "viewCount", "videoCount", "subscriberCount", "channelDescription", "channelTitle"] 99611 rest := rfl

/-- Scan step over one template piece (DEEP_DIVE, top mode). -/
theorem c6_deep_dive_top_step7 (rest : List Char) :
    scanVarsFuel true ["recentVideos", "recentVideos", "publishedAt", "topics", "contentType", "viewCount", "videoCount", "subscriberCount", "channelDescription", "channelTitle"] 99611 ("ortunities with Priorities**\n4. **Content Strategy Recommendations**\n5".data ++ rest)
      = scanVarsFuel true ["recentVideos", "recentVideos", "publishedAt", "topics", "contentType", "viewCount", "videoCount", "subscriberCount", "channelDescription", "channelTitle"] 99541 rest := rfl

/-- Scan step over one template piece (DEEP_DIVE, top mode). -/
theorem c6_deep_dive_top_step8 (rest : List Char) :
    scanVarsFuel true ["recentVideos", "recentVideos", "publishedAt", "topics", "contentType", "viewCount", "videoCount", "subscriberCount", "channelDescription", "channelTitle"] 99541 (". **Competitive Positioning**\n6. **Detailed Scoring with Rationale**\n\n".data ++ rest)
      = scanVarsFuel true ["recentVideos", "recentVideos", "publishedAt", "topics", "contentType", "viewCount", "videoCount", "subscriberCount", "channelDescription", "channelTitle"] 99471 rest := rfl

/-- Scan step over one template piece (DEEP_DIVE, top mode). -/
theorem c6_deep_dive_top_step9 (rest : List Char) :
    scanVarsFuel true ["recentVideos", "recentVideos", "publishedAt", "topics", "contentType", "viewCount", "videoCount", "subscriberCount", "channelDescription", "channelTitle"] 99471 ("JSON Response Format:\n\x7b\n \"strengths\": \x7b\n   \"summary\": \"Detailed overvi".data ++ rest)
      = scanVarsFuel true ["recentVideos", "recentVideos", "publishedAt", "topics", "contentType", "viewCount", "videoCount", "subscriberCount", "channelDescription", "channelTitle"] 99401 rest := rfl

/-- Scan step over one template piece (DEEP_DIVE, top mode). -/
theorem c6_deep_dive_top_step10 (rest : List Char) :
    scanVarsFuel true ["recentVideos", "recentVideos", "publishedAt", "topics", "contentType", "viewCount", "videoCount", "subscriberCount", "channelDescription", "channelTitle"] 99401 ("ew of channel strengths\",\n   \"details\": [\"specific strength with evide".data ++ rest)
      = scanVarsFuel true ["recentVideos", "recentVideos", "publishedAt", "topics", "contentType", "viewCount", "videoCount", "subscriberCount", "channelDescription", "channelTitle"] 99331 rest := rfl

/-- Scan step over one template piece (DEEP_DIVE, top mode). -/
theorem c6_deep_dive_top_step11 (rest : List Char) :
    scanVarsFuel true ["recentVideos", "recentVideos", "publishedAt", "topics", "contentType", "viewCount", "videoCount", "subscriberCount", "channelDescription", "channelTitle"] 99331 ("nce\", \"strength 2\", \"strength 3\", \"strength 4\", \"strength 5\"],\n   \"sco".data ++ rest)
      = scanVarsFuel true ["recentVideos", "recentVideos", "publishedAt", "topics", "contentType", "viewCount", "videoCount", "subscriberCount", "channelDescription", "channelTitle"] 99261 rest := rfl

/-- Scan step over one template piece (DEEP_DIVE, top mode). -/
theorem c6_deep_dive_top_step12 (rest : List Char) :
    scanVarsFuel true ["recentVideos", "recentVideos", "publishedAt", "topics", "contentType", "viewCount", "videoCount", "subscriberCount", "channelDescription", "channelTitle"] 99261 ("re\": 0-100\n \x7d,\n \"weaknesses\": \x7b\n   \"summary\": \"Comprehensive weakness ".data ++ rest)
      = scanVarsFuel true ["recentVideos", "recentVideos", "publishedAt", "topics", "contentType", "viewCount", "videoCount", "subscriberCount", "channelDescription", "channelTitle"] 99191 rest := rfl

/-- Scan step over one template piece (DEEP_DIVE, top mode). -/
theorem c6_deep_dive_top_step13 (rest : List Char) :
    scanVarsFuel true ["recentVideos", "recentVideos", "publishedAt", "topics", "contentType", "viewCount", "videoCount", "subscriberCount", "channelDescription", "channelTitle"] 99191 ("analysis\",\n   \"details\": [\"specific weakness with suggestion\", \"weakne".data ++ rest)
      = scanVarsFuel true ["recentVideos", "recentVideos", "publishedAt", "topics", "contentType", "viewCount", "videoCount", "subscriberCount", "channelDescription", "channelTitle"] 99121 rest := rfl

/-- Scan step over one template piece (DEEP_DIVE, top mode). -/
theorem c6_deep_dive_top_step14 (rest : List Char) :
    scanVarsFuel true ["recentVideos", "recentVideos", "publishedAt", "topics", "contentType", "viewCount", "videoCount", "subscriberCount", "channelDescription", "channelTitle"] 99121 ("ss 2\", \"weakness 3\"],\n   \"areas\": [\"improvement area 1\", \"area 2\", \"ar".data ++ rest)
      = scanVarsFuel true ["recentVideos", "recentVideos", "publishedAt", "topics", "contentType", "viewCount", "videoCount", "subscriberCount", "channelDescription", "channelTitle"] 99051 rest := rfl

/-- Scan step over one template piece (DEEP_DIVE, top mode). -/
theorem c6_deep_dive_top_step15 (rest : List Char) :
    scanVarsFuel true ["recentVideos", "recentVideos", "publishedAt", "topics", "contentType", "viewCount", "videoCount", "subscriberCount", "channelDescription", "channelTitle"] 99051 ("ea 3\"]\n \x7d,\n \"opportunities\": \x7b\n   \"summary\": \"Strategic growth opportu".data ++ rest)
      = scanVarsFuel true ["recentVideos", "recentVideos", "publishedAt", "topics", "contentType", "viewCount", "videoCount", "subscriberCount", "channelDescription", "channelTitle"] 98981 rest := rfl

/-- Scan step over one template piece (DEEP_DIVE, top mode). -/
theorem c6_deep_dive_top_step16 (rest : List Char) :
    scanVarsFuel true ["recentVideos", "recentVideos", "publishedAt", "topics", "contentType", "viewCount", "videoCount", "subscriberCount", "channelDescription", "channelTitle"] 98981 ("nities\",\n   \"recommendations\": [\n     \x7b\n       \"title\": \"Specific acti".data ++ rest)
      = scanVarsFuel true ["recentVideos", "recentVideos", "publishedAt", "topics", "contentType", "viewCount", "videoCount", "subscriberCount", "channelDescription", "channelTitle"] 98911 rest := rfl

/-- Scan step over one template piece (DEEP_DIVE, top mode). -/
theorem c6_deep_dive_top_step17 (rest : List Char) :
    scanVarsFuel true ["recentVideos", "recentVideos", "publishedAt", "topics", "contentType", "viewCount", "videoCount", "subscriberCount", "channelDescription", "channelTitle"] 98911 ("onable recommendation\",\n       \"description\": \"Detailed implementation".data ++ rest)
      = scanVarsFuel true ["recentVideos", "recentVideos", "publishedAt", "topics", "contentType", "viewCount", "videoCount", "subscriberCount", "channelDescription", "channelTitle"] 98841 rest := rfl

/-- Scan step over one template piece (DEEP_DIVE, top mode). -/
theorem c6_deep_dive_top_step18 (rest : List Char) :
    scanVarsFuel true ["recentVideos", "recentVideos", "publishedAt", "topics", "contentType", "viewCount", "videoCount", "subscriberCount", "channelDescription", "channelTitle"] 98841 (" strategy\",\n       \"priority\": \"HIGH|MEDIUM|LOW\",\n       \"estimatedImp".data ++ rest)
      = scanVarsFuel true ["recentVideos", "recentVideos", "publishedAt", "topics", "contentType", "viewCount", "videoCount", "subscriberCount", "channelDescription", "channelTitle"] 98771 rest := rfl

/-- Scan step over one template piece (DEEP_DIVE, top mode). -/
theorem c6_deep_dive_top_step19 (rest : List Char) :
    scanVarsFuel true ["recentVideos", "recentVideos", "publishedAt", "topics", "contentType", "viewCount", "videoCount", "subscriberCount", "channelDescription", "channelTitle"] 98771 ("act\": \"Quantified impact description\"\n     \x7d\n   ]\n \x7d,\n \"contentStrateg".data ++ rest)
      = scanVarsFuel true ["recentVideos", "recentVideos", "publishedAt", "topics", "contentType", "viewCount", "videoCount", "subscriberCount", "channelDescription", "channelTitle"] 98701 rest := rfl

/-- Scan step over one template piece (DEEP_DIVE, top mode). -/
theorem c6_deep_dive_top_step20 (rest : List Char) :
    scanVarsFuel true ["recentVideos", "recentVideos", "publishedAt", "topics", "contentType", "viewCount", "videoCount", "subscriberCount", "channelDescription", "channelTitle"] 98701 ("y\": \x7b\n   \"recommendedTopics\": [\"topic 1\", \"topic 2\", \"topic 3\"],\n   \"c".data ++ rest)
      = scanVarsFuel true ["recentVideos", "recentVideos", "publishedAt", "topics", "contentType", "viewCount", "videoCount", "subscriberCount", "channelDescription", "channelTitle"] 98631 rest := rfl

/-- Scan step over one template piece (DEEP_DIVE, top mode). -/
theorem c6_deep_dive_top_step21 (rest : List Char) :
    scanVarsFuel true ["recentVideos", "recentVideos", "publishedAt", "topics", "contentType", "viewCount", "videoCount", "subscriberCount", "channelDescription", "channelTitle"] 98631 ("ontentGaps\": [\"gap 1\", \"gap 2\"],\n   \"optimizationTips\": [\"tip 1\", \"tip".data ++ rest)
      = scanVarsFuel true ["recentVideos", "recentVideos", "publishedAt", "topics", "contentType", "viewCount", "videoCount", "subscriberCount", "channelDescription", "channelTitle"] 98561 rest := rfl

/-- Scan step over one template piece (DEEP_DIVE, top mode). -/
theorem c6_deep_dive_top_step22 (rest : List Char) :
    scanVarsFuel true ["recentVideos", "recentVideos", "publishedAt", "topics", "contentType", "viewCount", "videoCount", "subscriberCount", "channelDescription", "channelTitle"] 98561 (" 2\", \"tip 3\"]\n \x7d,\n \"scores\": \x7b\n   \"overall\": 0-100,\n   \"contentQuality".data ++ rest)
      = scanVarsFuel true ["recentVideos", "recentVideos", "publishedAt", "topics", "contentType", "viewCount", "videoCount", "subscriberCount", "channelDescription", "channelTitle"] 98491 rest := rfl

/-- Scan step over one template piece (DEEP_DIVE, top mode). -/
theorem c6_deep_dive_top_step23 (rest : List Char) :
    scanVarsFuel true ["recentVideos", "recentVideos", "publishedAt", "topics", "contentType", "viewCount", "videoCount", "subscriberCount", "channelDescription", "channelTitle"] 98491 ("\": 0-100,\n   \"engagement\": 0-100,\n   \"growthPotential\": 0-100\n \x7d\n\x7d\n\nPr".data ++ rest)
      = scanVarsFuel true ["recentVideos", "recentVideos", "publishedAt", "topics", "contentType", "viewCount", "videoCount", "subscriberCount", "channelDescription", "channelTitle"] 98421 rest := rfl

/-- Scan step over one template piece (DEEP_DIVE, top mode). -/
theorem c6_deep_dive_top_step24 (rest : List Char) :
    scanVarsFuel true ["recentVideos", "recentVideos", "publishedAt", "topics", "contentType", "viewCount", "videoCount", "subscriberCount", "channelDescription", "channelTitle"] 98421 ("ovide data-driven insights with specific examples and actionable recom".data ++ rest)
      = scanVarsFuel true ["recentVideos", "recentVideos", "publishedAt", "topics", "contentType", "viewCount", "videoCount", "subscriberCount", "channelDescription", "channelTitle"] 98351 rest := rfl

/-- Scan step over one template piece (DEEP_DIVE, top mode). -/
theorem c6_deep_dive_top_step25 (rest : List Char) :
    scanVarsFuel true ["recentVideos", "recentVideos", "publishedAt", "topics", "contentType", "viewCount", "videoCount", "subscriberCount", "channelDescription", "channelTitle"] 98351 ("mendations.".data ++ rest)
      = scanVarsFuel true ["recentVideos", "recentVideos", "publishedAt", "topics", "contentType", "viewCount", "videoCount", "subscriberCount", "channelDescription", "channelTitle"] 98340 rest := rfl

/-- Terminal scan step (DEEP_DIVE, top mode). -/
theorem c6_deep_dive_top_end :
    scanVarsFuel true ["recentVideos", "recentVideos", "publishedAt", "topics", "contentType", "viewCount", "videoCount", "subscriberCount", "channelDescription", "channelTitle"] 98340 ([] : List Char)
      = ["channelTitle", "channelDescription", "subscriberCount", "videoCount", "viewCount", "contentType", "topics", "publishedAt", "recentVideos", "recentVideos"] := rfl

/-- Scan step over one template piece (COMPETITOR_COMPARE, top mode). -/
theorem c6_competitor_compare_top_step0 (rest : List Char) :
    scanVarsFuel true [] 100000 ("Analyze this channel in comparison to its competitive landscape:\n\nTarg".data ++ rest)
      = scanVarsFuel true [] 99930 rest := rfl

/-- Scan step over one template piece (COMPETITOR_COMPARE, top mode). -/
theorem c6_competitor_compare_top_step1 (rest : List Char) :
    scanVarsFuel true [] 99930 ("et Channel:\n- Title: \x7b\x7bchannelTitle\x7d\x7d\n- Subscribers: \x7b\x7bsubscriberCount\x7d\x7d\n".data ++ rest)
      = scanVarsFuel true ["subscriberCount", "channelTitle"] 99890 rest := rfl

/-- Scan step over one template piece (COMPETITOR_COMPARE, top mode). -/
theorem c6_competitor_compare_top_step2 (rest : List Char) :
    scanVarsFuel true ["subscriberCount", "channelTitle"] 99890 ("- Content Type: \x7b\x7bcontentType\x7d\x7d\n- Topics: \x7b\x7btopics\x7d\x7d\n\nAnalyze competit".data ++ rest)
      = scanVarsFuel true ["topics", "contentType", "subscriberCount", "channelTitle"] 99843 rest := rfl

/-- Scan step over one template piece (COMPETITOR_COMPARE, top mode). -/
theorem c6_competitor_compare_top_step3 (rest : List Char) :
    scanVarsFuel true ["topics", "contentType", "subscriberCount", "channelTitle"] 99843 ("ive positioning and provide strategic insights in JSON format:\n\n\x7b\n \"strengt".data ++ rest)
      = scanVarsFuel true ["topics", "contentType", "subscriberCount", "channelTitle"] 99768 rest := rfl

/-- Scan step over one template piece (COMPETITOR_COMPARE, top mode). -/
theorem c6_competitor_compare_top_step4 (rest : List Char) :
    scanVarsFuel true ["topics", "contentType", "subscriberCount", "channelTitle"] 99768 ("hs\": \x7b\n   \"summary\": \"Competitive advantages analysis\",\n   \"details\": ".data ++ rest)
      = scanVarsFuel true ["topics", "contentType", "subscriberCount", "channelTitle"] 99698 rest := rfl

/-- Scan step over one template piece (COMPETITOR_COMPARE, top mode). -/
theorem c6_competitor_compare_top_step5 (rest : List Char) :
    scanVarsFuel true ["topics", "contentType", "subscriberCount", "channelTitle"] 99698 ("[\"unique strength vs competitors\", \"advantage 2\", \"advantage 3\"],\n   \"".data ++ rest)
      = scanVarsFuel true ["topics", "contentType", "subscriberCount", "channelTitle"] 99628 rest := rfl

/-- Scan step over one template piece (COMPETITOR_COMPARE, top mode). -/
theorem c6_competitor_compare_top_step6 (rest : List Char) :
    scanVarsFuel true ["topics", "contentType", "subscriberCount", "channelTitle"] 99628 ("score\": 0-100\n \x7d,\n \"weaknesses\": \x7b\n   \"summary\": \"Competitive disadvan".data ++ rest)
      = scanVarsFuel true ["topics", "contentType", "subscriberCount", "channelTitle"] 99558 rest := rfl

/-- Scan step over one template piece (COMPETITOR_COMPARE, top mode). -/
theorem c6_competitor_compare_top_step7 (rest : List Char) :
    scanVarsFuel true ["topics", "contentType", "subscriberCount", "channelTitle"] 99558 ("tages\",\n   \"details\": [\"gap vs competitors\", \"weakness 2\"],\n   \"areas\"".data ++ rest)
      = scanVarsFuel true ["topics", "contentType", "subscriberCount", "channelTitle"] 99488 rest := rfl

/-- Scan step over one template piece (COMPETITOR_COMPARE, top mode). -/
theorem c6_competitor_compare_top_step8 (rest : List Char) :
    scanVarsFuel true ["topics", "contentType", "subscriberCount", "channelTitle"] 99488 (": [\"area to match competitors\", \"improvement area 2\"]\n \x7d,\n \"opportunit".data ++ rest)
      = scanVarsFuel true ["topics", "contentType", "subscriberCount", "channelTitle"] 99418 rest := rfl

/-- Scan step over one template piece (COMPETITOR_COMPARE, top mode). -/
theorem c6_competitor_compare_top_step9 (rest : List Char) :
    scanVarsFuel true ["topics", "contentType", "subscriberCount", "channelTitle"] 99418 ("ies\": \x7b\n   \"summary\": \"Market gaps and opportunities\",\n   \"recommendat".data ++ rest)
      = scanVarsFuel true ["topics", "contentType", "subscriberCount", "channelTitle"] 99348 rest := rfl

/-- Scan step over one template piece (COMPETITOR_COMPARE, top mode). -/
theorem c6_competitor_compare_top_step10 (rest : List Char) :
    scanVarsFuel true ["topics", "contentType", "subscriberCount", "channelTitle"] 99348 ("ions\": [\n     \x7b\n       \"title\": \"Competitive opportunity\",\n       \"des".data ++ rest)
      = scanVarsFuel true ["topics", "contentType", "subscriberCount", "channelTitle"] 99278 rest := rfl

/-- Scan step over one template piece (COMPETITOR_COMPARE, top mode). -/
theorem c6_competitor_compare_top_step11 (rest : List Char) :
    scanVarsFuel true ["topics", "contentType", "subscriberCount", "channelTitle"] 99278 ("cription\": \"How to capitalize vs competitors\",\n       \"priority\": \"HIG".data ++ rest)
      = scanVarsFuel true ["topics", "contentType", "subscriberCount", "channelTitle"] 99208 rest := rfl

/-- Scan step over one template piece (COMPETITOR_COMPARE, top mode). -/
theorem c6_competitor_compare_top_step12 (rest : List Char) :
    scanVarsFuel true ["topics", "contentType", "subscriberCount", "channelTitle"] 99208 ("H|MEDIUM|LOW\",\n       \"estimatedImpact\": \"Competitive advantage gained".data ++ rest)
      = scanVarsFuel true ["topics", "contentType", "subscriberCount", "channelTitle"] 99138 rest := rfl

/-- Scan step over one template piece (COMPETITOR_COMPARE, top mode). -/
theorem c6_competitor_compare_top_step13 (rest : List Char) :
    scanVarsFuel true ["topics", "contentType", "subscriberCount", "channelTitle"] 99138 ("\"\n     \x7d\n   ]\n \x7d,\n \"competitors\": \x7b\n   \"similarChannels\": [\n     \x7b\n       \"c".data ++ rest)
      = scanVarsFuel true ["topics", "contentType", "subscriberCount", "channelTitle"] 99062 rest := rfl

/-- Scan step over one template piece (COMPETITOR_COMPARE, top mode). -/
theorem c6_competitor_compare_top_step14 (rest : List Char) :
    scanVarsFuel true ["topics", "contentType", "subscriberCount", "channelTitle"] 99062 ("hannelId\": \"estimated_channel_id\",\n       \"name\": \"Competitor channel ".data ++ rest)
      = scanVarsFuel true ["topics", "contentType", "subscriberCount", "channelTitle"] 98992 rest := rfl

/-- Scan step over one template piece (COMPETITOR_COMPARE, top mode). -/
theorem c6_competitor_compare_top_step15 (rest : List Char) :
    scanVarsFuel true ["topics", "contentType", "subscriberCount", "channelTitle"] 98992 ("name\",\n       \"subscribers\": 0,\n       \"whyRelevant\": \"Why this channe".data ++ rest)
      = scanVarsFuel true ["topics", "contentType", "subscriberCount", "channelTitle"] 98922 rest := rfl

/-- Scan step over one template piece (COMPETITOR_COMPARE, top mode). -/
theorem c6_competitor_compare_top_step16 (rest : List Char) :
    scanVarsFuel true ["topics", "contentType", "subscriberCount", "channelTitle"] 98922 ("l is a relevant competitor\"\n     \x7d\n   ],\n   \"competitiveAdvantages\": [".data ++ rest)
      = scanVarsFuel true ["topics", "contentType", "subscriberCount", "channelTitle"] 98852 rest := rfl

/-- Scan step over one template piece (COMPETITOR_COMPARE, top mode). -/
theorem c6_competitor_compare_top_step17 (rest : List Char) :
    scanVarsFuel true ["topics", "contentType", "subscriberCount", "channelTitle"] 98852 ("\"advantage 1\", \"advantage 2\"],\n   \"gaps\": [\"gap to fill\", \"gap 2\"]\n \x7d,".data ++ rest)
      = scanVarsFuel true ["topics", "contentType", "subscriberCount", "channelTitle"] 98782 rest := rfl

/-- Scan step over one template piece (COMPETITOR_COMPARE, top mode). -/
theorem c6_competitor_compare_top_step18 (rest : List Char) :
    scanVarsFuel true ["topics", "contentType", "subscriberCount", "channelTitle"] 98782 ("\n \"scores\": \x7b\n   \"overall\": 0-100,\n   \"contentQuality\": 0-100,\n   \"eng".data ++ rest)
      = scanVarsFuel true ["topics", "contentType", "subscriberCount", "channelTitle"] 98712 rest := rfl

/-- Scan step over one template piece (COMPETITOR_COMPARE, top mode). -/
theorem c6_competitor_compare_top_step19 (rest : List Char) :
    scanVarsFuel true ["topics", "contentType", "subscriberCount", "channelTitle"] 98712 ("agement\": 0-100,\n   \"growthPotential\": 0-100\n \x7d\n\x7d\n\nFocus on competitiv".data ++ rest)
      = scanVarsFuel true ["topics", "contentType", "subscriberCount", "channelTitle"] 98642 rest := rfl

/-- Scan step over one template piece (COMPETITOR_COMPARE, top mode). -/
theorem c6_competitor_compare_top_step20 (rest : List Char) :
    scanVarsFuel true ["topics", "contentType", "subscriberCount", "channelTitle"] 98642 ("e differentiation and market positioning.".data ++ rest)
      = scanVarsFuel true ["topics", "contentType", "subscriberCount", "channelTitle"] 98601 rest := rfl

/-- Terminal scan step (COMPETITOR_COMPARE, top mode). -/
theorem c6_competitor_compare_top_end :
    scanVarsFuel true ["topics", "contentType", "subscriberCount", "channelTitle"] 98601 ([] : List Char)
      = ["channelTitle", "subscriberCount", "contentType", "topics"] := rfl

/-- Scan step over one template piece (GROWTH_STRATEGY, top mode). -/
theorem c6_growth_strategy_top_step0 (rest : List Char) :
    scanVarsFuel true [] 100000 ("Create a comprehensive growth strategy for this YouTube channel:\n\nChan".data ++ rest)
      = scanVarsFuel true [] 99930 rest := rfl

/-- Scan step over one template piece (GROWTH_STRATEGY, top mode). -/
theorem c6_growth_strategy_top_step1 (rest : List Char) :
    scanVarsFuel true [] 99930 ("nel Details:\n- Title: \x7b\x7bchannelTitle\x7d\x7d\n- Current Subscribers: \x7b\x7bsubscriberCount\x7d\x7d\n".data ++ rest)
      = scanVarsFuel true ["subscriberCount", "channelTitle"] 99881 rest := rfl

/-- Scan step over one template piece (GROWTH_STRATEGY, top mode). -/
theorem c6_growth_strategy_top_step2 (rest : List Char) :
    scanVarsFuel true ["subscriberCount", "channelTitle"] 99881 ("- Content Focus: \x7b\x7bcontentType\x7d\x7d\n- Topics: \x7b\x7btopics\x7d\x7d\n\n\x7b\x7b#if recentVideos\x7d\x7d\n".data ++ rest)
      = scanVarsFuel true ["recentVideos", "topics", "contentType", "subscriberCount", "channelTitle"] 99847 rest := rfl

/-- Scan step over one template piece (GROWTH_STRATEGY, top mode). -/
theorem c6_growth_strategy_top_step3 (rest : List Char) :
    scanVarsFuel true ["recentVideos", "topics", "contentType", "subscriberCount", "channelTitle"] 99847 ("Recent Performance:\n\x7b\x7b#each recentVideos\x7d\x7d\n- \"\x7b\x7btitle\x7d\x7d\" - \x7b\x7bviews\x7d\x7d views, \x7b\x7blikes\x7d\x7d likes (\x7b\x7bpublishedAt\x7d\x7d)\n\x7b\x7b/each\x7d\x7d\n\x7b\x7b/if\x7d\x7d\n\nDev".data ++ rest)
      = scanVarsFuel true ["recentVideos", "recentVideos", "topics", "contentType", "subscriberCount", "channelTitle"] 99813 rest := rfl

/-- Scan step over one template piece (GROWTH_STRATEGY, top mode). -/
theorem c6_growth_strategy_top_step4 (rest : List Char) :
    scanVarsFuel true ["recentVideos", "recentVideos", "topics", "contentType", "subscriberCount", "channelTitle"] 99813 ("elop a strategic growth plan in JSON format:\n\n\x7b\n \"strengths\": \x7b\n   \"summa".data ++ rest)
      = scanVarsFuel true ["recentVideos", "recentVideos", "topics", "contentType", "subscriberCount", "channelTitle"] 99740 rest := rfl

/-- Scan step over one template piece (GROWTH_STRATEGY, top mode). -/
theorem c6_growth_strategy_top_step5 (rest : List Char) :
    scanVarsFuel true ["recentVideos", "recentVideos", "topics", "contentType", "subscriberCount", "channelTitle"] 99740 ("ry\": \"Current assets to leverage for growth\",\n   \"details\": [\"leverage".data ++ rest)
      = scanVarsFuel true ["recentVideos", "recentVideos", "topics", "contentType", "subscriberCount", "channelTitle"] 99670 rest := rfl

/-- Scan step over one template piece (GROWTH_STRATEGY, top mode). -/
theorem c6_growth_strategy_top_step6 (rest : List Char) :
    scanVarsFuel true ["recentVideos", "recentVideos", "topics", "contentType", "subscriberCount", "channelTitle"] 99670 ("able strength 1\", \"growth asset 2\", \"strength 3\"],\n   \"score\": 0-100\n ".data ++ rest)
      = scanVarsFuel true ["recentVideos", "recentVideos", "topics", "contentType", "subscriberCount", "channelTitle"] 99600 rest := rfl

/-- Scan step over one template piece (GROWTH_STRATEGY, top mode). -/
theorem c6_growth_strategy_top_step7 (rest : List Char) :
    scanVarsFuel true ["recentVideos", "recentVideos", "topics", "contentType", "subscriberCount", "channelTitle"] 99600 ("\x7d,\n \"weaknesses\": \x7b\n   \"summary\": \"Growth blockers to address\",\n   \"de".data ++ rest)
      = scanVarsFuel true ["recentVideos", "recentVideos", "topics", "contentType", "subscriberCount", "channelTitle"] 99530 rest := rfl

/-- Scan step over one template piece (GROWTH_STRATEGY, top mode). -/
theorem c6_growth_strategy_top_step8 (rest : List Char) :
    scanVarsFuel true ["recentVideos", "recentVideos", "topics", "contentType", "subscriberCount", "channelTitle"] 99530 ("tails\": [\"growth blocker 1\", \"limiting factor 2\"],\n   \"areas\": [\"criti".data ++ rest)
      = scanVarsFuel true ["recentVideos", "recentVideos", "topics", "contentType", "subscriberCount", "channelTitle"] 99460 rest := rfl

/-- Scan step over one template piece (GROWTH_STRATEGY, top mode). -/
theorem c6_growth_strategy_top_step9 (rest : List Char) :
    scanVarsFuel true ["recentVideos", "recentVideos", "topics", "contentType", "subscriberCount", "channelTitle"] 99460 ("cal improvement area\", \"optimization area 2\"]\n \x7d,\n \"opportunities\": \x7b\n   \"summa".data ++ rest)
      = scanVarsFuel true ["recentVideos", "recentVideos", "topics", "contentType", "subscriberCount", "channelTitle"] 99381 rest := rfl

/-- Scan step over one template piece (GROWTH_STRATEGY, top mode). -/
theorem c6_growth_strategy_top_step10 (rest : List Char) :
    scanVarsFuel true ["recentVideos", "recentVideos", "topics", "contentType", "subscriberCount", "channelTitle"] 99381 ("ry\": \"Strategic growth opportunities\",\n   \"recommendations\": [\n     \x7b\n       \"t".data ++ rest)
      = scanVarsFuel true ["recentVideos", "recentVideos", "topics", "contentType", "subscriberCount", "channelTitle"] 99302 rest := rfl

/-- Scan step over one template piece (GROWTH_STRATEGY, top mode). -/
theorem c6_growth_strategy_top_step11 (rest : List Char) :
    scanVarsFuel true ["recentVideos", "recentVideos", "topics", "contentType", "subscriberCount", "channelTitle"] 99302 ("itle\": \"Growth strategy recommendation\",\n       \"description\": \"Detail".data ++ rest)
      = scanVarsFuel true ["recentVideos", "recentVideos", "topics", "contentType", "subscriberCount", "channelTitle"] 99232 rest := rfl

/-- Scan step over one template piece (GROWTH_STRATEGY, top mode). -/
theorem c6_growth_strategy_top_step12 (rest : List Char) :
    scanVarsFuel true ["recentVideos", "recentVideos", "topics", "contentType", "subscriberCount", "channelTitle"] 99232 ("ed implementation plan with timeline\",\n       \"priority\": \"HIGH|MEDIUM".data ++ rest)
      = scanVarsFuel true ["recentVideos", "recentVideos", "topics", "contentType", "subscriberCount", "channelTitle"] 99162 rest := rfl

/-- Scan step over one template piece (GROWTH_STRATEGY, top mode). -/
theorem c6_growth_strategy_top_step13 (rest : List Char) :
    scanVarsFuel true ["recentVideos", "recentVideos", "topics", "contentType", "subscriberCount", "channelTitle"] 99162 ("|LOW\",\n       \"estimatedImpact\": \"Expected growth outcome (subscribers".data ++ rest)
      = scanVarsFuel true ["recentVideos", "recentVideos", "topics", "contentType", "subscriberCount", "channelTitle"] 99092 rest := rfl

/-- Scan step over one template piece (GROWTH_STRATEGY, top mode). -/
theorem c6_growth_strategy_top_step14 (rest : List Char) :
    scanVarsFuel true ["recentVideos", "recentVideos", "topics", "contentType", "subscriberCount", "channelTitle"] 99092 (", views, etc.)\"\n     \x7d\n   ]\n \x7d,\n \"contentStrategy\": \x7b\n   \"recommendedT".data ++ rest)
      = scanVarsFuel true ["recentVideos", "recentVideos", "topics", "contentType", "subscriberCount", "channelTitle"] 99022 rest := rfl

/-- Scan step over one template piece (GROWTH_STRATEGY, top mode). -/
theorem c6_growth_strategy_top_step15 (rest : List Char) :
    scanVarsFuel true ["recentVideos", "recentVideos", "topics", "contentType", "subscriberCount", "channelTitle"] 99022 ("opics\": [\"high-growth topic 1\", \"trending topic 2\", \"niche topic 3\"],\n".data ++ rest)
      = scanVarsFuel true ["recentVideos", "recentVideos", "topics", "contentType", "subscriberCount", "channelTitle"] 98952 rest := rfl

/-- Scan step over one template piece (GROWTH_STRATEGY, top mode). -/
theorem c6_growth_strategy_top_step16 (rest : List Char) :
    scanVarsFuel true ["recentVideos", "recentVideos", "topics", "contentType", "subscriberCount", "channelTitle"] 98952 ("   \"contentGaps\": [\"underserved content area 1\", \"gap 2\"],\n   \"optimiz".data ++ rest)
      = scanVarsFuel true ["recentVideos", "recentVideos", "topics", "contentType", "subscriberCount", "channelTitle"] 98882 rest := rfl

/-- Scan step over one template piece (GROWTH_STRATEGY, top mode). -/
theorem c6_growth_strategy_top_step17 (rest : List Char) :
    scanVarsFuel true ["recentVideos", "recentVideos", "topics", "contentType", "subscriberCount", "channelTitle"] 98882 ("ationTips\": [\n     \"SEO optimization strategy\",\n     \"Engagement optim".data ++ rest)
      = scanVarsFuel true ["recentVideos", "recentVideos", "topics", "contentType", "subscriberCount", "channelTitle"] 98812 rest := rfl

/-- Scan step over one template piece (GROWTH_STRATEGY, top mode). -/
theorem c6_growth_strategy_top_step18 (rest : List Char) :
    scanVarsFuel true ["recentVideos", "recentVideos", "topics", "contentType", "subscriberCount", "channelTitle"] 98812 ("ization tip\",\n     \"Algorithm optimization strategy\"\n   ]\n \x7d,\n \"scores".data ++ rest)
      = scanVarsFuel true ["recentVideos", "recentVideos", "topics", "contentType", "subscriberCount", "channelTitle"] 98742 rest := rfl

/-- Scan step over one template piece (GROWTH_STRATEGY, top mode). -/
theorem c6_growth_strategy_top_step19 (rest : List Char) :
    scanVarsFuel true ["recentVideos", "recentVideos", "topics", "contentType", "subscriberCount", "channelTitle"] 98742 ("\": \x7b\n   \"overall\": 0-100,\n   \"contentQuality\": 0-100,\n   \"engagement\":".data ++ rest)
      = scanVarsFuel true ["recentVideos", "recentVideos", "topics", "contentType", "subscriberCount", "channelTitle"] 98672 rest := rfl

/-- Scan step over one template piece (GROWTH_STRATEGY, top mode). -/
theorem c6_growth_strategy_top_step20 (rest : List Char) :
    scanVarsFuel true ["recentVideos", "recentVideos", "topics", "contentType", "subscriberCount", "channelTitle"] 98672 (" 0-100,\n   \"growthPotential\": 0-100\n \x7d\n\x7d\n\nFocus on actionable, timelin".data ++ rest)
      = scanVarsFuel true ["recentVideos", "recentVideos", "topics", "contentType", "subscriberCount", "channelTitle"] 98602 rest := rfl

/-- Scan step over one template piece (GROWTH_STRATEGY, top mode). -/
theorem c6_growth_strategy_top_step21 (rest : List Char) :
    scanVarsFuel true ["recentVideos", "recentVideos", "topics", "contentType", "subscriberCount", "channelTitle"] 98602 ("e-specific growth strategies with measurable outcomes.".data ++ rest)
      = scanVarsFuel true ["recentVideos", "recentVideos", "topics", "contentType", "subscriberCount", "channelTitle"] 98548 rest := rfl

/-- Terminal scan step (GROWTH_STRATEGY, top mode). -/
theorem c6_growth_strategy_top_end :
    scanVarsFuel true ["recentVideos", "recentVideos", "topics", "contentType", "subscriberCount", "channelTitle"] 98548 ([] : List Char)
      = ["channelTitle", "subscriberCount", "contentType", "topics", "recentVideos", "recentVideos"] := rfl

/-- Scan step over one template piece (DEEP_DIVE, all mode). -/
theorem c6_deep_dive_all_step0 (rest : List Char) :
    scanVarsFuel false [] 100000 ("Perform a comprehensive analysis of this YouTube channel:\n\nChannel Inf".data ++ rest)
      = scanVarsFuel false [] 99930 rest := rfl

/-- Scan step over one template piece (DEEP_DIVE, all mode). -/
theorem c6_deep_dive_all_step1 (rest : List Char) :
    scanVarsFuel false [] 99930 ("ormation:\n- Title: \x7b\x7bchannelTitle\x7d\x7d\n- Description: \x7b\x7bchannelDescription\x7d\x7d\n".data ++ rest)
      = scanVarsFuel false ["channelDescription", "channelTitle"] 99892 rest := rfl

/-- Scan step over one template piece (DEEP_DIVE, all mode). -/
theorem c6_deep_dive_all_step2 (rest : List Char) :
    scanVarsFuel false ["channelDescription", "channelTitle"] 99892 ("- Subscribers: \x7b\x7bsubscriberCount\x7d\x7d\n- Total Videos: \x7b\x7bvideoCount\x7d\x7d\n- To".data ++ rest)
      = scanVarsFuel false ["videoCount", "subscriberCount", "channelDescription", "channelTitle"] 99853 rest := rfl

/-- Scan step over one template piece (DEEP_DIVE, all mode). -/
theorem c6_deep_dive_all_step3 (rest : List Char) :
    scanVarsFuel false ["videoCount", "subscriberCount", "channelDescription", "channelTitle"] 99853 ("tal Views: \x7b\x7bviewCount\x7d\x7d\n- Content Type: \x7b\x7bcontentType\x7d\x7d\n- Topics: \x7b\x7btopics\x7d\x7d\n-".data ++ rest)
      = scanVarsFuel false ["topics", "contentType", "viewCount", "videoCount", "subscriberCount", "channelDescription", "channelTitle"] 99809 rest := rfl

/-- Scan step over one template piece (DEEP_DIVE, all mode). -/
theorem c6_deep_dive_all_step4 (rest : List Char) :
    scanVarsFuel false ["topics", "contentType", "viewCount", "videoCount", "subscriberCount", "channelDescription", "channelTitle"] 99809 (" Published: \x7b\x7bpublishedAt\x7d\x7d\n\n\x7b\x7b#if recentVideos\x7d\x7d\nRecent Videos Performance:\n\x7b\x7b#each recentVideos\x7d\x7d\n- \"\x7b\x7btitle\x7d\x7d\" - \x7b\x7bviews\x7d\x7d views, \x7b\x7blikes\x7d\x7d likes, \x7b\x7bcomments\x7d\x7d comments (\x7b\x7bpublishedAt\x7d\x7d)\n\x7b\x7b/each\x7d\x7d\n\x7b\x7b/if\x7d\x7d\n\nPro".data ++ rest)
      = scanVarsFuel false ["publishedAt", "comments", "likes", "views", "title", "recentVideos", "recentVideos", "publishedAt", "topics", "contentType", "viewCount", "videoCount", "subscriberCount", "channelDescription", "channelTitle"] 99700 rest := rfl

/-- Scan step over one template piece (DEEP_DIVE, all mode). -/
theorem c6_deep_dive_all_step5 (rest : List Char) :
    scanVarsFuel false ["publishedAt", "comments", "likes", "views", "title", "recentVideos", "recentVideos", "publishedAt", "topics", "contentType", "viewCount", "videoCount", "subscriberCount", "channelDescription", "channelTitle"] 99700 ("vide a detailed analysis in JSON format with:\n\n1. **Comprehensive Stre".data ++ rest)
      = scanVarsFuel false ["publishedAt", "comments", "likes", "views", "title", "recentVideos", "recentVideos", "publishedAt", "topics", "contentType", "viewCount", "videoCount", "subscriberCount", "channelDescription", "channelTitle"] 99630 rest := rfl

/-- Scan step over one template piece (DEEP_DIVE, all mode). -/
theorem c6_deep_dive_all_step6 (rest : List Char) :
    scanVarsFuel false ["publishedAt", "comments", "likes", "views", "title", "recentVideos", "recentVideos", "publishedAt", "topics", "contentType", "viewCount", "videoCount", "subscriberCount", "channelDescription", "channelTitle"] 99630 ("ngths Analysis**\n2. **Detailed Weaknesses Assessment**\n3. **Growth Opp".data ++ rest)
      = scanVarsFuel false ["publishedAt", "comments", "likes", "views", "title", "recentVideos", "recentVideos", "publishedAt", "topics", "contentType", "viewCount", "videoCount", "subscriberCount", "channelDescription", "channelTitle"] 99560 rest := rfl

/-- Scan step over one template piece (DEEP_DIVE, all mode). -/
theorem c6_deep_dive_all_step7 (rest : List Char) :
    scanVarsFuel false ["publishedAt", "comments", "likes", "views", "title", "recentVideos", "recentVideos", "publishedAt", "topics", "contentType", "viewCount", "videoCount", "subscriberCount", "channelDescription", "channelTitle"] 99560 ("ortunities with Priorities**\n4. **Content Strategy Recommendations**\n5".data ++ rest)
      = scanVarsFuel false ["publishedAt", "comments", "likes", "views", "title", "recentVideos", "recentVideos", "publishedAt", "topics", "contentType", "viewCount", "videoCount", "subscriberCount", "channelDescription", "channelTitle"] 99490 rest := rfl

/-- Scan step over one template piece (DEEP_DIVE, all mode). -/
theorem c6_deep_dive_all_step8 (rest : List Char) :
    scanVarsFuel false ["publishedAt", "comments", "likes", "views", "title", "recentVideos", "recentVideos", "publishedAt", "topics", "contentType", "viewCount", "videoCount", "subscriberCount", "channelDescription", "channelTitle"] 99490 (". **Competitive Positioning**\n6. **Detailed Scoring with Rationale**\n\n".data ++ rest)
      = scanVarsFuel false ["publishedAt", "comments", "likes", "views", "title", "recentVideos", "recentVideos", "publishedAt", "topics", "contentType", "viewCount", "videoCount", "subscriberCount", "channelDescription", "channelTitle"] 99420 rest := rfl

/-- Scan step over one template piece (DEEP_DIVE, all mode). -/
theorem c6_deep_dive_all_step9 (rest : List Char) :
    scanVarsFuel false ["publishedAt", "comments", "likes", "views", "title", "recentVideos", "recentVideos", "publishedAt", "topics", "contentType", "viewCount", "videoCount", "subscriberCount", "channelDescription", "channelTitle"] 99420 ("JSON Response Format:\n\x7b\n \"strengths\": \x7b\n   \"summary\": \"Detailed overvi".data ++ rest)
      = scanVarsFuel false ["publishedAt", "comments", "likes", "views", "title", "recentVideos", "recentVideos", "publishedAt", "topics", "contentType", "viewCount", "videoCount", "subscriberCount", "channelDescription", "channelTitle"] 99350 rest := rfl

/-- Scan step over one template piece (DEEP_DIVE, all mode). -/
theorem c6_deep_dive_all_step10 (rest : List Char) :
    scanVarsFuel false ["publishedAt", "comments", "likes", "views", "title", "recentVideos", "recentVideos", "publishedAt", "topics", "contentType", "viewCount", "videoCount", "subscriberCount", "channelDescription", "channelTitle"] 99350 ("ew of channel strengths\",\n   \"details\": [\"specific strength with evide".data ++ rest)
      = scanVarsFuel false ["publishedAt", "comments", "likes", "views", "title", "recentVideos", "recentVideos", "publishedAt", "topics", "contentType", "viewCount", "videoCount", "subscriberCount", "channelDescription", "channelTitle"] 99280 rest := rfl

/-- Scan step over one template piece (DEEP_DIVE, all mode). -/
theorem c6_deep_dive_all_step11 (rest : List Char) :
    scanVarsFuel false ["publishedAt", "comments", "likes", "views", "title", "recentVideos", "recentVideos", "publishedAt", "topics", "contentType", "viewCount", "videoCount", "subscriberCount", "channelDescription", "channelTitle"] 99280 ("nce\", \"strength 2\", \"strength 3\", \"strength 4\", \"strength 5\"],\n   \"sco".data ++ rest)
      = scanVarsFuel false ["publishedAt", "comments", "likes", "views", "title", "recentVideos", "recentVideos", "publishedAt", "topics", "contentType", "viewCount", "videoCount", "subscriberCount", "channelDescription", "channelTitle"] 99210 rest := rfl

/-- Scan step over one template piece (DEEP_DIVE, all mode). -/
theorem c6_deep_dive_all_step12 (rest : List Char) :
    scanVarsFuel false ["publishedAt", "comments", "likes", "views", "title", "recentVideos", "recentVideos", "publishedAt", "topics", "contentType", "viewCount", "videoCount", "subscriberCount", "channelDescription", "channelTitle"] 99210 ("re\": 0-100\n \x7d,\n \"weaknesses\": \x7b\n   \"summary\": \"Comprehensive weakness ".data ++ rest)
      = scanVarsFuel false ["publishedAt", "comments", "likes", "views", "title", "recentVideos", "recentVideos", "publishedAt", "topics", "contentType", "viewCount", "videoCount", "subscriberCount", "channelDescription", "channelTitle"] 99140 rest := rfl

/-- Scan step over one template piece (DEEP_DIVE, all mode). -/
theorem c6_deep_dive_all_step13 (rest : List Char) :
    scanVarsFuel false ["publishedAt", "comments", "likes", "views", "title", "recentVideos", "recentVideos", "publishedAt", "topics", "contentType", "viewCount", "videoCount", "subscriberCount", "channelDescription", "channelTitle"] 99140 ("analysis\",\n   \"details\": [\"specific weakness with suggestion\", \"weakne".data ++ rest)
      = scanVarsFuel false ["publishedAt", "comments", "likes", "views", "title", "recentVideos", "recentVideos", "publishedAt", "topics", "contentType", "viewCount", "videoCount", "subscriberCount", "channelDescription", "channelTitle"] 99070 rest := rfl

/-- Scan step over one template piece (DEEP_DIVE, all mode). -/
theorem c6_deep_dive_all_step14 (rest : List Char) :
    scanVarsFuel false ["publishedAt", "comments", "likes", "views", "title", "recentVideos", "recentVideos", "publishedAt", "topics", "contentType", "viewCount", "videoCount", "subscriberCount", "channelDescription", "channelTitle"] 99070 ("ss 2\", \"weakness 3\"],\n   \"areas\": [\"improvement area 1\", \"area 2\", \"ar".data ++ rest)
      = scanVarsFuel false ["publishedAt", "comments", "likes", "views", "title", "recentVideos", "recentVideos", "publishedAt", "topics", "contentType", "viewCount", "videoCount", "subscriberCount", "channelDescription", "channelTitle"] 99000 rest := rfl

/-- Scan step over one template piece (DEEP_DIVE, all mode). -/
theorem c6_deep_dive_all_step15 (rest : List Char) :
    scanVarsFuel false ["publishedAt", "comments", "likes", "views", "title", "recentVideos", "recentVideos", "publishedAt", "topics", "contentType", "viewCount", "videoCount", "subscriberCount", "channelDescription", "channelTitle"] 99000 ("ea 3\"]\n \x7d,\n \"opportunities\": \x7b\n   \"summary\": \"Strategic growth opportu".data ++ rest)
      = scanVarsFuel false ["publishedAt", "comments", "likes", "views", "title", "recentVideos", "recentVideos", "publishedAt", "topics", "contentType", "viewCount", "videoCount", "subscriberCount", "channelDescription", "channelTitle"] 98930 rest := rfl

/-- Scan step over one template piece (DEEP_DIVE, all mode). -/
theorem c6_deep_dive_all_step16 (rest : List Char) :
    scanVarsFuel false ["publishedAt", "comments", "likes", "views", "title", "recentVideos", "recentVideos", "publishedAt", "topics", "contentType", "viewCount", "videoCount", "subscriberCount", "channelDescription", "channelTitle"] 98930 ("nities\",\n   \"recommendations\": [\n     \x7b\n       \"title\": \"Specific acti".data ++ rest)
      = scanVarsFuel false ["publishedAt", "comments", "likes", "views", "title", "recentVideos", "recentVideos", "publishedAt", "topics", "contentType", "viewCount", "videoCount", "subscriberCount", "channelDescription", "channelTitle"] 98860 rest := rfl

/-- Scan step over one template piece (DEEP_DIVE, all mode). -/
theorem c6_deep_dive_all_step17 (rest : List Char) :
    scanVarsFuel false ["publishedAt", "comments", "likes", "views", "title", "recentVideos", "recentVideos", "publishedAt", "topics", "contentType", "viewCount", "videoCount", "subscriberCount", "channelDescription", "channelTitle"] 98860 ("onable recommendation\",\n       \"description\": \"Detailed implementation".data ++ rest)
      = scanVarsFuel false ["publishedAt", "comments", "likes", "views", "title", "recentVideos", "recentVideos", "publishedAt", "topics", "contentType", "viewCount", "videoCount", "subscriberCount", "channelDescription", "channelTitle"] 98790 rest := rfl

/-- Scan step over one template piece (DEEP_DIVE, all mode). -/
theorem c6_deep_dive_all_step18 (rest : List Char) :
    scanVarsFuel false ["publishedAt", "comments", "likes", "views", "title", "recentVideos", "recentVideos", "publishedAt", "topics", "contentType", "viewCount", "videoCount", "subscriberCount", "channelDescription", "channelTitle"] 98790 (" strategy\",\n       \"priority\": \"HIGH|MEDIUM|LOW\",\n       \"estimatedImp".data ++ rest)
      = scanVarsFuel false ["publishedAt", "comments", "likes", "views", "title", "recentVideos", "recentVideos", "publishedAt", "topics", "contentType", "viewCount", "videoCount", "subscriberCount", "channelDescription", "channelTitle"] 98720 rest := rfl

/-- Scan step over one template piece (DEEP_DIVE, all mode). -/
theorem c6_deep_dive_all_step19 (rest : List Char) :
    scanVarsFuel false ["publishedAt", "comments", "likes", "views", "title", "recentVideos", "recentVideos", "publishedAt", "topics", "contentType", "viewCount", "videoCount", "subscriberCount", "channelDescription", "channelTitle"] 98720 ("act\": \"Quantified impact description\"\n     \x7d\n   ]\n \x7d,\n \"contentStrateg".data ++ rest)
      = scanVarsFuel false ["publishedAt", "comments", "likes", "views", "title", "recentVideos", "recentVideos", "publishedAt", "topics", "contentType", "viewCount", "videoCount", "subscriberCount", "channelDescription", "channelTitle"] 98650 rest := rfl

/-- Scan step over one template piece (DEEP_DIVE, all mode). -/
theorem c6_deep_dive_all_step20 (rest : List Char) :
    scanVarsFuel false ["publishedAt", "comments", "likes", "views", "title", "recentVideos", "recentVideos", "publishedAt", "topics", "contentType", "viewCount", "videoCount", "subscriberCount", "channelDescription", "channelTitle"] 98650 ("y\": \x7b\n   \"recommendedTopics\": [\"topic 1\", \"topic 2\", \"topic 3\"],\n   \"c".data ++ rest)
      = scanVarsFuel false ["publishedAt", "comments", "likes", "views", "title", "recentVideos", "recentVideos", "publishedAt", "topics", "contentType", "viewCount", "videoCount", "subscriberCount", "channelDescription", "channelTitle"] 98580 rest := rfl

/-- Scan step over one template piece (DEEP_DIVE, all mode). -/
theorem c6_deep_dive_all_step21 (rest : List Char) :
    scanVarsFuel false ["publishedAt", "comments", "likes", "views", "title", "recentVideos", "recentVideos", "publishedAt", "topics", "contentType", "viewCount", "videoCount", "subscriberCount", "channelDescription", "channelTitle"] 98580 ("ontentGaps\": [\"gap 1\", \"gap 2\"],\n   \"optimizationTips\": [\"tip 1\", \"tip".data ++ rest)
      = scanVarsFuel false ["publishedAt", "comments", "likes", "views", "title", "recentVideos", "recentVideos", "publishedAt", "topics", "contentType", "viewCount", "videoCount", "subscriberCount", "channelDescription", "channelTitle"] 98510 rest := rfl

/-- Scan step over one template piece (DEEP_DIVE, all mode). -/
theorem c6_deep_dive_all_step22 (rest : List Char) :
    scanVarsFuel false ["publishedAt", "comments", "likes", "views", "title", "recentVideos", "recentVideos", "publishedAt", "topics", "contentType", "viewCount", "videoCount", "subscriberCount", "channelDescription", "channelTitle"] 98510 (" 2\", \"tip 3\"]\n \x7d,\n \"scores\": \x7b\n   \"overall\": 0-100,\n   \"contentQuality".data ++ rest)
      = scanVarsFuel false ["publishedAt", "comments", "likes", "views", "title", "recentVideos", "recentVideos", "publishedAt", "topics", "contentType", "viewCount", "videoCount", "subscriberCount", "channelDescription", "channelTitle"] 98440 rest := rfl

/-- Scan step over one template piece (DEEP_DIVE, all mode). -/
theorem c6_deep_dive_all_step23 (rest : List Char) :
    scanVarsFuel false ["publishedAt", "comments", "likes", "views", "title", "recentVideos", "recentVideos", "publishedAt", "topics", "contentType", "viewCount", "videoCount", "subscriberCount", "channelDescription", "channelTitle"] 98440 ("\": 0-100,\n   \"engagement\": 0-100,\n   \"growthPotential\": 0-100\n \x7d\n\x7d\n\nPr".data ++ rest)
      = scanVarsFuel false ["publishedAt", "comments", "likes", "views", "title", "recentVideos", "recentVideos", "publishedAt", "topics", "contentType", "viewCount", "videoCount", "subscriberCount", "channelDescription", "channelTitle"] 98370 rest := rfl

/-- Scan step over one template piece (DEEP_DIVE, all mode). -/
theorem c6_deep_dive_all_step24 (rest : List Char) :
    scanVarsFuel false ["publishedAt", "comments", "likes", "views", "title", "recentVideos", "recentVideos", "publishedAt", "topics", "contentType", "viewCount", "videoCount", "subscriberCount", "channelDescription", "channelTitle"] 98370 ("ovide data-driven insights with specific examples and actionable recom".data ++ rest)
      = scanVarsFuel false ["publishedAt", "comments", "likes", "views", "title", "recentVideos", "recentVideos", "publishedAt", "topics", "contentType", "viewCount", "videoCount", "subscriberCount", "channelDescription", "channelTitle"] 98300 rest := rfl

/-- Scan step over one template piece (DEEP_DIVE, all mode). -/
theorem c6_deep_dive_all_step25 (rest : List Char) :
    scanVarsFuel false ["publishedAt", "comments", "likes", "views", "title", "recentVideos", "recentVideos", "publishedAt", "topics", "contentType", "viewCount", "videoCount", "subscriberCount", "channelDescription", "channelTitle"] 98300 ("mendations.".data ++ rest)
      = scanVarsFuel false ["publishedAt", "comments", "likes", "views", "title", "recentVideos", "recentVideos", "publishedAt", "topics", "contentType", "viewCount", "videoCount", "subscriberCount", "channelDescription", "channelTitle"] 98289 rest := rfl

/-- Terminal scan step (DEEP_DIVE, all mode). -/
theorem c6_deep_dive_all_end :
    scanVarsFuel false ["publishedAt", "comments", "likes", "views", "title", "recentVideos", "recentVideos", "publishedAt", "topics", "contentType", "viewCount", "videoCount", "subscriberCount", "channelDescription", "channelTitle"] 98289 ([] : List Char)
      = ["channelTitle", "channelDescription", "subscriberCount", "videoCount", "viewCount", "contentType", "topics", "publishedAt", "recentVideos", "recentVideos", "title", "views", "likes", "comments", "publishedAt"] := rfl

/-- Evaluated list of variables referenced outside loop bodies in the
`QUICK_SCAN` template. -/
theorem c6_quick_scan_top_eval :
    referencedVarsTop PromptTemplates.QUICK_SCAN.template = ["channelTitle", "channelDescription", "subscriberCount", "videoCount", "viewCount", "contentType", "topics"] :=
  (((((((((((((((c6_quick_scan_top_step0 ("Description: \x7b\x7bchannelDescription\x7d\x7d\nSubscribers: \x7b\x7bsubscriberCount\x7d\x7d\nVideos: \x7b\x7bvideoCount\x7d\x7d\n".data ++ ("Total Views: \x7b\x7bviewCount\x7d\x7d\nContent Type: \x7b\x7bcontentType\x7d\x7d\nTopics: \x7b\x7btopics\x7d\x7d\n\n".data ++ ("Provide a concise analysis in JSON format:\n\x7b\n \"strengths\": \x7b\n   \"summa".data ++ ("ry\": \"Brief overview of main strengths\",\n   \"details\": [\"strength 1\", ".data ++ ("\"strength 2\", \"strength 3\"],\n   \"score\": 0-100\n \x7d,\n \"weaknesses\": \x7b\n   \"summa".data ++ ("ry\": \"Brief overview of main weaknesses\",\n   \"details\": [\"weakness 1\",".data ++ (" \"weakness 2\"],\n   \"areas\": [\"area for improvement 1\", \"area 2\"]\n \x7d,\n ".data ++ ("\"opportunities\": \x7b\n   \"summary\": \"Key growth opportunities\",\n   \"recom".data ++ ("mendations\": [\n     \x7b\n       \"title\": \"Recommendation title\",\n       \"".data ++ ("description\": \"Detailed description\",\n       \"priority\": \"HIGH|MEDIUM|".data ++ ("LOW\",\n       \"estimatedImpact\": \"Description of potential impact\"\n    ".data ++ (" \x7d\n   ]\n \x7d,\n \"scores\": \x7b\n   \"overall\": 0-100,\n   \"contentQuality\": 0-1".data ++ ("00,\n   \"engagement\": 0-100,\n   \"growthPotential\": 0-100\n \x7d\n\x7d\n\nFocus on".data ++ (" actionable insights. Be specific and constructive.".data ++ (([] : List Char))))))))))))))))).trans (c6_quick_scan_top_step1 ("Total Views: \x7b\x7bviewCount\x7d\x7d\nContent Type: \x7b\x7bcontentType\x7d\x7d\nTopics: \x7b\x7btopics\x7d\x7d\n\n".data ++ ("Provide a concise analysis in JSON format:\n\x7b\n \"strengths\": \x7b\n   \"summa".data ++ ("ry\": \"Brief overview of main strengths\",\n   \"details\": [\"strength 1\", ".data ++ ("\"strength 2\", \"strength 3\"],\n   \"score\": 0-100\n \x7d,\n \"weaknesses\": \x7b\n   \"summa".data ++ ("ry\": \"Brief overview of main weaknesses\",\n   \"details\": [\"weakness 1\",".data ++ (" \"weakness 2\"],\n   \"areas\": [\"area for improvement 1\", \"area 2\"]\n \x7d,\n ".data ++ ("\"opportunities\": \x7b\n   \"summary\": \"Key growth opportunities\",\n   \"recom".data ++ ("mendations\": [\n     \x7b\n       \"title\": \"Recommendation title\",\n       \"".data ++ ("description\": \"Detailed description\",\n       \"priority\": \"HIGH|MEDIUM|".data ++ ("LOW\",\n       \"estimatedImpact\": \"Description of potential impact\"\n    ".data ++ (" \x7d\n   ]\n \x7d,\n \"scores\": \x7b\n   \"overall\": 0-100,\n   \"contentQuality\": 0-1".data ++ ("00,\n   \"engagement\": 0-100,\n   \"growthPotential\": 0-100\n \x7d\n\x7d\n\nFocus on".data ++ (" actionable insights. Be specific and constructive.".data ++ (([] : List Char))))))))))))))))).trans (c6_quick_scan_top_step2 ("Provide a concise analysis in JSON format:\n\x7b\n \"strengths\": \x7b\n   \"summa".data ++ ("ry\": \"Brief overview of main strengths\",\n   \"details\": [\"strength 1\", ".data ++ ("\"strength 2\", \"strength 3\"],\n   \"score\": 0-100\n \x7d,\n \"weaknesses\": \x7b\n   \"summa".data ++ ("ry\": \"Brief overview of main weaknesses\",\n   \"details\": [\"weakness 1\",".data ++ (" \"weakness 2\"],\n   \"areas\": [\"area for improvement 1\", \"area 2\"]\n \x7d,\n ".data ++ ("\"opportunities\": \x7b\n   \"summary\": \"Key growth opportunities\",\n   \"recom".data ++ ("mendations\": [\n     \x7b\n       \"title\": \"Recommendation title\",\n       \"".data ++ ("description\": \"Detailed description\",\n       \"priority\": \"HIGH|MEDIUM|".data ++ ("LOW\",\n       \"estimatedImpact\": \"Description of potential impact\"\n    ".data ++ (" \x7d\n   ]\n \x7d,\n \"scores\": \x7b\n   \"overall\": 0-100,\n   \"contentQuality\": 0-1".data ++ ("00,\n   \"engagement\": 0-100,\n   \"growthPotential\": 0-100\n \x7d\n\x7d\n\nFocus on".data ++ (" actionable insights. Be specific and constructive.".data ++ (([] : List Char)))))))))))))))).trans (c6_quick_scan_top_step3 ("ry\": \"Brief overview of main strengths\",\n   \"details\": [\"strength 1\", ".data ++ ("\"strength 2\", \"strength 3\"],\n   \"score\": 0-100\n \x7d,\n \"weaknesses\": \x7b\n   \"summa".data ++ ("ry\": \"Brief overview of main weaknesses\",\n   \"details\": [\"weakness 1\",".data ++ (" \"weakness 2\"],\n   \"areas\": [\"area for improvement 1\", \"area 2\"]\n \x7d,\n ".data ++ ("\"opportunities\": \x7b\n   \"summary\": \"Key growth opportunities\",\n   \"recom".data ++ ("mendations\": [\n     \x7b\n       \"title\": \"Recommendation title\",\n       \"".data ++ ("description\": \"Detailed description\",\n       \"priority\": \"HIGH|MEDIUM|".data ++ ("LOW\",\n       \"estimatedImpact\": \"Description of potential impact\"\n    ".data ++ (" \x7d\n   ]\n \x7d,\n \"scores\": \x7b\n   \"overall\": 0-100,\n   \"contentQuality\": 0-1".data ++ ("00,\n   \"engagement\": 0-100,\n   \"growthPotential\": 0-100\n \x7d\n\x7d\n\nFocus on".data ++ (" actionable insights. Be specific and constructive.".data ++ (([] : List Char))))))))))))))).trans (c6_quick_scan_top_step4 ("\"strength 2\", \"strength 3\"],\n   \"score\": 0-100\n \x7d,\n \"weaknesses\": \x7b\n   \"summa".data ++ ("ry\": \"Brief overview of main weaknesses\",\n   \"details\": [\"weakness 1\",".data ++ (" \"weakness 2\"],\n   \"areas\": [\"area for improvement 1\", \"area 2\"]\n \x7d,\n ".data ++ ("\"opportunities\": \x7b\n   \"summary\": \"Key growth opportunities\",\n   \"recom".data ++ ("mendations\": [\n     \x7b\n       \"title\": \"Recommendation title\",\n       \"".data ++ ("description\": \"Detailed description\",\n       \"priority\": \"HIGH|MEDIUM|".data ++ ("LOW\",\n       \"estimatedImpact\": \"Description of potential impact\"\n    ".data ++ (" \x7d\n   ]\n \x7d,\n \"scores\": \x7b\n   \"overall\": 0-100,\n   \"contentQuality\": 0-1".data ++ ("00,\n   \"engagement\": 0-100,\n   \"growthPotential\": 0-100\n \x7d\n\x7d\n\nFocus on".data ++ (" actionable insights. Be specific and constructive.".data ++ (([] : List Char)))))))))))))).trans (c6_quick_scan_top_step5 ("ry\": \"Brief overview of main weaknesses\",\n   \"details\": [\"weakness 1\",".data ++ (" \"weakness 2\"],\n   \"areas\": [\"area for improvement 1\", \"area 2\"]\n \x7d,\n ".data ++ ("\"opportunities\": \x7b\n   \"summary\": \"Key growth opportunities\",\n   \"recom".data ++ ("mendations\": [\n     \x7b\n       \"title\": \"Recommendation title\",\n       \"".data ++ ("description\": \"Detailed description\",\n       \"priority\": \"HIGH|MEDIUM|".data ++ ("LOW\",\n       \"estimatedImpact\": \"Description of potential impact\"\n    ".data ++ (" \x7d\n   ]\n \x7d,\n \"scores\": \x7b\n   \"overall\": 0-100,\n   \"contentQuality\": 0-1".data ++ ("00,\n   \"engagement\": 0-100,\n   \"growthPotential\": 0-100\n \x7d\n\x7d\n\nFocus on".data ++ (" actionable insights. Be specific and constructive.".data ++ (([] : List Char))))))))))))).trans (c6_quick_scan_top_step6 (" \"weakness 2\"],\n   \"areas\": [\"area for improvement 1\", \"area 2\"]\n \x7d,\n ".data ++ ("\"opportunities\": \x7b\n   \"summary\": \"Key growth opportunities\",\n   \"recom".data ++ ("mendations\": [\n     \x7b\n       \"title\": \"Recommendation title\",\n       \"".data ++ ("description\": \"Detailed description\",\n       \"priority\": \"HIGH|MEDIUM|".data ++ ("LOW\",\n       \"estimatedImpact\": \"Description of potential impact\"\n    ".data ++ (" \x7d\n   ]\n \x7d,\n \"scores\": \x7b\n   \"overall\": 0-100,\n   \"contentQuality\": 0-1".data ++ ("00,\n   \"engagement\": 0-100,\n   \"growthPotential\": 0-100\n \x7d\n\x7d\n\nFocus on".data ++ (" actionable insights. Be specific and constructive.".data ++ (([] : List Char)))))))))))).trans (c6_quick_scan_top_step7 ("\"opportunities\": \x7b\n   \"summary\": \"Key growth opportunities\",\n   \"recom".data ++ ("mendations\": [\n     \x7b\n       \"title\": \"Recommendation title\",\n       \"".data ++ ("description\": \"Detailed description\",\n       \"priority\": \"HIGH|MEDIUM|".data ++ ("LOW\",\n       \"estimatedImpact\": \"Description of potential impact\"\n    ".data ++ (" \x7d\n   ]\n \x7d,\n \"scores\": \x7b\n   \"overall\": 0-100,\n   \"contentQuality\": 0-1".data ++ ("00,\n   \"engagement\": 0-100,\n   \"growthPotential\": 0-100\n \x7d\n\x7d\n\nFocus on".data ++ (" actionable insights. Be specific and constructive.".data ++ (([] : List Char))))))))))).trans (c6_quick_scan_top_step8 ("mendations\": [\n     \x7b\n       \"title\": \"Recommendation title\",\n       \"".data ++ ("description\": \"Detailed description\",\n       \"priority\": \"HIGH|MEDIUM|".data ++ ("LOW\",\n       \"estimatedImpact\": \"Description of potential impact\"\n    ".data ++ (" \x7d\n   ]\n \x7d,\n \"scores\": \x7b\n   \"overall\": 0-100,\n   \"contentQuality\": 0-1".data ++ ("00,\n   \"engagement\": 0-100,\n   \"growthPotential\": 0-100\n \x7d\n\x7d\n\nFocus on".data ++ (" actionable insights. Be specific and constructive.".data ++ (([] : List Char)))))))))).trans (c6_quick_scan_top_step9 ("description\": \"Detailed description\",\n       \"priority\": \"HIGH|MEDIUM|".data ++ ("LOW\",\n       \"estimatedImpact\": \"Description of potential impact\"\n    ".data ++ (" \x7d\n   ]\n \x7d,\n \"scores\": \x7b\n   \"overall\": 0-100,\n   \"contentQuality\": 0-1".data ++ ("00,\n   \"engagement\": 0-100,\n   \"growthPotential\": 0-100\n \x7d\n\x7d\n\nFocus on".data ++ (" actionable insights. Be specific and constructive.".data ++ (([] : List Char))))))))).trans (c6_quick_scan_top_step10 ("LOW\",\n       \"estimatedImpact\": \"Description of potential impact\"\n    ".data ++ (" \x7d\n   ]\n \x7d,\n \"scores\": \x7b\n   \"overall\": 0-100,\n   \"contentQuality\": 0-1".data ++ ("00,\n   \"engagement\": 0-100,\n   \"growthPotential\": 0-100\n \x7d\n\x7d\n\nFocus on".data ++ (" actionable insights. Be specific and constructive.".data ++ (([] : List Char)))))))).trans (c6_quick_scan_top_step11 (" \x7d\n   ]\n \x7d,\n \"scores\": \x7b\n   \"overall\": 0-100,\n   \"contentQuality\": 0-1".data ++ ("00,\n   \"engagement\": 0-100,\n   \"growthPotential\": 0-100\n \x7d\n\x7d\n\nFocus on".data ++ (" actionable insights. Be specific and constructive.".data ++ (([] : List Char))))))).trans (c6_quick_scan_top_step12 ("00,\n   \"engagement\": 0-100,\n   \"growthPotential\": 0-100\n \x7d\n\x7d\n\nFocus on".data ++ (" actionable insights. Be specific and constructive.".data ++ (([] : List Char)))))).trans (c6_quick_scan_top_step13 (" actionable insights. Be specific and constructive.".data ++ (([] : List Char))))).trans (c6_quick_scan_top_step14 (([] : List Char)))).trans c6_quick_scan_top_end

/-- Evaluated list of variables referenced outside loop bodies in the
`DEEP_DIVE` template. -/
theorem c6_deep_dive_top_eval :
    referencedVarsTop PromptTemplates.DEEP_DIVE.template = ["channelTitle", "channelDescription", "subscriberCount", "videoCount", "viewCount", "contentType", "topics", "publishedAt", "recentVideos", "recentVideos"] :=
  ((((((((((((((((((((((((((c6_deep_dive_top_step0 ("ormation:\n- Title: \x7b\x7bchannelTitle\x7d\x7d\n- Description: \x7b\x7bchannelDescription\x7d\x7d\n".data ++ ("- Subscribers: \x7b\x7bsubscriberCount\x7d\x7d\n- Total Videos: \x7b\x7bvideoCount\x7d\x7d\n- To".data ++ ("tal Views: \x7b\x7bviewCount\x7d\x7d\n- Content Type: \x7b\x7bcontentType\x7d\x7d\n- Topics: \x7b\x7btopics\x7d\x7d\n-".data ++ (" Published: \x7b\x7bpublishedAt\x7d\x7d\n\n\x7b\x7b#if recentVideos\x7d\x7d\nRecent Videos Performance:\n\x7b\x7b#each recentVideos\x7d\x7d\n- \"\x7b\x7btitle\x7d\x7d\" - \x7b\x7bviews\x7d\x7d views, \x7b\x7blikes\x7d\x7d likes, \x7b\x7bcomments\x7d\x7d comments (\x7b\x7bpublishedAt\x7d\x7d)\n\x7b\x7b/each\x7d\x7d\n\x7b\x7b/if\x7d\x7d\n\nPro".data ++ ("vide a detailed analysis in JSON format with:\n\n1. **Comprehensive Stre".data ++ ("ngths Analysis**\n2. **Detailed Weaknesses Assessment**\n3. **Growth Opp".data ++ ("ortunities with Priorities**\n4. **Content Strategy Recommendations**\n5".data ++ (". **Competitive Positioning**\n6. **Detailed Scoring with Rationale**\n\n".data ++ ("JSON Response Format:\n\x7b\n \"strengths\": \x7b\n   \"summary\": \"Detailed overvi".data ++ ("ew of channel strengths\",\n   \"details\": [\"specific strength with evide".data ++ ("nce\", \"strength 2\", \"strength 3\", \"strength 4\", \"strength 5\"],\n   \"sco".data ++ ("re\": 0-100\n \x7d,\n \"weaknesses\": \x7b\n   \"summary\": \"Comprehensive weakness ".data ++ ("analysis\",\n   \"details\": [\"specific weakness with suggestion\", \"weakne".data ++ ("ss 2\", \"weakness 3\"],\n   \"areas\": [\"improvement area 1\", \"area 2\", \"ar".data ++ ("ea 3\"]\n \x7d,\n \"opportunities\": \x7b\n   \"summary\": \"Strategic growth opportu".data ++ ("nities\",\n   \"recommendations\": [\n     \x7b\n       \"title\": \"Specific acti".data ++ ("onable recommendation\",\n       \"description\": \"Detailed implementation".data ++ (" strategy\",\n       \"priority\": \"HIGH|MEDIUM|LOW\",\n       \"estimatedImp".data ++ ("act\": \"Quantified impact description\"\n     \x7d\n   ]\n \x7d,\n \"contentStrateg".data ++ ("y\": \x7b\n   \"recommendedTopics\": [\"topic 1\", \"topic 2\", \"topic 3\"],\n   \"c".data ++ ("ontentGaps\": [\"gap 1\", \"gap 2\"],\n   \"optimizationTips\": [\"tip 1\", \"tip".data ++ (" 2\", \"tip 3\"]\n \x7d,\n \"scores\": \x7b\n   \"overall\": 0-100,\n   \"contentQuality".data ++ ("\": 0-100,\n   \"engagement\": 0-100,\n   \"growthPotential\": 0-100\n \x7d\n\x7d\n\nPr".data ++ ("ovide data-driven insights with specific examples and actionable recom".data ++ ("mendations.".data ++ (([] : List Char)))))))))))))))))))))))))))).trans (c6_deep_dive_top_step1 ("- Subscribers: \x7b\x7bsubscriberCount\x7d\x7d\n- Total Videos: \x7b\x7bvideoCount\x7d\x7d\n- To".data ++ ("tal Views: \x7b\x7bviewCount\x7d\x7d\n- Content Type: \x7b\x7bcontentType\x7d\x7d\n- Topics: \x7b\x7btopics\x7d\x7d\n-".data ++ (" Published: \x7b\x7bpublishedAt\x7d\x7d\n\n\x7b\x7b#if recentVideos\x7d\x7d\nRecent Videos Performance:\n\x7b\x7b#each recentVideos\x7d\x7d\n- \"\x7b\x7btitle\x7d\x7d\" - \x7b\x7bviews\x7d\x7d views, \x7b\x7blikes\x7d\x7d likes, \x7b\x7bcomments\x7d\x7d comments (\x7b\x7bpublishedAt\x7d\x7d)\n\x7b\x7b/each\x7d\x7d\n\x7b\x7b/if\x7d\x7d\n\nPro".data ++ ("vide a detailed analysis in JSON format with:\n\n1. **Comprehensive Stre".data ++ ("ngths Analysis**\n2. **Detailed Weaknesses Assessment**\n3. **Growth Opp".data ++ ("ortunities with Priorities**\n4. **Content Strategy Recommendations**\n5".data ++ (". **Competitive Positioning**\n6. **Detailed Scoring with Rationale**\n\n".data ++ ("JSON Response Format:\n\x7b\n \"strengths\": \x7b\n   \"summary\": \"Detailed overvi".data ++ ("ew of channel strengths\",\n   \"details\": [\"specific strength with evide".data ++ ("nce\", \"strength 2\", \"strength 3\", \"strength 4\", \"strength 5\"],\n   \"sco".data ++ ("re\": 0-100\n \x7d,\n \"weaknesses\": \x7b\n   \"summary\": \"Comprehensive weakness ".data ++ ("analysis\",\n   \"details\": [\"specific weakness with suggestion\", \"weakne".data ++ ("ss 2\", \"weakness 3\"],\n   \"areas\": [\"improvement area 1\", \"area 2\", \"ar".data ++ ("ea 3\"]\n \x7d,\n \"opportunities\": \x7b\n   \"summary\": \"Strategic growth opportu".data ++ ("nities\",\n   \"recommendations\": [\n     \x7b\n       \"title\": \"Specific acti".data ++ ("onable recommendation\",\n       \"description\": \"Detailed implementation".data ++ (" strategy\",\n       \"priority\": \"HIGH|MEDIUM|LOW\",\n       \"estimatedImp".data ++ ("act\": \"Quantified impact description\"\n     \x7d\n   ]\n \x7d,\n \"contentStrateg".data ++ ("y\": \x7b\n   \"recommendedTopics\": [\"topic 1\", \"topic 2\", \"topic 3\"],\n   \"c".data ++ ("ontentGaps\": [\"gap 1\", \"gap 2\"],\n   \"optimizationTips\": [\"tip 1\", \"tip".data ++ (" 2\", \"tip 3\"]\n \x7d,\n \"scores\": \x7b\n   \"overall\": 0-100,\n   \"contentQuality".data ++ ("\": 0-100,\n   \"engagement\": 0-100,\n   \"growthPotential\": 0-100\n \x7d\n\x7d\n\nPr".data ++ ("ovide data-driven insights with specific examples and actionable recom".data ++ ("mendations.".data ++ (([] : List Char)))))))))))))))))))))))))))).trans (c6_deep_dive_top_step2 ("tal Views: \x7b\x7bviewCount\x7d\x7d\n- Content Type: \x7b\x7bcontentType\x7d\x7d\n- Topics: \x7b\x7btopics\x7d\x7d\n-".data ++ (" Published: \x7b\x7bpublishedAt\x7d\x7d\n\n\x7b\x7b#if recentVideos\x7d\x7d\nRecent Videos Performance:\n\x7b\x7b#each recentVideos\x7d\x7d\n- \"\x7b\x7btitle\x7d\x7d\" - \x7b\x7bviews\x7d\x7d views, \x7b\x7blikes\x7d\x7d likes, \x7b\x7bcomments\x7d\x7d comments (\x7b\x7bpublishedAt\x7d\x7d)\n\x7b\x7b/each\x7d\x7d\n\x7b\x7b/if\x7d\x7d\n\nPro".data ++ ("vide a detailed analysis in JSON format with:\n\n1. **Comprehensive Stre".data ++ ("ngths Analysis**\n2. **Detailed Weaknesses Assessment**\n3. **Growth Opp".data ++ ("ortunities with Priorities**\n4. **Content Strategy Recommendations**\n5".data ++ (". **Competitive Positioning**\n6. **Detailed Scoring with Rationale**\n\n".data ++ ("JSON Response Format:\n\x7b\n \"strengths\": \x7b\n   \"summary\": \"Detailed overvi".data ++ ("ew of channel strengths\",\n   \"details\": [\"specific strength with evide".data ++ ("nce\", \"strength 2\", \"strength 3\", \"strength 4\", \"strength 5\"],\n   \"sco".data ++ ("re\": 0-100\n \x7d,\n \"weaknesses\": \x7b\n   \"summary\": \"Comprehensive weakness ".data ++ ("analysis\",\n   \"details\": [\"specific weakness with suggestion\", \"weakne".data ++ ("ss 2\", \"weakness 3\"],\n   \"areas\": [\"improvement area 1\", \"area 2\", \"ar".data ++ ("ea 3\"]\n \x7d,\n \"opportunities\": \x7b\n   \"summary\": \"Strategic growth opportu".data ++ ("nities\",\n   \"recommendations\": [\n     \x7b\n       \"title\": \"Specific acti".data ++ ("onable recommendation\",\n       \"description\": \"Detailed implementation".data ++ (" strategy\",\n       \"priority\": \"HIGH|MEDIUM|LOW\",\n       \"estimatedImp".data ++ ("act\": \"Quantified impact description\"\n     \x7d\n   ]\n \x7d,\n \"contentStrateg".data ++ ("y\": \x7b\n   \"recommendedTopics\": [\"topic 1\", \"topic 2\", \"topic 3\"],\n   \"c".data ++ ("ontentGaps\": [\"gap 1\", \"gap 2\"],\n   \"optimizationTips\": [\"tip 1\", \"tip".data ++ (" 2\", \"tip 3\"]\n \x7d,\n \"scores\": \x7b\n   \"overall\": 0-100,\n   \"contentQuality".data ++ ("\": 0-100,\n   \"engagement\": 0-100,\n   \"growthPotential\": 0-100\n \x7d\n\x7d\n\nPr".data ++ ("ovide data-driven insights with specific examples and actionable recom".data ++ ("mendations.".data ++ (([] : List Char))))))))))))))))))))))))))).trans (c6_deep_dive_top_step3 (" Published: \x7b\x7bpublishedAt\x7d\x7d\n\n\x7b\x7b#if recentVideos\x7d\x7d\nRecent Videos Performance:\n\x7b\x7b#each recentVideos\x7d\x7d\n- \"\x7b\x7btitle\x7d\x7d\" - \x7b\x7bviews\x7d\x7d views, \x7b\x7blikes\x7d\x7d likes, \x7b\x7bcomments\x7d\x7d comments (\x7b\x7bpublishedAt\x7d\x7d)\n\x7b\x7b/each\x7d\x7d\n\x7b\x7b/if\x7d\x7d\n\nPro".data ++ ("vide a detailed analysis in JSON format with:\n\n1. **Comprehensive Stre".data ++ ("ngths Analysis**\n2. **Detailed Weaknesses Assessment**\n3. **Growth Opp".data ++ ("ortunities with Priorities**\n4. **Content Strategy Recommendations**\n5".data ++ (". **Competitive Positioning**\n6. **Detailed Scoring with Rationale**\n\n".data ++ ("JSON Response Format:\n\x7b\n \"strengths\": \x7b\n   \"summary\": \"Detailed overvi".data ++ ("ew of channel strengths\",\n   \"details\": [\"specific strength with evide".data ++ ("nce\", \"strength 2\", \"strength 3\", \"strength 4\", \"strength 5\"],\n   \"sco".data ++ ("re\": 0-100\n \x7d,\n \"weaknesses\": \x7b\n   \"summary\": \"Comprehensive weakness ".data ++ ("analysis\",\n   \"details\": [\"specific weakness with suggestion\", \"weakne".data ++ ("ss 2\", \"weakness 3\"],\n   \"areas\": [\"improvement area 1\", \"area 2\", \"ar".data ++ ("ea 3\"]\n \x7d,\n \"opportunities\": \x7b\n   \"summary\": \"Strategic growth opportu".data ++ ("nities\",\n   \"recommendations\": [\n     \x7b\n       \"title\": \"Specific acti".data ++ ("onable recommendation\",\n       \"description\": \"Detailed implementation".data ++ (" strategy\",\n       \"priority\": \"HIGH|MEDIUM|LOW\",\n       \"estimatedImp".data ++ ("act\": \"Quantified impact description\"\n     \x7d\n   ]\n \x7d,\n \"contentStrateg".data ++ ("y\": \x7b\n   \"recommendedTopics\": [\"topic 1\", \"topic 2\", \"topic 3\"],\n   \"c".data ++ ("ontentGaps\": [\"gap 1\", \"gap 2\"],\n   \"optimizationTips\": [\"tip 1\", \"tip".data ++ (" 2\", \"tip 3\"]\n \x7d,\n \"scores\": \x7b\n   \"overall\": 0-100,\n   \"contentQuality".data ++ ("\": 0-100,\n   \"engagement\": 0-100,\n   \"growthPotential\": 0-100\n \x7d\n\x7d\n\nPr".data ++ ("ovide data-driven insights with specific examples and actionable recom".data ++ ("mendations.".data ++ (([] : List Char)))))))))))))))))))))))))).trans (c6_deep_dive_top_step4 ("vide a detailed analysis in JSON format with:\n\n1. **Comprehensive Stre".data ++ ("ngths Analysis**\n2. **Detailed Weaknesses Assessment**\n3. **Growth Opp".data ++ ("ortunities with Priorities**\n4. **Content Strategy Recommendations**\n5".data ++ (". **Competitive Positioning**\n6. **Detailed Scoring with Rationale**\n\n".data ++ ("JSON Response Format:\n\x7b\n \"strengths\": \x7b\n   \"summary\": \"Detailed overvi".data ++ ("ew of channel strengths\",\n   \"details\": [\"specific strength with evide".data ++ ("nce\", \"strength 2\", \"strength 3\", \"strength 4\", \"strength 5\"],\n   \"sco".data ++ ("re\": 0-100\n \x7d,\n \"weaknesses\": \x7b\n   \"summary\": \"Comprehensive weakness ".data ++ ("analysis\",\n   \"details\": [\"specific weakness with suggestion\", \"weakne".data ++ ("ss 2\", \"weakness 3\"],\n   \"areas\": [\"improvement area 1\", \"area 2\", \"ar".data ++ ("ea 3\"]\n \x7d,\n \"opportunities\": \x7b\n   \"summary\": \"Strategic growth opportu".data ++ ("nities\",\n   \"recommendations\": [\n     \x7b\n       \"title\": \"Specific acti".data ++ ("onable recommendation\",\n       \"description\": \"Detailed implementation".data ++ (" strategy\",\n       \"priority\": \"HIGH|MEDIUM|LOW\",\n       \"estimatedImp".data ++ ("act\": \"Quantified impact description\"\n     \x7d\n   ]\n \x7d,\n \"contentStrateg".data ++ ("y\": \x7b\n   \"recommendedTopics\": [\"topic 1\", \"topic 2\", \"topic 3\"],\n   \"c".data ++ ("ontentGaps\": [\"gap 1\", \"gap 2\"],\n   \"optimizationTips\": [\"tip 1\", \"tip".data ++ (" 2\", \"tip 3\"]\n \x7d,\n \"scores\": \x7b\n   \"overall\": 0-100,\n   \"contentQuality".data ++ ("\": 0-100,\n   \"engagement\": 0-100,\n   \"growthPotential\": 0-100\n \x7d\n\x7d\n\nPr".data ++ ("ovide data-driven insights with specific examples and actionable recom".data ++ ("mendations.".data ++ (([] : List Char))))))))))))))))))))))))).trans (c6_deep_dive_top_step5 ("ngths Analysis**\n2. **Detailed Weaknesses Assessment**\n3. **Growth Opp".data ++ ("ortunities with Priorities**\n4. **Content Strategy Recommendations**\n5".data ++ (". **Competitive Positioning**\n6. **Detailed Scoring with Rationale**\n\n".data ++ ("JSON Response Format:\n\x7b\n \"strengths\": \x7b\n   \"summary\": \"Detailed overvi".data ++ ("ew of channel strengths\",\n   \"details\": [\"specific strength with evide".data ++ ("nce\", \"strength 2\", \"strength 3\", \"strength 4\", \"strength 5\"],\n   \"sco".data ++ ("re\": 0-100\n \x7d,\n \"weaknesses\": \x7b\n   \"summary\": \"Comprehensive weakness ".data ++ ("analysis\",\n   \"details\": [\"specific weakness with suggestion\", \"weakne".data ++ ("ss 2\", \"weakness 3\"],\n   \"areas\": [\"improvement area 1\", \"area 2\", \"ar".data ++ ("ea 3\"]\n \x7d,\n \"opportunities\": \x7b\n   \"summary\": \"Strategic growth opportu".data ++ ("nities\",\n   \"recommendations\": [\n     \x7b\n       \"title\": \"Specific acti".data ++ ("onable recommendation\",\n       \"description\": \"Detailed implementation".data ++ (" strategy\",\n       \"priority\": \"HIGH|MEDIUM|LOW\",\n       \"estimatedImp".data ++ ("act\": \"Quantified impact description\"\n     \x7d\n   ]\n \x7d,\n \"contentStrateg".data ++ ("y\": \x7b\n   \"recommendedTopics\": [\"topic 1\", \"topic 2\", \"topic 3\"],\n   \"c".data ++ ("ontentGaps\": [\"gap 1\", \"gap 2\"],\n   \"optimizationTips\": [\"tip 1\", \"tip".data ++ (" 2\", \"tip 3\"]\n \x7d,\n \"scores\": \x7b\n   \"overall\": 0-100,\n   \"contentQuality".data ++ ("\": 0-100,\n   \"engagement\": 0-100,\n   \"growthPotential\": 0-100\n \x7d\n\x7d\n\nPr".data ++ ("ovide data-driven insights with specific examples and actionable recom".data ++ ("mendations.".data ++ (([] : List Char)))))))))))))))))))))))).trans (c6_deep_dive_top_step6 ("ortunities with Priorities**\n4. **Content Strategy Recommendations**\n5".data ++ (". **Competitive Positioning**\n6. **Detailed Scoring with Rationale**\n\n".data ++ ("JSON Response Format:\n\x7b\n \"strengths\": \x7b\n   \"summary\": \"Detailed overvi".data ++ ("ew of channel strengths\",\n   \"details\": [\"specific strength with evide".data ++ ("nce\", \"strength 2\", \"strength 3\", \"strength 4\", \"strength 5\"],\n   \"sco".data ++ ("re\": 0-100\n \x7d,\n \"weaknesses\": \x7b\n   \"summary\": \"Comprehensive weakness ".data ++ ("analysis\",\n   \"details\": [\"specific weakness with suggestion\", \"weakne".data ++ ("ss 2\", \"weakness 3\"],\n   \"areas\": [\"improvement area 1\", \"area 2\", \"ar".data ++ ("ea 3\"]\n \x7d,\n \"opportunities\": \x7b\n   \"summary\": \"Strategic growth opportu".data ++ ("nities\",\n   \"recommendations\": [\n     \x7b\n       \"title\": \"Specific acti".data ++ ("onable recommendation\",\n       \"description\": \"Detailed implementation".data ++ (" strategy\",\n       \"priority\": \"HIGH|MEDIUM|LOW\",\n       \"estimatedImp".data ++ ("act\": \"Quantified impact description\"\n     \x7d\n   ]\n \x7d,\n \"contentStrateg".data ++ ("y\": \x7b\n   \"recommendedTopics\": [\"topic 1\", \"topic 2\", \"topic 3\"],\n   \"c".data ++ ("ontentGaps\": [\"gap 1\", \"gap 2\"],\n   \"optimizationTips\": [\"tip 1\", \"tip".data ++ (" 2\", \"tip 3\"]\n \x7d,\n \"scores\": \x7b\n   \"overall\": 0-100,\n   \"contentQuality".data ++ ("\": 0-100,\n   \"engagement\": 0-100,\n   \"growthPotential\": 0-100\n \x7d\n\x7d\n\nPr".data ++ ("ovide data-driven insights with specific examples and actionable recom".data ++ ("mendations.".data ++ (([] : List Char))))))))))))))))))))))).trans (c6_deep_dive_top_step7 (". **Competitive Positioning**\n6. **Detailed Scoring with Rationale**\n\n".data ++ ("JSON Response Format:\n\x7b\n \"strengths\": \x7b\n   \"summary\": \"Detailed overvi".data ++ ("ew of channel strengths\",\n   \"details\": [\"specific strength with evide".data ++ ("nce\", \"strength 2\", \"strength 3\", \"strength 4\", \"strength 5\"],\n   \"sco".data ++ ("re\": 0-100\n \x7d,\n \"weaknesses\": \x7b\n   \"summary\": \"Comprehensive weakness ".data ++ ("analysis\",\n   \"details\": [\"specific weakness with suggestion\", \"weakne".data ++ ("ss 2\", \"weakness 3\"],\n   \"areas\": [\"improvement area 1\", \"area 2\", \"ar".data ++ ("ea 3\"]\n \x7d,\n \"opportunities\": \x7b\n   \"summary\": \"Strategic growth opportu".data ++ ("nities\",\n   \"recommendations\": [\n     \x7b\n       \"title\": \"Specific acti".data ++ ("onable recommendation\",\n       \"description\": \"Detailed implementation".data ++ (" strategy\",\n       \"priority\": \"HIGH|MEDIUM|LOW\",\n       \"estimatedImp".data ++ ("act\": \"Quantified impact description\"\n     \x7d\n   ]\n \x7d,\n \"contentStrateg".data ++ ("y\": \x7b\n   \"recommendedTopics\": [\"topic 1\", \"topic 2\", \"topic 3\"],\n   \"c".data ++ ("ontentGaps\": [\"gap 1\", \"gap 2\"],\n   \"optimizationTips\": [\"tip 1\", \"tip".data ++ (" 2\", \"tip 3\"]\n \x7d,\n \"scores\": \x7b\n   \"overall\": 0-100,\n   \"contentQuality".data ++ ("\": 0-100,\n   \"engagement\": 0-100,\n   \"growthPotential\": 0-100\n \x7d\n\x7d\n\nPr".data ++ ("ovide data-driven insights with specific examples and actionable recom".data ++ ("mendations.".data ++ (([] : List Char)))))))))))))))))))))).trans (c6_deep_dive_top_step8 ("JSON Response Format:\n\x7b\n \"strengths\": \x7b\n   \"summary\": \"Detailed overvi".data ++ ("ew of channel strengths\",\n   \"details\": [\"specific strength with evide".data ++ ("nce\", \"strength 2\", \"strength 3\", \"strength 4\", \"strength 5\"],\n   \"sco".data ++ ("re\": 0-100\n \x7d,\n \"weaknesses\": \x7b\n   \"summary\": \"Comprehensive weakness ".data ++ ("analysis\",\n   \"details\": [\"specific weakness with suggestion\", \"weakne".data ++ ("ss 2\", \"weakness 3\"],\n   \"areas\": [\"improvement area 1\", \"area 2\", \"ar".data ++ ("ea 3\"]\n \x7d,\n \"opportunities\": \x7b\n   \"summary\": \"Strategic growth opportu".data ++ ("nities\",\n   \"recommendations\": [\n     \x7b\n       \"title\": \"Specific acti".data ++ ("onable recommendation\",\n       \"description\": \"Detailed implementation".data ++ (" strategy\",\n       \"priority\": \"HIGH|MEDIUM|LOW\",\n       \"estimatedImp".data ++ ("act\": \"Quantified impact description\"\n     \x7d\n   ]\n \x7d,\n \"contentStrateg".data ++ ("y\": \x7b\n   \"recommendedTopics\": [\"topic 1\", \"topic 2\", \"topic 3\"],\n   \"c".data ++ ("ontentGaps\": [\"gap 1\", \"gap 2\"],\n   \"optimizationTips\": [\"tip 1\", \"tip".data ++ (" 2\", \"tip 3\"]\n \x7d,\n \"scores\": \x7b\n   \"overall\": 0-100,\n   \"contentQuality".data ++ ("\": 0-100,\n   \"engagement\": 0-100,\n   \"growthPotential\": 0-100\n \x7d\n\x7d\n\nPr".data ++ ("ovide data-driven insights with specific examples and actionable recom".data ++ ("mendations.".data ++ (([] : List Char))))))))))))))))))))).trans (c6_deep_dive_top_step9 ("ew of channel strengths\",\n   \"details\": [\"specific strength with evide".data ++ ("nce\", \"strength 2\", \"strength 3\", \"strength 4\", \"strength 5\"],\n   \"sco".data ++ ("re\": 0-100\n \x7d,\n \"weaknesses\": \x7b\n   \"summary\": \"Comprehensive weakness ".data ++ ("analysis\",\n   \"details\": [\"specific weakness with suggestion\", \"weakne".data ++ ("ss 2\", \"weakness 3\"],\n   \"areas\": [\"improvement area 1\", \"area 2\", \"ar".data ++ ("ea 3\"]\n \x7d,\n \"opportunities\": \x7b\n   \"summary\": \"Strategic growth opportu".data ++ ("nities\",\n   \"recommendations\": [\n     \x7b\n       \"title\": \"Specific acti".data ++ ("onable recommendation\",\n       \"description\": \"Detailed implementation".data ++ (" strategy\",\n       \"priority\": \"HIGH|MEDIUM|LOW\",\n       \"estimatedImp".data ++ ("act\": \"Quantified impact description\"\n     \x7d\n   ]\n \x7d,\n \"contentStrateg".data ++ ("y\": \x7b\n   \"recommendedTopics\": [\"topic 1\", \"topic 2\", \"topic 3\"],\n   \"c".data ++ ("ontentGaps\": [\"gap 1\", \"gap 2\"],\n   \"optimizationTips\": [\"tip 1\", \"tip".data ++ (" 2\", \"tip 3\"]\n \x7d,\n \"scores\": \x7b\n   \"overall\": 0-100,\n   \"contentQuality".data ++ ("\": 0-100,\n   \"engagement\": 0-100,\n   \"growthPotential\": 0-100\n \x7d\n\x7d\n\nPr".data ++ ("ovide data-driven insights with specific examples and actionable recom".data ++ ("mendations.".data ++ (([] : List Char)))))))))))))))))))).trans (c6_deep_dive_top_step10 ("nce\", \"strength 2\", \"strength 3\", \"strength 4\", \"strength 5\"],\n   \"sco".data ++ ("re\": 0-100\n \x7d,\n \"weaknesses\": \x7b\n   \"summary\": \"Comprehensive weakness ".data ++ ("analysis\",\n   \"details\": [\"specific weakness with suggestion\", \"weakne".data ++ ("ss 2\", \"weakness 3\"],\n   \"areas\": [\"improvement area 1\", \"area 2\", \"ar".data ++ ("ea 3\"]\n \x7d,\n \"opportunities\": \x7b\n   \"summary\": \"Strategic growth opportu".data ++ ("nities\",\n   \"recommendations\": [\n     \x7b\n       \"title\": \"Specific acti".data ++ ("onable recommendation\",\n       \"description\": \"Detailed implementation".data ++ (" strategy\",\n       \"priority\": \"HIGH|MEDIUM|LOW\",\n       \"estimatedImp".data ++ ("act\": \"Quantified impact description\"\n     \x7d\n   ]\n \x7d,\n \"contentStrateg".data ++ ("y\": \x7b\n   \"recommendedTopics\": [\"topic 1\", \"topic 2\", \"topic 3\"],\n   \"c".data ++ ("ontentGaps\": [\"gap 1\", \"gap 2\"],\n   \"optimizationTips\": [\"tip 1\", \"tip".data ++ (" 2\", \"tip 3\"]\n \x7d,\n \"scores\": \x7b\n   \"overall\": 0-100,\n   \"contentQuality".data ++ ("\": 0-100,\n   \"engagement\": 0-100,\n   \"growthPotential\": 0-100\n \x7d\n\x7d\n\nPr".data ++ ("ovide data-driven insights with specific examples and actionable recom".data ++ ("mendations.".data ++ (([] : List Char))))))))))))))))))).trans (c6_deep_dive_top_step11 ("re\": 0-100\n \x7d,\n \"weaknesses\": \x7b\n   \"summary\": \"Comprehensive weakness ".data ++ ("analysis\",\n   \"details\": [\"specific weakness with suggestion\", \"weakne".data ++ ("ss 2\", \"weakness 3\"],\n   \"areas\": [\"improvement area 1\", \"area 2\", \"ar".data ++ ("ea 3\"]\n \x7d,\n \"opportunities\": \x7b\n   \"summary\": \"Strategic growth opportu".data ++ ("nities\",\n   \"recommendations\": [\n     \x7b\n       \"title\": \"Specific acti".data ++ ("onable recommendation\",\n       \"description\": \"Detailed implementation".data ++ (" strategy\",\n       \"priority\": \"HIGH|MEDIUM|LOW\",\n       \"estimatedImp".data ++ ("act\": \"Quantified impact description\"\n     \x7d\n   ]\n \x7d,\n \"contentStrateg".data ++ ("y\": \x7b\n   \"recommendedTopics\": [\"topic 1\", \"topic 2\", \"topic 3\"],\n   \"c".data ++ ("ontentGaps\": [\"gap 1\", \"gap 2\"],\n   \"optimizationTips\": [\"tip 1\", \"tip".data ++ (" 2\", \"tip 3\"]\n \x7d,\n \"scores\": \x7b\n   \"overall\": 0-100,\n   \"contentQuality".data ++ ("\": 0-100,\n   \"engagement\": 0-100,\n   \"growthPotential\": 0-100\n \x7d\n\x7d\n\nPr".data ++ ("ovide data-driven insights with specific examples and actionable recom".data ++ ("mendations.".data ++ (([] : List Char)))))))))))))))))).trans (c6_deep_dive_top_step12 ("analysis\",\n   \"details\": [\"specific weakness with suggestion\", \"weakne".data ++ ("ss 2\", \"weakness 3\"],\n   \"areas\": [\"improvement area 1\", \"area 2\", \"ar".data ++ ("ea 3\"]\n \x7d,\n \"opportunities\": \x7b\n   \"summary\": \"Strategic growth opportu".data ++ ("nities\",\n   \"recommendations\": [\n     \x7b\n       \"title\": \"Specific acti".data ++ ("onable recommendation\",\n       \"description\": \"Detailed implementation".data ++ (" strategy\",\n       \"priority\": \"HIGH|MEDIUM|LOW\",\n       \"estimatedImp".data ++ ("act\": \"Quantified impact description\"\n     \x7d\n   ]\n \x7d,\n \"contentStrateg".data ++ ("y\": \x7b\n   \"recommendedTopics\": [\"topic 1\", \"topic 2\", \"topic 3\"],\n   \"c".data ++ ("ontentGaps\": [\"gap 1\", \"gap 2\"],\n   \"optimizationTips\": [\"tip 1\", \"tip".data ++ (" 2\", \"tip 3\"]\n \x7d,\n \"scores\": \x7b\n   \"overall\": 0-100,\n   \"contentQuality".data ++ ("\": 0-100,\n   \"engagement\": 0-100,\n   \"growthPotential\": 0-100\n \x7d\n\x7d\n\nPr".data ++ ("ovide data-driven insights with specific examples and actionable recom".data ++ ("mendations.".data ++ (([] : List Char))))))))))))))))).trans (c6_deep_dive_top_step13 ("ss 2\", \"weakness 3\"],\n   \"areas\": [\"improvement area 1\", \"area 2\", \"ar".data ++ ("ea 3\"]\n \x7d,\n \"opportunities\": \x7b\n   \"summary\": \"Strategic growth opportu".data ++ ("nities\",\n   \"recommendations\": [\n     \x7b\n       \"title\": \"Specific acti".data ++ ("onable recommendation\",\n       \"description\": \"Detailed implementation".data ++ (" strategy\",\n       \"priority\": \"HIGH|MEDIUM|LOW\",\n       \"estimatedImp".data ++ ("act\": \"Quantified impact description\"\n     \x7d\n   ]\n \x7d,\n \"contentStrateg".data ++ ("y\": \x7b\n   \"recommendedTopics\": [\"topic 1\", \"topic 2\", \"topic 3\"],\n   \"c".data ++ ("ontentGaps\": [\"gap 1\", \"gap 2\"],\n   \"optimizationTips\": [\"tip 1\", \"tip".data ++ (" 2\", \"tip 3\"]\n \x7d,\n \"scores\": \x7b\n   \"overall\": 0-100,\n   \"contentQuality".data ++ ("\": 0-100,\n   \"engagement\": 0-100,\n   \"growthPotential\": 0-100\n \x7d\n\x7d\n\nPr".data ++ ("ovide data-driven insights with specific examples and actionable recom".data ++ ("mendations.".data ++ (([] : List Char)))))))))))))))).trans (c6_deep_dive_top_step14 ("ea 3\"]\n \x7d,\n \"opportunities\": \x7b\n   \"summary\": \"Strategic growth opportu".data ++ ("nities\",\n   \"recommendations\": [\n     \x7b\n       \"title\": \"Specific acti".data ++ ("onable recommendation\",\n       \"description\": \"Detailed implementation".data ++ (" strategy\",\n       \"priority\": \"HIGH|MEDIUM|LOW\",\n       \"estimatedImp".data ++ ("act\": \"Quantified impact description\"\n     \x7d\n   ]\n \x7d,\n \"contentStrateg".data ++ ("y\": \x7b\n   \"recommendedTopics\": [\"topic 1\", \"topic 2\", \"topic 3\"],\n   \"c".data ++ ("ontentGaps\": [\"gap 1\", \"gap 2\"],\n   \"optimizationTips\": [\"tip 1\", \"tip".data ++ (" 2\", \"tip 3\"]\n \x7d,\n \"scores\": \x7b\n   \"overall\": 0-100,\n   \"contentQuality".data ++ ("\": 0-100,\n   \"engagement\": 0-100,\n   \"growthPotential\": 0-100\n \x7d\n\x7d\n\nPr".data ++ ("ovide data-driven insights with specific examples and actionable recom".data ++ ("mendations.".data ++ (([] : List Char))))))))))))))).trans (c6_deep_dive_top_step15 ("nities\",\n   \"recommendations\": [\n     \x7b\n       \"title\": \"Specific acti".data ++ ("onable recommendation\",\n       \"description\": \"Detailed implementation".data ++ (" strategy\",\n       \"priority\": \"HIGH|MEDIUM|LOW\",\n       \"estimatedImp".data ++ ("act\": \"Quantified impact description\"\n     \x7d\n   ]\n \x7d,\n \"contentStrateg".data ++ ("y\": \x7b\n   \"recommendedTopics\": [\"topic 1\", \"topic 2\", \"topic 3\"],\n   \"c".data ++ ("ontentGaps\": [\"gap 1\", \"gap 2\"],\n   \"optimizationTips\": [\"tip 1\", \"tip".data ++ (" 2\", \"tip 3\"]\n \x7d,\n \"scores\": \x7b\n   \"overall\": 0-100,\n   \"contentQuality".data ++ ("\": 0-100,\n   \"engagement\": 0-100,\n   \"growthPotential\": 0-100\n \x7d\n\x7d\n\nPr".data ++ ("ovide data-driven insights with specific examples and actionable recom".data ++ ("mendations.".data ++ (([] : List Char)))))))))))))).trans (c6_deep_dive_top_step16 ("onable recommendation\",\n       \"description\": \"Detailed implementation".data ++ (" strategy\",\n       \"priority\": \"HIGH|MEDIUM|LOW\",\n       \"estimatedImp".data ++ ("act\": \"Quantified impact description\"\n     \x7d\n   ]\n \x7d,\n \"contentStrateg".data ++ ("y\": \x7b\n   \"recommendedTopics\": [\"topic 1\", \"topic 2\", \"topic 3\"],\n   \"c".data ++ ("ontentGaps\": [\"gap 1\", \"gap 2\"],\n   \"optimizationTips\": [\"tip 1\", \"tip".data ++ (" 2\", \"tip 3\"]\n \x7d,\n \"scores\": \x7b\n   \"overall\": 0-100,\n   \"contentQuality".data ++ ("\": 0-100,\n   \"engagement\": 0-100,\n   \"growthPotential\": 0-100\n \x7d\n\x7d\n\nPr".data ++ ("ovide data-driven insights with specific examples and actionable recom".data ++ ("mendations.".data ++ (([] : List Char))))))))))))).trans (c6_deep_dive_top_step17 (" strategy\",\n       \"priority\": \"HIGH|MEDIUM|LOW\",\n       \"estimatedImp".data ++ ("act\": \"Quantified impact description\"\n     \x7d\n   ]\n \x7d,\n \"contentStrateg".data ++ ("y\": \x7b\n   \"recommendedTopics\": [\"topic 1\", \"topic 2\", \"topic 3\"],\n   \"c".data ++ ("ontentGaps\": [\"gap 1\", \"gap 2\"],\n   \"optimizationTips\": [\"tip 1\", \"tip".data ++ (" 2\", \"tip 3\"]\n \x7d,\n \"scores\": \x7b\n   \"overall\": 0-100,\n   \"contentQuality".data ++ ("\": 0-100,\n   \"engagement\": 0-100,\n   \"growthPotential\": 0-100\n \x7d\n\x7d\n\nPr".data ++ ("ovide data-driven insights with specific examples and actionable recom".data ++ ("mendations.".data ++ (([] : List Char)))))))))))).trans (c6_deep_dive_top_step18 ("act\": \"Quantified impact description\"\n     \x7d\n   ]\n \x7d,\n \"contentStrateg".data ++ ("y\": \x7b\n   \"recommendedTopics\": [\"topic 1\", \"topic 2\", \"topic 3\"],\n   \"c".data ++ ("ontentGaps\": [\"gap 1\", \"gap 2\"],\n   \"optimizationTips\": [\"tip 1\", \"tip".data ++ (" 2\", \"tip 3\"]\n \x7d,\n \"scores\": \x7b\n   \"overall\": 0-100,\n   \"contentQuality".data ++ ("\": 0-100,\n   \"engagement\": 0-100,\n   \"growthPotential\": 0-100\n \x7d\n\x7d\n\nPr".data ++ ("ovide data-driven insights with specific examples and actionable recom".data ++ ("mendations.".data ++ (([] : List Char))))))))))).trans (c6_deep_dive_top_step19 ("y\": \x7b\n   \"recommendedTopics\": [\"topic 1\", \"topic 2\", \"topic 3\"],\n   \"c".data ++ ("ontentGaps\": [\"gap 1\", \"gap 2\"],\n   \"optimizationTips\": [\"tip 1\", \"tip".data ++ (" 2\", \"tip 3\"]\n \x7d,\n \"scores\": \x7b\n   \"overall\": 0-100,\n   \"contentQuality".data ++ ("\": 0-100,\n   \"engagement\": 0-100,\n   \"growthPotential\": 0-100\n \x7d\n\x7d\n\nPr".data ++ ("ovide data-driven insights with specific examples and actionable recom".data ++ ("mendations.".data ++ (([] : List Char)))))))))).trans (c6_deep_dive_top_step20 ("ontentGaps\": [\"gap 1\", \"gap 2\"],\n   \"optimizationTips\": [\"tip 1\", \"tip".data ++ (" 2\", \"tip 3\"]\n \x7d,\n \"scores\": \x7b\n   \"overall\": 0-100,\n   \"contentQuality".data ++ ("\": 0-100,\n   \"engagement\": 0-100,\n   \"growthPotential\": 0-100\n \x7d\n\x7d\n\nPr".data ++ ("ovide data-driven insights with specific examples and actionable recom".data ++ ("mendations.".data ++ (([] : List Char))))))))).trans (c6_deep_dive_top_step21 (" 2\", \"tip 3\"]\n \x7d,\n \"scores\": \x7b\n   \"overall\": 0-100,\n   \"contentQuality".data ++ ("\": 0-100,\n   \"engagement\": 0-100,\n   \"growthPotential\": 0-100\n \x7d\n\x7d\n\nPr".data ++ ("ovide data-driven insights with specific examples and actionable recom".data ++ ("mendations.".data ++ (([] : List Char)))))))).trans (c6_deep_dive_top_step22 ("\": 0-100,\n   \"engagement\": 0-100,\n   \"growthPotential\": 0-100\n \x7d\n\x7d\n\nPr".data ++ ("ovide data-driven insights with specific examples and actionable recom".data ++ ("mendations.".data ++ (([] : List Char))))))).trans (c6_deep_dive_top_step23 ("ovide data-driven insights with specific examples and actionable recom".data ++ ("mendations.".data ++ (([] : List Char)))))).trans (c6_deep_dive_top_step24 ("mendations.".data ++ (([] : List Char))))).trans (c6_deep_dive_top_step25 (([] : List Char)))).trans c6_deep_dive_top_end

/-- Evaluated list of variables referenced outside loop bodies in the
`COMPETITOR_COMPARE` template. -/
theorem c6_competitor_compare_top_eval :
    referencedVarsTop PromptTemplates.COMPETITOR_COMPARE.template = ["channelTitle", "subscriberCount", "contentType", "topics"] :=
  (((((((((((((((((((((c6_competitor_compare_top_step0 ("et Channel:\n- Title: \x7b\x7bchannelTitle\x7d\x7d\n- Subscribers: \x7b\x7bsubscriberCount\x7d\x7d\n".data ++ ("- Content Type: \x7b\x7bcontentType\x7d\x7d\n- Topics: \x7b\x7btopics\x7d\x7d\n\nAnalyze competit".data ++ ("ive positioning and provide strategic insights in JSON format:\n\n\x7b\n \"strengt".data ++ ("hs\": \x7b\n   \"summary\": \"Competitive advantages analysis\",\n   \"details\": ".data ++ ("[\"unique strength vs competitors\", \"advantage 2\", \"advantage 3\"],\n   \"".data ++ ("score\": 0-100\n \x7d,\n \"weaknesses\": \x7b\n   \"summary\": \"Competitive disadvan".data ++ ("tages\",\n   \"details\": [\"gap vs competitors\", \"weakness 2\"],\n   \"areas\"".data ++ (": [\"area to match competitors\", \"improvement area 2\"]\n \x7d,\n \"opportunit".data ++ ("ies\": \x7b\n   \"summary\": \"Market gaps and opportunities\",\n   \"recommendat".data ++ ("ions\": [\n     \x7b\n       \"title\": \"Competitive opportunity\",\n       \"des".data ++ ("cription\": \"How to capitalize vs competitors\",\n       \"priority\": \"HIG".data ++ ("H|MEDIUM|LOW\",\n       \"estimatedImpact\": \"Competitive advantage gained".data ++ ("\"\n     \x7d\n   ]\n \x7d,\n \"competitors\": \x7b\n   \"similarChannels\": [\n     \x7b\n       \"c".data ++ ("hannelId\": \"estimated_channel_id\",\n       \"name\": \"Competitor channel ".data ++ ("name\",\n       \"subscribers\": 0,\n       \"whyRelevant\": \"Why this channe".data ++ ("l is a relevant competitor\"\n     \x7d\n   ],\n   \"competitiveAdvantages\": [".data ++ ("\"advantage 1\", \"advantage 2\"],\n   \"gaps\": [\"gap to fill\", \"gap 2\"]\n \x7d,".data ++ ("\n \"scores\": \x7b\n   \"overall\": 0-100,\n   \"contentQuality\": 0-100,\n   \"eng".data ++ ("agement\": 0-100,\n   \"growthPotential\": 0-100\n \x7d\n\x7d\n\nFocus on competitiv".data ++ ("e differentiation and market positioning.".data ++ (([] : List Char))))))))))))))))))))))).trans (c6_competitor_compare_top_step1 ("- Content Type: \x7b\x7bcontentType\x7d\x7d\n- Topics: \x7b\x7btopics\x7d\x7d\n\nAnalyze competit".data ++ ("ive positioning and provide strategic insights in JSON format:\n\n\x7b\n \"strengt".data ++ ("hs\": \x7b\n   \"summary\": \"Competitive advantages analysis\",\n   \"details\": ".data ++ ("[\"unique strength vs competitors\", \"advantage 2\", \"advantage 3\"],\n   \"".data ++ ("score\": 0-100\n \x7d,\n \"weaknesses\": \x7b\n   \"summary\": \"Competitive disadvan".data ++ ("tages\",\n   \"details\": [\"gap vs competitors\", \"weakness 2\"],\n   \"areas\"".data ++ (": [\"area to match competitors\", \"improvement area 2\"]\n \x7d,\n \"opportunit".data ++ ("ies\": \x7b\n   \"summary\": \"Market gaps and opportunities\",\n   \"recommendat".data ++ ("ions\": [\n     \x7b\n       \"title\": \"Competitive opportunity\",\n       \"des".data ++ ("cription\": \"How to capitalize vs competitors\",\n       \"priority\": \"HIG".data ++ ("H|MEDIUM|LOW\",\n       \"estimatedImpact\": \"Competitive advantage gained".data ++ ("\"\n     \x7d\n   ]\n \x7d,\n \"competitors\": \x7b\n   \"similarChannels\": [\n     \x7b\n       \"c".data ++ ("hannelId\": \"estimated_channel_id\",\n       \"name\": \"Competitor channel ".data ++ ("name\",\n       \"subscribers\": 0,\n       \"whyRelevant\": \"Why this channe".data ++ ("l is a relevant competitor\"\n     \x7d\n   ],\n   \"competitiveAdvantages\": [".data ++ ("\"advantage 1\", \"advantage 2\"],\n   \"gaps\": [\"gap to fill\", \"gap 2\"]\n \x7d,".data ++ ("\n \"scores\": \x7b\n   \"overall\": 0-100,\n   \"contentQuality\": 0-100,\n   \"eng".data ++ ("agement\": 0-100,\n   \"growthPotential\": 0-100\n \x7d\n\x7d\n\nFocus on competitiv".data ++ ("e differentiation and market positioning.".data ++ (([] : List Char))))))))))))))))))))))).trans (c6_competitor_compare_top_step2 ("ive positioning and provide strategic insights in JSON format:\n\n\x7b\n \"strengt".data ++ ("hs\": \x7b\n   \"summary\": \"Competitive advantages analysis\",\n   \"details\": ".data ++ ("[\"unique strength vs competitors\", \"advantage 2\", \"advantage 3\"],\n   \"".data ++ ("score\": 0-100\n \x7d,\n \"weaknesses\": \x7b\n   \"summary\": \"Competitive disadvan".data ++ ("tages\",\n   \"details\": [\"gap vs competitors\", \"weakness 2\"],\n   \"areas\"".data ++ (": [\"area to match competitors\", \"improvement area 2\"]\n \x7d,\n \"opportunit".data ++ ("ies\": \x7b\n   \"summary\": \"Market gaps and opportunities\",\n   \"recommendat".data ++ ("ions\": [\n     \x7b\n       \"title\": \"Competitive opportunity\",\n       \"des".data ++ ("cription\": \"How to capitalize vs competitors\",\n       \"priority\": \"HIG".data ++ ("H|MEDIUM|LOW\",\n       \"estimatedImpact\": \"Competitive advantage gained".data ++ ("\"\n     \x7d\n   ]\n \x7d,\n \"competitors\": \x7b\n   \"similarChannels\": [\n     \x7b\n       \"c".data ++ ("hannelId\": \"estimated_channel_id\",\n       \"name\": \"Competitor channel ".data ++ ("name\",\n       \"subscribers\": 0,\n       \"whyRelevant\": \"Why this channe".data ++ ("l is a relevant competitor\"\n     \x7d\n   ],\n   \"competitiveAdvantages\": [".data ++ ("\"advantage 1\", \"advantage 2\"],\n   \"gaps\": [\"gap to fill\", \"gap 2\"]\n \x7d,".data ++ ("\n \"scores\": \x7b\n   \"overall\": 0-100,\n   \"contentQuality\": 0-100,\n   \"eng".data ++ ("agement\": 0-100,\n   \"growthPotential\": 0-100\n \x7d\n\x7d\n\nFocus on competitiv".data ++ ("e differentiation and market positioning.".data ++ (([] : List Char)))))))))))))))))))))).trans (c6_competitor_compare_top_step3 ("hs\": \x7b\n   \"summary\": \"Competitive advantages analysis\",\n   \"details\": ".data ++ ("[\"unique strength vs competitors\", \"advantage 2\", \"advantage 3\"],\n   \"".data ++ ("score\": 0-100\n \x7d,\n \"weaknesses\": \x7b\n   \"summary\": \"Competitive disadvan".data ++ ("tages\",\n   \"details\": [\"gap vs competitors\", \"weakness 2\"],\n   \"areas\"".data ++ (": [\"area to match competitors\", \"improvement area 2\"]\n \x7d,\n \"opportunit".data ++ ("ies\": \x7b\n   \"summary\": \"Market gaps and opportunities\",\n   \"recommendat".data ++ ("ions\": [\n     \x7b\n       \"title\": \"Competitive opportunity\",\n       \"des".data ++ ("cription\": \"How to capitalize vs competitors\",\n       \"priority\": \"HIG".data ++ ("H|MEDIUM|LOW\",\n       \"estimatedImpact\": \"Competitive advantage gained".data ++ ("\"\n     \x7d\n   ]\n \x7d,\n \"competitors\": \x7b\n   \"similarChannels\": [\n     \x7b\n       \"c".data ++ ("hannelId\": \"estimated_channel_id\",\n       \"name\": \"Competitor channel ".data ++ ("name\",\n       \"subscribers\": 0,\n       \"whyRelevant\": \"Why this channe".data ++ ("l is a relevant competitor\"\n     \x7d\n   ],\n   \"competitiveAdvantages\": [".data ++ ("\"advantage 1\", \"advantage 2\"],\n   \"gaps\": [\"gap to fill\", \"gap 2\"]\n \x7d,".data ++ ("\n \"scores\": \x7b\n   \"overall\": 0-100,\n   \"contentQuality\": 0-100,\n   \"eng".data ++ ("agement\": 0-100,\n   \"growthPotential\": 0-100\n \x7d\n\x7d\n\nFocus on competitiv".data ++ ("e differentiation and market positioning.".data ++ (([] : List Char))))))))))))))))))))).trans (c6_competitor_compare_top_step4 ("[\"unique strength vs competitors\", \"advantage 2\", \"advantage 3\"],\n   \"".data ++ ("score\": 0-100\n \x7d,\n \"weaknesses\": \x7b\n   \"summary\": \"Competitive disadvan".data ++ ("tages\",\n   \"details\": [\"gap vs competitors\", \"weakness 2\"],\n   \"areas\"".data ++ (": [\"area to match competitors\", \"improvement area 2\"]\n \x7d,\n \"opportunit".data ++ ("ies\": \x7b\n   \"summary\": \"Market gaps and opportunities\",\n   \"recommendat".data ++ ("ions\": [\n     \x7b\n       \"title\": \"Competitive opportunity\",\n       \"des".data ++ ("cription\": \"How to capitalize vs competitors\",\n       \"priority\": \"HIG".data ++ ("H|MEDIUM|LOW\",\n       \"estimatedImpact\": \"Competitive advantage gained".data ++ ("\"\n     \x7d\n   ]\n \x7d,\n \"competitors\": \x7b\n   \"similarChannels\": [\n     \x7b\n       \"c".data ++ ("hannelId\": \"estimated_channel_id\",\n       \"name\": \"Competitor channel ".data ++ ("name\",\n       \"subscribers\": 0,\n       \"whyRelevant\": \"Why this channe".data ++ ("l is a relevant competitor\"\n     \x7d\n   ],\n   \"competitiveAdvantages\": [".data ++ ("\"advantage 1\", \"advantage 2\"],\n   \"gaps\": [\"gap to fill\", \"gap 2\"]\n \x7d,".data ++ ("\n \"scores\": \x7b\n   \"overall\": 0-100,\n   \"contentQuality\": 0-100,\n   \"eng".data ++ ("agement\": 0-100,\n   \"growthPotential\": 0-100\n \x7d\n\x7d\n\nFocus on competitiv".data ++ ("e differentiation and market positioning.".data ++ (([] : List Char)))))))))))))))))))).trans (c6_competitor_compare_top_step5 ("score\": 0-100\n \x7d,\n \"weaknesses\": \x7b\n   \"summary\": \"Competitive disadvan".data ++ ("tages\",\n   \"details\": [\"gap vs competitors\", \"weakness 2\"],\n   \"areas\"".data ++ (": [\"area to match competitors\", \"improvement area 2\"]\n \x7d,\n \"opportunit".data ++ ("ies\": \x7b\n   \"summary\": \"Market gaps and opportunities\",\n   \"recommendat".data ++ ("ions\": [\n     \x7b\n       \"title\": \"Competitive opportunity\",\n       \"des".data ++ ("cription\": \"How to capitalize vs competitors\",\n       \"priority\": \"HIG".data ++ ("H|MEDIUM|LOW\",\n       \"estimatedImpact\": \"Competitive advantage gained".data ++ ("\"\n     \x7d\n   ]\n \x7d,\n \"competitors\": \x7b\n   \"similarChannels\": [\n     \x7b\n       \"c".data ++ ("hannelId\": \"estimated_channel_id\",\n       \"name\": \"Competitor channel ".data ++ ("name\",\n       \"subscribers\": 0,\n       \"whyRelevant\": \"Why this channe".data ++ ("l is a relevant competitor\"\n     \x7d\n   ],\n   \"competitiveAdvantages\": [".data ++ ("\"advantage 1\", \"advantage 2\"],\n   \"gaps\": [\"gap to fill\", \"gap 2\"]\n \x7d,".data ++ ("\n \"scores\": \x7b\n   \"overall\": 0-100,\n   \"contentQuality\": 0-100,\n   \"eng".data ++ ("agement\": 0-100,\n   \"growthPotential\": 0-100\n \x7d\n\x7d\n\nFocus on competitiv".data ++ ("e differentiation and market positioning.".data ++ (([] : List Char))))))))))))))))))).trans (c6_competitor_compare_top_step6 ("tages\",\n   \"details\": [\"gap vs competitors\", \"weakness 2\"],\n   \"areas\"".data ++ (": [\"area to match competitors\", \"improvement area 2\"]\n \x7d,\n \"opportunit".data ++ ("ies\": \x7b\n   \"summary\": \"Market gaps and opportunities\",\n   \"recommendat".data ++ ("ions\": [\n     \x7b\n       \"title\": \"Competitive opportunity\",\n       \"des".data ++ ("cription\": \"How to capitalize vs competitors\",\n       \"priority\": \"HIG".data ++ ("H|MEDIUM|LOW\",\n       \"estimatedImpact\": \"Competitive advantage gained".data ++ ("\"\n     \x7d\n   ]\n \x7d,\n \"competitors\": \x7b\n   \"similarChannels\": [\n     \x7b\n       \"c".data ++ ("hannelId\": \"estimated_channel_id\",\n       \"name\": \"Competitor channel ".data ++ ("name\",\n       \"subscribers\": 0,\n       \"whyRelevant\": \"Why this channe".data ++ ("l is a relevant competitor\"\n     \x7d\n   ],\n   \"competitiveAdvantages\": [".data ++ ("\"advantage 1\", \"advantage 2\"],\n   \"gaps\": [\"gap to fill\", \"gap 2\"]\n \x7d,".data ++ ("\n \"scores\": \x7b\n   \"overall\": 0-100,\n   \"contentQuality\": 0-100,\n   \"eng".data ++ ("agement\": 0-100,\n   \"growthPotential\": 0-100\n \x7d\n\x7d\n\nFocus on competitiv".data ++ ("e differentiation and market positioning.".data ++ (([] : List Char)))))))))))))))))).trans (c6_competitor_compare_top_step7 (": [\"area to match competitors\", \"improvement area 2\"]\n \x7d,\n \"opportunit".data ++ ("ies\": \x7b\n   \"summary\": \"Market gaps and opportunities\",\n   \"recommendat".data ++ ("ions\": [\n     \x7b\n       \"title\": \"Competitive opportunity\",\n       \"des".data ++ ("cription\": \"How to capitalize vs competitors\",\n       \"priority\": \"HIG".data ++ ("H|MEDIUM|LOW\",\n       \"estimatedImpact\": \"Competitive advantage gained".data ++ ("\"\n     \x7d\n   ]\n \x7d,\n \"competitors\": \x7b\n   \"similarChannels\": [\n     \x7b\n       \"c".data ++ ("hannelId\": \"estimated_channel_id\",\n       \"name\": \"Competitor channel ".data ++ ("name\",\n       \"subscribers\": 0,\n       \"whyRelevant\": \"Why this channe".data ++ ("l is a relevant competitor\"\n     \x7d\n   ],\n   \"competitiveAdvantages\": [".data ++ ("\"advantage 1\", \"advantage 2\"],\n   \"gaps\": [\"gap to fill\", \"gap 2\"]\n \x7d,".data ++ ("\n \"scores\": \x7b\n   \"overall\": 0-100,\n   \"contentQuality\": 0-100,\n   \"eng".data ++ ("agement\": 0-100,\n   \"growthPotential\": 0-100\n \x7d\n\x7d\n\nFocus on competitiv".data ++ ("e differentiation and market positioning.".data ++ (([] : List Char))))))))))))))))).trans (c6_competitor_compare_top_step8 ("ies\": \x7b\n   \"summary\": \"Market gaps and opportunities\",\n   \"recommendat".data ++ ("ions\": [\n     \x7b\n       \"title\": \"Competitive opportunity\",\n       \"des".data ++ ("cription\": \"How to capitalize vs competitors\",\n       \"priority\": \"HIG".data ++ ("H|MEDIUM|LOW\",\n       \"estimatedImpact\": \"Competitive advantage gained".data ++ ("\"\n     \x7d\n   ]\n \x7d,\n \"competitors\": \x7b\n   \"similarChannels\": [\n     \x7b\n       \"c".data ++ ("hannelId\": \"estimated_channel_id\",\n       \"name\": \"Competitor channel ".data ++ ("name\",\n       \"subscribers\": 0,\n       \"whyRelevant\": \"Why this channe".data ++ ("l is a relevant competitor\"\n     \x7d\n   ],\n   \"competitiveAdvantages\": [".data ++ ("\"advantage 1\", \"advantage 2\"],\n   \"gaps\": [\"gap to fill\", \"gap 2\"]\n \x7d,".data ++ ("\n \"scores\": \x7b\n   \"overall\": 0-100,\n   \"contentQuality\": 0-100,\n   \"eng".data ++ ("agement\": 0-100,\n   \"growthPotential\": 0-100\n \x7d\n\x7d\n\nFocus on competitiv".data ++ ("e differentiation and market positioning.".data ++ (([] : List Char)))))))))))))))).trans (c6_competitor_compare_top_step9 ("ions\": [\n     \x7b\n       \"title\": \"Competitive opportunity\",\n       \"des".data ++ ("cription\": \"How to capitalize vs competitors\",\n       \"priority\": \"HIG".data ++ ("H|MEDIUM|LOW\",\n       \"estimatedImpact\": \"Competitive advantage gained".data ++ ("\"\n     \x7d\n   ]\n \x7d,\n \"competitors\": \x7b\n   \"similarChannels\": [\n     \x7b\n       \"c".data ++ ("hannelId\": \"estimated_channel_id\",\n       \"name\": \"Competitor channel ".data ++ ("name\",\n       \"subscribers\": 0,\n       \"whyRelevant\": \"Why this channe".data ++ ("l is a relevant competitor\"\n     \x7d\n   ],\n   \"competitiveAdvantages\": [".data ++ ("\"advantage 1\", \"advantage 2\"],\n   \"gaps\": [\"gap to fill\", \"gap 2\"]\n \x7d,".data ++ ("\n \"scores\": \x7b\n   \"overall\": 0-100,\n   \"contentQuality\": 0-100,\n   \"eng".data ++ ("agement\": 0-100,\n   \"growthPotential\": 0-100\n \x7d\n\x7d\n\nFocus on competitiv".data ++ ("e differentiation and market positioning.".data ++ (([] : List Char))))))))))))))).trans (c6_competitor_compare_top_step10 ("cription\": \"How to capitalize vs competitors\",\n       \"priority\": \"HIG".data ++ ("H|MEDIUM|LOW\",\n       \"estimatedImpact\": \"Competitive advantage gained".data ++ ("\"\n     \x7d\n   ]\n \x7d,\n \"competitors\": \x7b\n   \"similarChannels\": [\n     \x7b\n       \"c".data ++ ("hannelId\": \"estimated_channel_id\",\n       \"name\": \"Competitor channel ".data ++ ("name\",\n       \"subscribers\": 0,\n       \"whyRelevant\": \"Why this channe".data ++ ("l is a relevant competitor\"\n     \x7d\n   ],\n   \"competitiveAdvantages\": [".data ++ ("\"advantage 1\", \"advantage 2\"],\n   \"gaps\": [\"gap to fill\", \"gap 2\"]\n \x7d,".data ++ ("\n \"scores\": \x7b\n   \"overall\": 0-100,\n   \"contentQuality\": 0-100,\n   \"eng".data ++ ("agement\": 0-100,\n   \"growthPotential\": 0-100\n \x7d\n\x7d\n\nFocus on competitiv".data ++ ("e differentiation and market positioning.".data ++ (([] : List Char)))))))))))))).trans (c6_competitor_compare_top_step11 ("H|MEDIUM|LOW\",\n       \"estimatedImpact\": \"Competitive advantage gained".data ++ ("\"\n     \x7d\n   ]\n \x7d,\n \"competitors\": \x7b\n   \"similarChannels\": [\n     \x7b\n       \"c".data ++ ("hannelId\": \"estimated_channel_id\",\n       \"name\": \"Competitor channel ".data ++ ("name\",\n       \"subscribers\": 0,\n       \"whyRelevant\": \"Why this channe".data ++ ("l is a relevant competitor\"\n     \x7d\n   ],\n   \"competitiveAdvantages\": [".data ++ ("\"advantage 1\", \"advantage 2\"],\n   \"gaps\": [\"gap to fill\", \"gap 2\"]\n \x7d,".data ++ ("\n \"scores\": \x7b\n   \"overall\": 0-100,\n   \"contentQuality\": 0-100,\n   \"eng".data ++ ("agement\": 0-100,\n   \"growthPotential\": 0-100\n \x7d\n\x7d\n\nFocus on competitiv".data ++ ("e differentiation and market positioning.".data ++ (([] : List Char))))))))))))).trans (c6_competitor_compare_top_step12 ("\"\n     \x7d\n   ]\n \x7d,\n \"competitors\": \x7b\n   \"similarChannels\": [\n     \x7b\n       \"c".data ++ ("hannelId\": \"estimated_channel_id\",\n       \"name\": \"Competitor channel ".data ++ ("name\",\n       \"subscribers\": 0,\n       \"whyRelevant\": \"Why this channe".data ++ ("l is a relevant competitor\"\n     \x7d\n   ],\n   \"competitiveAdvantages\": [".data ++ ("\"advantage 1\", \"advantage 2\"],\n   \"gaps\": [\"gap to fill\", \"gap 2\"]\n \x7d,".data ++ ("\n \"scores\": \x7b\n   \"overall\": 0-100,\n   \"contentQuality\": 0-100,\n   \"eng".data ++ ("agement\": 0-100,\n   \"growthPotential\": 0-100\n \x7d\n\x7d\n\nFocus on competitiv".data ++ ("e differentiation and market positioning.".data ++ (([] : List Char)))))))))))).trans (c6_competitor_compare_top_step13 ("hannelId\": \"estimated_channel_id\",\n       \"name\": \"Competitor channel ".data ++ ("name\",\n       \"subscribers\": 0,\n       \"whyRelevant\": \"Why this channe".data ++ ("l is a relevant competitor\"\n     \x7d\n   ],\n   \"competitiveAdvantages\": [".data ++ ("\"advantage 1\", \"advantage 2\"],\n   \"gaps\": [\"gap to fill\", \"gap 2\"]\n \x7d,".data ++ ("\n \"scores\": \x7b\n   \"overall\": 0-100,\n   \"contentQuality\": 0-100,\n   \"eng".data ++ ("agement\": 0-100,\n   \"growthPotential\": 0-100\n \x7d\n\x7d\n\nFocus on competitiv".data ++ ("e differentiation and market positioning.".data ++ (([] : List Char))))))))))).trans (c6_competitor_compare_top_step14 ("name\",\n       \"subscribers\": 0,\n       \"whyRelevant\": \"Why this channe".data ++ ("l is a relevant competitor\"\n     \x7d\n   ],\n   \"competitiveAdvantages\": [".data ++ ("\"advantage 1\", \"advantage 2\"],\n   \"gaps\": [\"gap to fill\", \"gap 2\"]\n \x7d,".data ++ ("\n \"scores\": \x7b\n   \"overall\": 0-100,\n   \"contentQuality\": 0-100,\n   \"eng".data ++ ("agement\": 0-100,\n   \"growthPotential\": 0-100\n \x7d\n\x7d\n\nFocus on competitiv".data ++ ("e differentiation and market positioning.".data ++ (([] : List Char)))))))))).trans (c6_competitor_compare_top_step15 ("l is a relevant competitor\"\n     \x7d\n   ],\n   \"competitiveAdvantages\": [".data ++ ("\"advantage 1\", \"advantage 2\"],\n   \"gaps\": [\"gap to fill\", \"gap 2\"]\n \x7d,".data ++ ("\n \"scores\": \x7b\n   \"overall\": 0-100,\n   \"contentQuality\": 0-100,\n   \"eng".data ++ ("agement\": 0-100,\n   \"growthPotential\": 0-100\n \x7d\n\x7d\n\nFocus on competitiv".data ++ ("e differentiation and market positioning.".data ++ (([] : List Char))))))))).trans (c6_competitor_compare_top_step16 ("\"advantage 1\", \"advantage 2\"],\n   \"gaps\": [\"gap to fill\", \"gap 2\"]\n \x7d,".data ++ ("\n \"scores\": \x7b\n   \"overall\": 0-100,\n   \"contentQuality\": 0-100,\n   \"eng".data ++ ("agement\": 0-100,\n   \"growthPotential\": 0-100\n \x7d\n\x7d\n\nFocus on competitiv".data ++ ("e differentiation and market positioning.".data ++ (([] : List Char)))))))).trans (c6_competitor_compare_top_step17 ("\n \"scores\": \x7b\n   \"overall\": 0-100,\n   \"contentQuality\": 0-100,\n   \"eng".data ++ ("agement\": 0-100,\n   \"growthPotential\": 0-100\n \x7d\n\x7d\n\nFocus on competitiv".data ++ ("e differentiation and market positioning.".data ++ (([] : List Char))))))).trans (c6_competitor_compare_top_step18 ("agement\": 0-100,\n   \"growthPotential\": 0-100\n \x7d\n\x7d\n\nFocus on competitiv".data ++ ("e differentiation and market positioning.".data ++ (([] : List Char)))))).trans (c6_competitor_compare_top_step19 ("e differentiation and market positioning.".data ++ (([] : List Char))))).trans (c6_competitor_compare_top_step20 (([] : List Char)))).trans c6_competitor_compare_top_end

/-- Evaluated list of variables referenced outside loop bodies in the
`GROWTH_STRATEGY` template. -/
theorem c6_growth_strategy_top_eval :
    referencedVarsTop PromptTemplates.GROWTH_STRATEGY.template = ["channelTitle", "subscriberCount", "contentType", "topics", "recentVideos", "recentVideos"] :=
  ((((((((((((((((((((((c6_growth_strategy_top_step0 ("nel Details:\n- Title: \x7b\x7bchannelTitle\x7d\x7d\n- Current Subscribers: \x7b\x7bsubscriberCount\x7d\x7d\n".data ++ ("- Content Focus: \x7b\x7bcontentType\x7d\x7d\n- Topics: \x7b\x7btopics\x7d\x7d\n\n\x7b\x7b#if recentVideos\x7d\x7d\n".data ++ ("Recent Performance:\n\x7b\x7b#each recentVideos\x7d\x7d\n- \"\x7b\x7btitle\x7d\x7d\" - \x7b\x7bviews\x7d\x7d views, \x7b\x7blikes\x7d\x7d likes (\x7b\x7bpublishedAt\x7d\x7d)\n\x7b\x7b/each\x7d\x7d\n\x7b\x7b/if\x7d\x7d\n\nDev".data ++ ("elop a strategic growth plan in JSON format:\n\n\x7b\n \"strengths\": \x7b\n   \"summa".data ++ ("ry\": \"Current assets to leverage for growth\",\n   \"details\": [\"leverage".data ++ ("able strength 1\", \"growth asset 2\", \"strength 3\"],\n   \"score\": 0-100\n ".data ++ ("\x7d,\n \"weaknesses\": \x7b\n   \"summary\": \"Growth blockers to address\",\n   \"de".data ++ ("tails\": [\"growth blocker 1\", \"limiting factor 2\"],\n   \"areas\": [\"criti".data ++ ("cal improvement area\", \"optimization area 2\"]\n \x7d,\n \"opportunities\": \x7b\n   \"summa".data ++ ("ry\": \"Strategic growth opportunities\",\n   \"recommendations\": [\n     \x7b\n       \"t".data ++ ("itle\": \"Growth strategy recommendation\",\n       \"description\": \"Detail".data ++ ("ed implementation plan with timeline\",\n       \"priority\": \"HIGH|MEDIUM".data ++ ("|LOW\",\n       \"estimatedImpact\": \"Expected growth outcome (subscribers".data ++ (", views, etc.)\"\n     \x7d\n   ]\n \x7d,\n \"contentStrategy\": \x7b\n   \"recommendedT".data ++ ("opics\": [\"high-growth topic 1\", \"trending topic 2\", \"niche topic 3\"],\n".data ++ ("   \"contentGaps\": [\"underserved content area 1\", \"gap 2\"],\n   \"optimiz".data ++ ("ationTips\": [\n     \"SEO optimization strategy\",\n     \"Engagement optim".data ++ ("ization tip\",\n     \"Algorithm optimization strategy\"\n   ]\n \x7d,\n \"scores".data ++ ("\": \x7b\n   \"overall\": 0-100,\n   \"contentQuality\": 0-100,\n   \"engagement\":".data ++ (" 0-100,\n   \"growthPotential\": 0-100\n \x7d\n\x7d\n\nFocus on actionable, timelin".data ++ ("e-specific growth strategies with measurable outcomes.".data ++ (([] : List Char)))))))))))))))))))))))).trans (c6_growth_strategy_top_step1 ("- Content Focus: \x7b\x7bcontentType\x7d\x7d\n- Topics: \x7b\x7btopics\x7d\x7d\n\n\x7b\x7b#if recentVideos\x7d\x7d\n".data ++ ("Recent Performance:\n\x7b\x7b#each recentVideos\x7d\x7d\n- \"\x7b\x7btitle\x7d\x7d\" - \x7b\x7bviews\x7d\x7d views, \x7b\x7blikes\x7d\x7d likes (\x7b\x7bpublishedAt\x7d\x7d)\n\x7b\x7b/each\x7d\x7d\n\x7b\x7b/if\x7d\x7d\n\nDev".data ++ ("elop a strategic growth plan in JSON format:\n\n\x7b\n \"strengths\": \x7b\n   \"summa".data ++ ("ry\": \"Current assets to leverage for growth\",\n   \"details\": [\"leverage".data ++ ("able strength 1\", \"growth asset 2\", \"strength 3\"],\n   \"score\": 0-100\n ".data ++ ("\x7d,\n \"weaknesses\": \x7b\n   \"summary\": \"Growth blockers to address\",\n   \"de".data ++ ("tails\": [\"growth blocker 1\", \"limiting factor 2\"],\n   \"areas\": [\"criti".data ++ ("cal improvement area\", \"optimization area 2\"]\n \x7d,\n \"opportunities\": \x7b\n   \"summa".data ++ ("ry\": \"Strategic growth opportunities\",\n   \"recommendations\": [\n     \x7b\n       \"t".data ++ ("itle\": \"Growth strategy recommendation\",\n       \"description\": \"Detail".data ++ ("ed implementation plan with timeline\",\n       \"priority\": \"HIGH|MEDIUM".data ++ ("|LOW\",\n       \"estimatedImpact\": \"Expected growth outcome (subscribers".data ++ (", views, etc.)\"\n     \x7d\n   ]\n \x7d,\n \"contentStrategy\": \x7b\n   \"recommendedT".data ++ ("opics\": [\"high-growth topic 1\", \"trending topic 2\", \"niche topic 3\"],\n".data ++ ("   \"contentGaps\": [\"underserved content area 1\", \"gap 2\"],\n   \"optimiz".data ++ ("ationTips\": [\n     \"SEO optimization strategy\",\n     \"Engagement optim".data ++ ("ization tip\",\n     \"Algorithm optimization strategy\"\n   ]\n \x7d,\n \"scores".data ++ ("\": \x7b\n   \"overall\": 0-100,\n   \"contentQuality\": 0-100,\n   \"engagement\":".data ++ (" 0-100,\n   \"growthPotential\": 0-100\n \x7d\n\x7d\n\nFocus on actionable, timelin".data ++ ("e-specific growth strategies with measurable outcomes.".data ++ (([] : List Char)))))))))))))))))))))))).trans (c6_growth_strategy_top_step2 ("Recent Performance:\n\x7b\x7b#each recentVideos\x7d\x7d\n- \"\x7b\x7btitle\x7d\x7d\" - \x7b\x7bviews\x7d\x7d views, \x7b\x7blikes\x7d\x7d likes (\x7b\x7bpublishedAt\x7d\x7d)\n\x7b\x7b/each\x7d\x7d\n\x7b\x7b/if\x7d\x7d\n\nDev".data ++ ("elop a strategic growth plan in JSON format:\n\n\x7b\n \"strengths\": \x7b\n   \"summa".data ++ ("ry\": \"Current assets to leverage for growth\",\n   \"details\": [\"leverage".data ++ ("able strength 1\", \"growth asset 2\", \"strength 3\"],\n   \"score\": 0-100\n ".data ++ ("\x7d,\n \"weaknesses\": \x7b\n   \"summary\": \"Growth blockers to address\",\n   \"de".data ++ ("tails\": [\"growth blocker 1\", \"limiting factor 2\"],\n   \"areas\": [\"criti".data ++ ("cal improvement area\", \"optimization area 2\"]\n \x7d,\n \"opportunities\": \x7b\n   \"summa".data ++ ("ry\": \"Strategic growth opportunities\",\n   \"recommendations\": [\n     \x7b\n       \"t".data ++ ("itle\": \"Growth strategy recommendation\",\n       \"description\": \"Detail".data ++ ("ed implementation plan with timeline\",\n       \"priority\": \"HIGH|MEDIUM".data ++ ("|LOW\",\n       \"estimatedImpact\": \"Expected growth outcome (subscribers".data ++ (", views, etc.)\"\n     \x7d\n   ]\n \x7d,\n \"contentStrategy\": \x7b\n   \"recommendedT".data ++ ("opics\": [\"high-growth topic 1\", \"trending topic 2\", \"niche topic 3\"],\n".data ++ ("   \"contentGaps\": [\"underserved content area 1\", \"gap 2\"],\n   \"optimiz".data ++ ("ationTips\": [\n     \"SEO optimization strategy\",\n     \"Engagement optim".data ++ ("ization tip\",\n     \"Algorithm optimization strategy\"\n   ]\n \x7d,\n \"scores".data ++ ("\": \x7b\n   \"overall\": 0-100,\n   \"contentQuality\": 0-100,\n   \"engagement\":".data ++ (" 0-100,\n   \"growthPotential\": 0-100\n \x7d\n\x7d\n\nFocus on actionable, timelin".data ++ ("e-specific growth strategies with measurable outcomes.".data ++ (([] : List Char))))))))))))))))))))))).trans (c6_growth_strategy_top_step3 ("elop a strategic growth plan in JSON format:\n\n\x7b\n \"strengths\": \x7b\n   \"summa".data ++ ("ry\": \"Current assets to leverage for growth\",\n   \"details\": [\"leverage".data ++ ("able strength 1\", \"growth asset 2\", \"strength 3\"],\n   \"score\": 0-100\n ".data ++ ("\x7d,\n \"weaknesses\": \x7b\n   \"summary\": \"Growth blockers to address\",\n   \"de".data ++ ("tails\": [\"growth blocker 1\", \"limiting factor 2\"],\n   \"areas\": [\"criti".data ++ ("cal improvement area\", \"optimization area 2\"]\n \x7d,\n \"opportunities\": \x7b\n   \"summa".data ++ ("ry\": \"Strategic growth opportunities\",\n   \"recommendations\": [\n     \x7b\n       \"t".data ++ ("itle\": \"Growth strategy recommendation\",\n       \"description\": \"Detail".data ++ ("ed implementation plan with timeline\",\n       \"priority\": \"HIGH|MEDIUM".data ++ ("|LOW\",\n       \"estimatedImpact\": \"Expected growth outcome (subscribers".data ++ (", views, etc.)\"\n     \x7d\n   ]\n \x7d,\n \"contentStrategy\": \x7b\n   \"recommendedT".data ++ ("opics\": [\"high-growth topic 1\", \"trending topic 2\", \"niche topic 3\"],\n".data ++ ("   \"contentGaps\": [\"underserved content area 1\", \"gap 2\"],\n   \"optimiz".data ++ ("ationTips\": [\n     \"SEO optimization strategy\",\n     \"Engagement optim".data ++ ("ization tip\",\n     \"Algorithm optimization strategy\"\n   ]\n \x7d,\n \"scores".data ++ ("\": \x7b\n   \"overall\": 0-100,\n   \"contentQuality\": 0-100,\n   \"engagement\":".data ++ (" 0-100,\n   \"growthPotential\": 0-100\n \x7d\n\x7d\n\nFocus on actionable, timelin".data ++ ("e-specific growth strategies with measurable outcomes.".data ++ (([] : List Char)))))))))))))))))))))).trans (c6_growth_strategy_top_step4 ("ry\": \"Current assets to leverage for growth\",\n   \"details\": [\"leverage".data ++ ("able strength 1\", \"growth asset 2\", \"strength 3\"],\n   \"score\": 0-100\n ".data ++ ("\x7d,\n \"weaknesses\": \x7b\n   \"summary\": \"Growth blockers to address\",\n   \"de".data ++ ("tails\": [\"growth blocker 1\", \"limiting factor 2\"],\n   \"areas\": [\"criti".data ++ ("cal improvement area\", \"optimization area 2\"]\n \x7d,\n \"opportunities\": \x7b\n   \"summa".data ++ ("ry\": \"Strategic growth opportunities\",\n   \"recommendations\": [\n     \x7b\n       \"t".data ++ ("itle\": \"Growth strategy recommendation\",\n       \"description\": \"Detail".data ++ ("ed implementation plan with timeline\",\n       \"priority\": \"HIGH|MEDIUM".data ++ ("|LOW\",\n       \"estimatedImpact\": \"Expected growth outcome (subscribers".data ++ (", views, etc.)\"\n     \x7d\n   ]\n \x7d,\n \"contentStrategy\": \x7b\n   \"recommendedT".data ++ ("opics\": [\"high-growth topic 1\", \"trending topic 2\", \"niche topic 3\"],\n".data ++ ("   \"contentGaps\": [\"underserved content area 1\", \"gap 2\"],\n   \"optimiz".data ++ ("ationTips\": [\n     \"SEO optimization strategy\",\n     \"Engagement optim".data ++ ("ization tip\",\n     \"Algorithm optimization strategy\"\n   ]\n \x7d,\n \"scores".data ++ ("\": \x7b\n   \"overall\": 0-100,\n   \"contentQuality\": 0-100,\n   \"engagement\":".data ++ (" 0-100,\n   \"growthPotential\": 0-100\n \x7d\n\x7d\n\nFocus on actionable, timelin".data ++ ("e-specific growth strategies with measurable outcomes.".data ++ (([] : List Char))))))))))))))))))))).trans (c6_growth_strategy_top_step5 ("able strength 1\", \"growth asset 2\", \"strength 3\"],\n   \"score\": 0-100\n ".data ++ ("\x7d,\n \"weaknesses\": \x7b\n   \"summary\": \"Growth blockers to address\",\n   \"de".data ++ ("tails\": [\"growth blocker 1\", \"limiting factor 2\"],\n   \"areas\": [\"criti".data ++ ("cal improvement area\", \"optimization area 2\"]\n \x7d,\n \"opportunities\": \x7b\n   \"summa".data ++ ("ry\": \"Strategic growth opportunities\",\n   \"recommendations\": [\n     \x7b\n       \"t".data ++ ("itle\": \"Growth strategy recommendation\",\n       \"description\": \"Detail".data ++ ("ed implementation plan with timeline\",\n       \"priority\": \"HIGH|MEDIUM".data ++ ("|LOW\",\n       \"estimatedImpact\": \"Expected growth outcome (subscribers".data ++ (", views, etc.)\"\n     \x7d\n   ]\n \x7d,\n \"contentStrategy\": \x7b\n   \"recommendedT".data ++ ("opics\": [\"high-growth topic 1\", \"trending topic 2\", \"niche topic 3\"],\n".data ++ ("   \"contentGaps\": [\"underserved content area 1\", \"gap 2\"],\n   \"optimiz".data ++ ("ationTips\": [\n     \"SEO optimization strategy\",\n     \"Engagement optim".data ++ ("ization tip\",\n     \"Algorithm optimization strategy\"\n   ]\n \x7d,\n \"scores".data ++ ("\": \x7b\n   \"overall\": 0-100,\n   \"contentQuality\": 0-100,\n   \"engagement\":".data ++ (" 0-100,\n   \"growthPotential\": 0-100\n \x7d\n\x7d\n\nFocus on actionable, timelin".data ++ ("e-specific growth strategies with measurable outcomes.".data ++ (([] : List Char)))))))))))))))))))).trans (c6_growth_strategy_top_step6 ("\x7d,\n \"weaknesses\": \x7b\n   \"summary\": \"Growth blockers to address\",\n   \"de".data ++ ("tails\": [\"growth blocker 1\", \"limiting factor 2\"],\n   \"areas\": [\"criti".data ++ ("cal improvement area\", \"optimization area 2\"]\n \x7d,\n \"opportunities\": \x7b\n   \"summa".data ++ ("ry\": \"Strategic growth opportunities\",\n   \"recommendations\": [\n     \x7b\n       \"t".data ++ ("itle\": \"Growth strategy recommendation\",\n       \"description\": \"Detail".data ++ ("ed implementation plan with timeline\",\n       \"priority\": \"HIGH|MEDIUM".data ++ ("|LOW\",\n       \"estimatedImpact\": \"Expected growth outcome (subscribers".data ++ (", views, etc.)\"\n     \x7d\n   ]\n \x7d,\n \"contentStrategy\": \x7b\n   \"recommendedT".data ++ ("opics\": [\"high-growth topic 1\", \"trending topic 2\", \"niche topic 3\"],\n".data ++ ("   \"contentGaps\": [\"underserved content area 1\", \"gap 2\"],\n   \"optimiz".data ++ ("ationTips\": [\n     \"SEO optimization strategy\",\n     \"Engagement optim".data ++ ("ization tip\",\n     \"Algorithm optimization strategy\"\n   ]\n \x7d,\n \"scores".data ++ ("\": \x7b\n   \"overall\": 0-100,\n   \"contentQuality\": 0-100,\n   \"engagement\":".data ++ (" 0-100,\n   \"growthPotential\": 0-100\n \x7d\n\x7d\n\nFocus on actionable, timelin".data ++ ("e-specific growth strategies with measurable outcomes.".data ++ (([] : List Char))))))))))))))))))).trans (c6_growth_strategy_top_step7 ("tails\": [\"growth blocker 1\", \"limiting factor 2\"],\n   \"areas\": [\"criti".data ++ ("cal improvement area\", \"optimization area 2\"]\n \x7d,\n \"opportunities\": \x7b\n   \"summa".data ++ ("ry\": \"Strategic growth opportunities\",\n   \"recommendations\": [\n     \x7b\n       \"t".data ++ ("itle\": \"Growth strategy recommendation\",\n       \"description\": \"Detail".data ++ ("ed implementation plan with timeline\",\n       \"priority\": \"HIGH|MEDIUM".data ++ ("|LOW\",\n       \"estimatedImpact\": \"Expected growth outcome (subscribers".data ++ (", views, etc.)\"\n     \x7d\n   ]\n \x7d,\n \"contentStrategy\": \x7b\n   \"recommendedT".data ++ ("opics\": [\"high-growth topic 1\", \"trending topic 2\", \"niche topic 3\"],\n".data ++ ("   \"contentGaps\": [\"underserved content area 1\", \"gap 2\"],\n   \"optimiz".data ++ ("ationTips\": [\n     \"SEO optimization strategy\",\n     \"Engagement optim".data ++ ("ization tip\",\n     \"Algorithm optimization strategy\"\n   ]\n \x7d,\n \"scores".data ++ ("\": \x7b\n   \"overall\": 0-100,\n   \"contentQuality\": 0-100,\n   \"engagement\":".data ++ (" 0-100,\n   \"growthPotential\": 0-100\n \x7d\n\x7d\n\nFocus on actionable, timelin".data ++ ("e-specific growth strategies with measurable outcomes.".data ++ (([] : List Char)))))))))))))))))).trans (c6_growth_strategy_top_step8 ("cal improvement area\", \"optimization area 2\"]\n \x7d,\n \"opportunities\": \x7b\n   \"summa".data ++ ("ry\": \"Strategic growth opportunities\",\n   \"recommendations\": [\n     \x7b\n       \"t".data ++ ("itle\": \"Growth strategy recommendation\",\n       \"description\": \"Detail".data ++ ("ed implementation plan with timeline\",\n       \"priority\": \"HIGH|MEDIUM".data ++ ("|LOW\",\n       \"estimatedImpact\": \"Expected growth outcome (subscribers".data ++ (", views, etc.)\"\n     \x7d\n   ]\n \x7d,\n \"contentStrategy\": \x7b\n   \"recommendedT".data ++ ("opics\": [\"high-growth topic 1\", \"trending topic 2\", \"niche topic 3\"],\n".data ++ ("   \"contentGaps\": [\"underserved content area 1\", \"gap 2\"],\n   \"optimiz".data ++ ("ationTips\": [\n     \"SEO optimization strategy\",\n     \"Engagement optim".data ++ ("ization tip\",\n     \"Algorithm optimization strategy\"\n   ]\n \x7d,\n \"scores".data ++ ("\": \x7b\n   \"overall\": 0-100,\n   \"contentQuality\": 0-100,\n   \"engagement\":".data ++ (" 0-100,\n   \"growthPotential\": 0-100\n \x7d\n\x7d\n\nFocus on actionable, timelin".data ++ ("e-specific growth strategies with measurable outcomes.".data ++ (([] : List Char))))))))))))))))).trans (c6_growth_strategy_top_step9 ("ry\": \"Strategic growth opportunities\",\n   \"recommendations\": [\n     \x7b\n       \"t".data ++ ("itle\": \"Growth strategy recommendation\",\n       \"description\": \"Detail".data ++ ("ed implementation plan with timeline\",\n       \"priority\": \"HIGH|MEDIUM".data ++ ("|LOW\",\n       \"estimatedImpact\": \"Expected growth outcome (subscribers".data ++ (", views, etc.)\"\n     \x7d\n   ]\n \x7d,\n \"contentStrategy\": \x7b\n   \"recommendedT".data ++ ("opics\": [\"high-growth topic 1\", \"trending topic 2\", \"niche topic 3\"],\n".data ++ ("   \"contentGaps\": [\"underserved content area 1\", \"gap 2\"],\n   \"optimiz".data ++ ("ationTips\": [\n     \"SEO optimization strategy\",\n     \"Engagement optim".data ++ ("ization tip\",\n     \"Algorithm optimization strategy\"\n   ]\n \x7d,\n \"scores".data ++ ("\": \x7b\n   \"overall\": 0-100,\n   \"contentQuality\": 0-100,\n   \"engagement\":".data ++ (" 0-100,\n   \"growthPotential\": 0-100\n \x7d\n\x7d\n\nFocus on actionable, timelin".data ++ ("e-specific growth strategies with measurable outcomes.".data ++ (([] : List Char)))))))))))))))).trans (c6_growth_strategy_top_step10 ("itle\": \"Growth strategy recommendation\",\n       \"description\": \"Detail".data ++ ("ed implementation plan with timeline\",\n       \"priority\": \"HIGH|MEDIUM".data ++ ("|LOW\",\n       \"estimatedImpact\": \"Expected growth outcome (subscribers".data ++ (", views, etc.)\"\n     \x7d\n   ]\n \x7d,\n \"contentStrategy\": \x7b\n   \"recommendedT".data ++ ("opics\": [\"high-growth topic 1\", \"trending topic 2\", \"niche topic 3\"],\n".data ++ ("   \"contentGaps\": [\"underserved content area 1\", \"gap 2\"],\n   \"optimiz".data ++ ("ationTips\": [\n     \"SEO optimization strategy\",\n     \"Engagement optim".data ++ ("ization tip\",\n     \"Algorithm optimization strategy\"\n   ]\n \x7d,\n \"scores".data ++ ("\": \x7b\n   \"overall\": 0-100,\n   \"contentQuality\": 0-100,\n   \"engagement\":".data ++ (" 0-100,\n   \"growthPotential\": 0-100\n \x7d\n\x7d\n\nFocus on actionable, timelin".data ++ ("e-specific growth strategies with measurable outcomes.".data ++ (([] : List Char))))))))))))))).trans (c6_growth_strategy_top_step11 ("ed implementation plan with timeline\",\n       \"priority\": \"HIGH|MEDIUM".data ++ ("|LOW\",\n       \"estimatedImpact\": \"Expected growth outcome (subscribers".data ++ (", views, etc.)\"\n     \x7d\n   ]\n \x7d,\n \"contentStrategy\": \x7b\n   \"recommendedT".data ++ ("opics\": [\"high-growth topic 1\", \"trending topic 2\", \"niche topic 3\"],\n".data ++ ("   \"contentGaps\": [\"underserved content area 1\", \"gap 2\"],\n   \"optimiz".data ++ ("ationTips\": [\n     \"SEO optimization strategy\",\n     \"Engagement optim".data ++ ("ization tip\",\n     \"Algorithm optimization strategy\"\n   ]\n \x7d,\n \"scores".data ++ ("\": \x7b\n   \"overall\": 0-100,\n   \"contentQuality\": 0-100,\n   \"engagement\":".data ++ (" 0-100,\n   \"growthPotential\": 0-100\n \x7d\n\x7d\n\nFocus on actionable, timelin".data ++ ("e-specific growth strategies with measurable outcomes.".data ++ (([] : List Char)))))))))))))).trans (c6_growth_strategy_top_step12 ("|LOW\",\n       \"estimatedImpact\": \"Expected growth outcome (subscribers".data ++ (", views, etc.)\"\n     \x7d\n   ]\n \x7d,\n \"contentStrategy\": \x7b\n   \"recommendedT".data ++ ("opics\": [\"high-growth topic 1\", \"trending topic 2\", \"niche topic 3\"],\n".data ++ ("   \"contentGaps\": [\"underserved content area 1\", \"gap 2\"],\n   \"optimiz".data ++ ("ationTips\": [\n     \"SEO optimization strategy\",\n     \"Engagement optim".data ++ ("ization tip\",\n     \"Algorithm optimization strategy\"\n   ]\n \x7d,\n \"scores".data ++ ("\": \x7b\n   \"overall\": 0-100,\n   \"contentQuality\": 0-100,\n   \"engagement\":".data ++ (" 0-100,\n   \"growthPotential\": 0-100\n \x7d\n\x7d\n\nFocus on actionable, timelin".data ++ ("e-specific growth strategies with measurable outcomes.".data ++ (([] : List Char))))))))))))).trans (c6_growth_strategy_top_step13 (", views, etc.)\"\n     \x7d\n   ]\n \x7d,\n \"contentStrategy\": \x7b\n   \"recommendedT".data ++ ("opics\": [\"high-growth topic 1\", \"trending topic 2\", \"niche topic 3\"],\n".data ++ ("   \"contentGaps\": [\"underserved content area 1\", \"gap 2\"],\n   \"optimiz".data ++ ("ationTips\": [\n     \"SEO optimization strategy\",\n     \"Engagement optim".data ++ ("ization tip\",\n     \"Algorithm optimization strategy\"\n   ]\n \x7d,\n \"scores".data ++ ("\": \x7b\n   \"overall\": 0-100,\n   \"contentQuality\": 0-100,\n   \"engagement\":".data ++ (" 0-100,\n   \"growthPotential\": 0-100\n \x7d\n\x7d\n\nFocus on actionable, timelin".data ++ ("e-specific growth strategies with measurable outcomes.".data ++ (([] : List Char)))))))))))).trans (c6_growth_strategy_top_step14 ("opics\": [\"high-growth topic 1\", \"trending topic 2\", \"niche topic 3\"],\n".data ++ ("   \"contentGaps\": [\"underserved content area 1\", \"gap 2\"],\n   \"optimiz".data ++ ("ationTips\": [\n     \"SEO optimization strategy\",\n     \"Engagement optim".data ++ ("ization tip\",\n     \"Algorithm optimization strategy\"\n   ]\n \x7d,\n \"scores".data ++ ("\": \x7b\n   \"overall\": 0-100,\n   \"contentQuality\": 0-100,\n   \"engagement\":".data ++ (" 0-100,\n   \"growthPotential\": 0-100\n \x7d\n\x7d\n\nFocus on actionable, timelin".data ++ ("e-specific growth strategies with measurable outcomes.".data ++ (([] : List Char))))))))))).trans (c6_growth_strategy_top_step15 ("   \"contentGaps\": [\"underserved content area 1\", \"gap 2\"],\n   \"optimiz".data ++ ("ationTips\": [\n     \"SEO optimization strategy\",\n     \"Engagement optim".data ++ ("ization tip\",\n     \"Algorithm optimization strategy\"\n   ]\n \x7d,\n \"scores".data ++ ("\": \x7b\n   \"overall\": 0-100,\n   \"contentQuality\": 0-100,\n   \"engagement\":".data ++ (" 0-100,\n   \"growthPotential\": 0-100\n \x7d\n\x7d\n\nFocus on actionable, timelin".data ++ ("e-specific growth strategies with measurable outcomes.".data ++ (([] : List Char)))))))))).trans (c6_growth_strategy_top_step16 ("ationTips\": [\n     \"SEO optimization strategy\",\n     \"Engagement optim".data ++ ("ization tip\",\n     \"Algorithm optimization strategy\"\n   ]\n \x7d,\n \"scores".data ++ ("\": \x7b\n   \"overall\": 0-100,\n   \"contentQuality\": 0-100,\n   \"engagement\":".data ++ (" 0-100,\n   \"growthPotential\": 0-100\n \x7d\n\x7d\n\nFocus on actionable, timelin".data ++ ("e-specific growth strategies with measurable outcomes.".data ++ (([] : List Char))))))))).trans (c6_growth_strategy_top_step17 ("ization tip\",\n     \"Algorithm optimization strategy\"\n   ]\n \x7d,\n \"scores".data ++ ("\": \x7b\n   \"overall\": 0-100,\n   \"contentQuality\": 0-100,\n   \"engagement\":".data ++ (" 0-100,\n   \"growthPotential\": 0-100\n \x7d\n\x7d\n\nFocus on actionable, timelin".data ++ ("e-specific growth strategies with measurable outcomes.".data ++ (([] : List Char)))))))).trans (c6_growth_strategy_top_step18 ("\": \x7b\n   \"overall\": 0-100,\n   \"contentQuality\": 0-100,\n   \"engagement\":".data ++ (" 0-100,\n   \"growthPotential\": 0-100\n \x7d\n\x7d\n\nFocus on actionable, timelin".data ++ ("e-specific growth strategies with measurable outcomes.".data ++ (([] : List Char))))))).trans (c6_growth_strategy_top_step19 (" 0-100,\n   \"growthPotential\": 0-100\n \x7d\n\x7d\n\nFocus on actionable, timelin".data ++ ("e-specific growth strategies with measurable outcomes.".data ++ (([] : List Char)))))).trans (c6_growth_strategy_top_step20 ("e-specific growth strategies with measurable outcomes.".data ++ (([] : List Char))))).trans (c6_growth_strategy_top_step21 (([] : List Char)))).trans c6_growth_strategy_top_end

/-- Evaluated list of all variables referenced in the `DEEP_DIVE` template,
loop bodies included. -/
theorem c6_deep_dive_all_eval :
    referencedVarsAll PromptTemplates.DEEP_DIVE.template = ["channelTitle", "channelDescription", "subscriberCount", "videoCount", "viewCount", "contentType", "topics", "publishedAt", "recentVideos", "recentVideos", "title", "views", "likes", "comments", "publishedAt"] :=
  ((((((((((((((((((((((((((c6_deep_dive_all_step0 ("ormation:\n- Title: \x7b\x7bchannelTitle\x7d\x7d\n- Description: \x7b\x7bchannelDescription\x7d\x7d\n".data ++ ("- Subscribers: \x7b\x7bsubscriberCount\x7d\x7d\n- Total Videos: \x7b\x7bvideoCount\x7d\x7d\n- To".data ++ ("tal Views: \x7b\x7bviewCount\x7d\x7d\n- Content Type: \x7b\x7bcontentType\x7d\x7d\n- Topics: \x7b\x7btopics\x7d\x7d\n-".data ++ (" Published: \x7b\x7bpublishedAt\x7d\x7d\n\n\x7b\x7b#if recentVideos\x7d\x7d\nRecent Videos Performance:\n\x7b\x7b#each recentVideos\x7d\x7d\n- \"\x7b\x7btitle\x7d\x7d\" - \x7b\x7bviews\x7d\x7d views, \x7b\x7blikes\x7d\x7d likes, \x7b\x7bcomments\x7d\x7d comments (\x7b\x7bpublishedAt\x7d\x7d)\n\x7b\x7b/each\x7d\x7d\n\x7b\x7b/if\x7d\x7d\n\nPro".data ++ ("vide a detailed analysis in JSON format with:\n\n1. **Comprehensive Stre".data ++ ("ngths Analysis**\n2. **Detailed Weaknesses Assessment**\n3. **Growth Opp".data ++ ("ortunities with Priorities**\n4. **Content Strategy Recommendations**\n5".data ++ (". **Competitive Positioning**\n6. **Detailed Scoring with Rationale**\n\n".data ++ ("JSON Response Format:\n\x7b\n \"strengths\": \x7b\n   \"summary\": \"Detailed overvi".data ++ ("ew of channel strengths\",\n   \"details\": [\"specific strength with evide".data ++ ("nce\", \"strength 2\", \"strength 3\", \"strength 4\", \"strength 5\"],\n   \"sco".data ++ ("re\": 0-100\n \x7d,\n \"weaknesses\": \x7b\n   \"summary\": \"Comprehensive weakness ".data ++ ("analysis\",\n   \"details\": [\"specific weakness with suggestion\", \"weakne".data ++ ("ss 2\", \"weakness 3\"],\n   \"areas\": [\"improvement area 1\", \"area 2\", \"ar".data ++ ("ea 3\"]\n \x7d,\n \"opportunities\": \x7b\n   \"summary\": \"Strategic growth opportu".data ++ ("nities\",\n   \"recommendations\": [\n     \x7b\n       \"title\": \"Specific acti".data ++ ("onable recommendation\",\n       \"description\": \"Detailed implementation".data ++ (" strategy\",\n       \"priority\": \"HIGH|MEDIUM|LOW\",\n       \"estimatedImp".data ++ ("act\": \"Quantified impact description\"\n     \x7d\n   ]\n \x7d,\n \"contentStrateg".data ++ ("y\": \x7b\n   \"recommendedTopics\": [\"topic 1\", \"topic 2\", \"topic 3\"],\n   \"c".data ++ ("ontentGaps\": [\"gap 1\", \"gap 2\"],\n   \"optimizationTips\": [\"tip 1\", \"tip".data ++ (" 2\", \"tip 3\"]\n \x7d,\n \"scores\": \x7b\n   \"overall\": 0-100,\n   \"contentQuality".data ++ ("\": 0-100,\n   \"engagement\": 0-100,\n   \"growthPotential\": 0-100\n \x7d\n\x7d\n\nPr".data ++ ("ovide data-driven insights with specific examples and actionable recom".data ++ ("mendations.".data ++ (([] : List Char)))))))))))))))))))))))))))).trans (c6_deep_dive_all_step1 ("- Subscribers: \x7b\x7bsubscriberCount\x7d\x7d\n- Total Videos: \x7b\x7bvideoCount\x7d\x7d\n- To".data ++ ("tal Views: \x7b\x7bviewCount\x7d\x7d\n- Content Type: \x7b\x7bcontentType\x7d\x7d\n- Topics: \x7b\x7btopics\x7d\x7d\n-".data ++ (" Published: \x7b\x7bpublishedAt\x7d\x7d\n\n\x7b\x7b#if recentVideos\x7d\x7d\nRecent Videos Performance:\n\x7b\x7b#each recentVideos\x7d\x7d\n- \"\x7b\x7btitle\x7d\x7d\" - \x7b\x7bviews\x7d\x7d views, \x7b\x7blikes\x7d\x7d likes, \x7b\x7bcomments\x7d\x7d comments (\x7b\x7bpublishedAt\x7d\x7d)\n\x7b\x7b/each\x7d\x7d\n\x7b\x7b/if\x7d\x7d\n\nPro".data ++ ("vide a detailed analysis in JSON format with:\n\n1. **Comprehensive Stre".data ++ ("ngths Analysis**\n2. **Detailed Weaknesses Assessment**\n3. **Growth Opp".data ++ ("ortunities with Priorities**\n4. **Content Strategy Recommendations**\n5".data ++ (". **Competitive Positioning**\n6. **Detailed Scoring with Rationale**\n\n".data ++ ("JSON Response Format:\n\x7b\n \"strengths\": \x7b\n   \"summary\": \"Detailed overvi".data ++ ("ew of channel strengths\",\n   \"details\": [\"specific strength with evide".data ++ ("nce\", \"strength 2\", \"strength 3\", \"strength 4\", \"strength 5\"],\n   \"sco".data ++ ("re\": 0-100\n \x7d,\n \"weaknesses\": \x7b\n   \"summary\": \"Comprehensive weakness ".data ++ ("analysis\",\n   \"details\": [\"specific weakness with suggestion\", \"weakne".data ++ ("ss 2\", \"weakness 3\"],\n   \"areas\": [\"improvement area 1\", \"area 2\", \"ar".data ++ ("ea 3\"]\n \x7d,\n \"opportunities\": \x7b\n   \"summary\": \"Strategic growth opportu".data ++ ("nities\",\n   \"recommendations\": [\n     \x7b\n       \"title\": \"Specific acti".data ++ ("onable recommendation\",\n       \"description\": \"Detailed implementation".data ++ (" strategy\",\n       \"priority\": \"HIGH|MEDIUM|LOW\",\n       \"estimatedImp".data ++ ("act\": \"Quantified impact description\"\n     \x7d\n   ]\n \x7d,\n \"contentStrateg".data ++ ("y\": \x7b\n   \"recommendedTopics\": [\"topic 1\", \"topic 2\", \"topic 3\"],\n   \"c".data ++ ("ontentGaps\": [\"gap 1\", \"gap 2\"],\n   \"optimizationTips\": [\"tip 1\", \"tip".data ++ (" 2\", \"tip 3\"]\n \x7d,\n \"scores\": \x7b\n   \"overall\": 0-100,\n   \"contentQuality".data ++ ("\": 0-100,\n   \"engagement\": 0-100,\n   \"growthPotential\": 0-100\n \x7d\n\x7d\n\nPr".data ++ ("ovide data-driven insights with specific examples and actionable recom".data ++ ("mendations.".data ++ (([] : List Char)))))))))))))))))))))))))))).trans (c6_deep_dive_all_step2 ("tal Views: \x7b\x7bviewCount\x7d\x7d\n- Content Type: \x7b\x7bcontentType\x7d\x7d\n- Topics: \x7b\x7btopics\x7d\x7d\n-".data ++ (" Published: \x7b\x7bpublishedAt\x7d\x7d\n\n\x7b\x7b#if recentVideos\x7d\x7d\nRecent Videos Performance:\n\x7b\x7b#each recentVideos\x7d\x7d\n- \"\x7b\x7btitle\x7d\x7d\" - \x7b\x7bviews\x7d\x7d views, \x7b\x7blikes\x7d\x7d likes, \x7b\x7bcomments\x7d\x7d comments (\x7b\x7bpublishedAt\x7d\x7d)\n\x7b\x7b/each\x7d\x7d\n\x7b\x7b/if\x7d\x7d\n\nPro".data ++ ("vide a detailed analysis in JSON format with:\n\n1. **Comprehensive Stre".data ++ ("ngths Analysis**\n2. **Detailed Weaknesses Assessment**\n3. **Growth Opp".data ++ ("ortunities with Priorities**\n4. **Content Strategy Recommendations**\n5".data ++ (". **Competitive Positioning**\n6. **Detailed Scoring with Rationale**\n\n".data ++ ("JSON Response Format:\n\x7b\n \"strengths\": \x7b\n   \"summary\": \"Detailed overvi".data ++ ("ew of channel strengths\",\n   \"details\": [\"specific strength with evide".data ++ ("nce\", \"strength 2\", \"strength 3\", \"strength 4\", \"strength 5\"],\n   \"sco".data ++ ("re\": 0-100\n \x7d,\n \"weaknesses\": \x7b\n   \"summary\": \"Comprehensive weakness ".data ++ ("analysis\",\n   \"details\": [\"specific weakness with suggestion\", \"weakne".data ++ ("ss 2\", \"weakness 3\"],\n   \"areas\": [\"improvement area 1\", \"area 2\", \"ar".data ++ ("ea 3\"]\n \x7d,\n \"opportunities\": \x7b\n   \"summary\": \"Strategic growth opportu".data ++ ("nities\",\n   \"recommendations\": [\n     \x7b\n       \"title\": \"Specific acti".data ++ ("onable recommendation\",\n       \"description\": \"Detailed implementation".data ++ (" strategy\",\n       \"priority\": \"HIGH|MEDIUM|LOW\",\n       \"estimatedImp".data ++ ("act\": \"Quantified impact description\"\n     \x7d\n   ]\n \x7d,\n \"contentStrateg".data ++ ("y\": \x7b\n   \"recommendedTopics\": [\"topic 1\", \"topic 2\", \"topic 3\"],\n   \"c".data ++ ("ontentGaps\": [\"gap 1\", \"gap 2\"],\n   \"optimizationTips\": [\"tip 1\", \"tip".data ++ (" 2\", \"tip 3\"]\n \x7d,\n \"scores\": \x7b\n   \"overall\": 0-100,\n   \"contentQuality".data ++ ("\": 0-100,\n   \"engagement\": 0-100,\n   \"growthPotential\": 0-100\n \x7d\n\x7d\n\nPr".data ++ ("ovide data-driven insights with specific examples and actionable recom".data ++ ("mendations.".data ++ (([] : List Char))))))))))))))))))))))))))).trans (c6_deep_dive_all_step3 (" Published: \x7b\x7bpublishedAt\x7d\x7d\n\n\x7b\x7b#if recentVideos\x7d\x7d\nRecent Videos Performance:\n\x7b\x7b#each recentVideos\x7d\x7d\n- \"\x7b\x7btitle\x7d\x7d\" - \x7b\x7bviews\x7d\x7d views, \x7b\x7blikes\x7d\x7d likes, \x7b\x7bcomments\x7d\x7d comments (\x7b\x7bpublishedAt\x7d\x7d)\n\x7b\x7b/each\x7d\x7d\n\x7b\x7b/if\x7d\x7d\n\nPro".data ++ ("vide a detailed analysis in JSON format with:\n\n1. **Comprehensive Stre".data ++ ("ngths Analysis**\n2. **Detailed Weaknesses Assessment**\n3. **Growth Opp".data ++ ("ortunities with Priorities**\n4. **Content Strategy Recommendations**\n5".data ++ (". **Competitive Positioning**\n6. **Detailed Scoring with Rationale**\n\n".data ++ ("JSON Response Format:\n\x7b\n \"strengths\": \x7b\n   \"summary\": \"Detailed overvi".data ++ ("ew of channel strengths\",\n   \"details\": [\"specific strength with evide".data ++ ("nce\", \"strength 2\", \"strength 3\", \"strength 4\", \"strength 5\"],\n   \"sco".data ++ ("re\": 0-100\n \x7d,\n \"weaknesses\": \x7b\n   \"summary\": \"Comprehensive weakness ".data ++ ("analysis\",\n   \"details\": [\"specific weakness with suggestion\", \"weakne".data ++ ("ss 2\", \"weakness 3\"],\n   \"areas\": [\"improvement area 1\", \"area 2\", \"ar".data ++ ("ea 3\"]\n \x7d,\n \"opportunities\": \x7b\n   \"summary\": \"Strategic growth opportu".data ++ ("nities\",\n   \"recommendations\": [\n     \x7b\n       \"title\": \"Specific acti".data ++ ("onable recommendation\",\n       \"description\": \"Detailed implementation".data ++ (" strategy\",\n       \"priority\": \"HIGH|MEDIUM|LOW\",\n       \"estimatedImp".data ++ ("act\": \"Quantified impact description\"\n     \x7d\n   ]\n \x7d,\n \"contentStrateg".data ++ ("y\": \x7b\n   \"recommendedTopics\": [\"topic 1\", \"topic 2\", \"topic 3\"],\n   \"c".data ++ ("ontentGaps\": [\"gap 1\", \"gap 2\"],\n   \"optimizationTips\": [\"tip 1\", \"tip".data ++ (" 2\", \"tip 3\"]\n \x7d,\n \"scores\": \x7b\n   \"overall\": 0-100,\n   \"contentQuality".data ++ ("\": 0-100,\n   \"engagement\": 0-100,\n   \"growthPotential\": 0-100\n \x7d\n\x7d\n\nPr".data ++ ("ovide data-driven insights with specific examples and actionable recom".data ++ ("mendations.".data ++ (([] : List Char)))))))))))))))))))))))))).trans (c6_deep_dive_all_step4 ("vide a detailed analysis in JSON format with:\n\n1. **Comprehensive Stre".data ++ ("ngths Analysis**\n2. **Detailed Weaknesses Assessment**\n3. **Growth Opp".data ++ ("ortunities with Priorities**\n4. **Content Strategy Recommendations**\n5".data ++ (". **Competitive Positioning**\n6. **Detailed Scoring with Rationale**\n\n".data ++ ("JSON Response Format:\n\x7b\n \"strengths\": \x7b\n   \"summary\": \"Detailed overvi".data ++ ("ew of channel strengths\",\n   \"details\": [\"specific strength with evide".data ++ ("nce\", \"strength 2\", \"strength 3\", \"strength 4\", \"strength 5\"],\n   \"sco".data ++ ("re\": 0-100\n \x7d,\n \"weaknesses\": \x7b\n   \"summary\": \"Comprehensive weakness ".data ++ ("analysis\",\n   \"details\": [\"specific weakness with suggestion\", \"weakne".data ++ ("ss 2\", \"weakness 3\"],\n   \"areas\": [\"improvement area 1\", \"area 2\", \"ar".data ++ ("ea 3\"]\n \x7d,\n \"opportunities\": \x7b\n   \"summary\": \"Strategic growth opportu".data ++ ("nities\",\n   \"recommendations\": [\n     \x7b\n       \"title\": \"Specific acti".data ++ ("onable recommendation\",\n       \"description\": \"Detailed implementation".data ++ (" strategy\",\n       \"priority\": \"HIGH|MEDIUM|LOW\",\n       \"estimatedImp".data ++ ("act\": \"Quantified impact description\"\n     \x7d\n   ]\n \x7d,\n \"contentStrateg".data ++ ("y\": \x7b\n   \"recommendedTopics\": [\"topic 1\", \"topic 2\", \"topic 3\"],\n   \"c".data ++ ("ontentGaps\": [\"gap 1\", \"gap 2\"],\n   \"optimizationTips\": [\"tip 1\", \"tip".data ++ (" 2\", \"tip 3\"]\n \x7d,\n \"scores\": \x7b\n   \"overall\": 0-100,\n   \"contentQuality".data ++ ("\": 0-100,\n   \"engagement\": 0-100,\n   \"growthPotential\": 0-100\n \x7d\n\x7d\n\nPr".data ++ ("ovide data-driven insights with specific examples and actionable recom".data ++ ("mendations.".data ++ (([] : List Char))))))))))))))))))))))))).trans (c6_deep_dive_all_step5 ("ngths Analysis**\n2. **Detailed Weaknesses Assessment**\n3. **Growth Opp".data ++ ("ortunities with Priorities**\n4. **Content Strategy Recommendations**\n5".data ++ (". **Competitive Positioning**\n6. **Detailed Scoring with Rationale**\n\n".data ++ ("JSON Response Format:\n\x7b\n \"strengths\": \x7b\n   \"summary\": \"Detailed overvi".data ++ ("ew of channel strengths\",\n   \"details\": [\"specific strength with evide".data ++ ("nce\", \"strength 2\", \"strength 3\", \"strength 4\", \"strength 5\"],\n   \"sco".data ++ ("re\": 0-100\n \x7d,\n \"weaknesses\": \x7b\n   \"summary\": \"Comprehensive weakness ".data ++ ("analysis\",\n   \"details\": [\"specific weakness with suggestion\", \"weakne".data ++ ("ss 2\", \"weakness 3\"],\n   \"areas\": [\"improvement area 1\", \"area 2\", \"ar".data ++ ("ea 3\"]\n \x7d,\n \"opportunities\": \x7b\n   \"summary\": \"Strategic growth opportu".data ++ ("nities\",\n   \"recommendations\": [\n     \x7b\n       \"title\": \"Specific acti".data ++ ("onable recommendation\",\n       \"description\": \"Detailed implementation".data ++ (" strategy\",\n       \"priority\": \"HIGH|MEDIUM|LOW\",\n       \"estimatedImp".data ++ ("act\": \"Quantified impact description\"\n     \x7d\n   ]\n \x7d,\n \"contentStrateg".data ++ ("y\": \x7b\n   \"recommendedTopics\": [\"topic 1\", \"topic 2\", \"topic 3\"],\n   \"c".data ++ ("ontentGaps\": [\"gap 1\", \"gap 2\"],\n   \"optimizationTips\": [\"tip 1\", \"tip".data ++ (" 2\", \"tip 3\"]\n \x7d,\n \"scores\": \x7b\n   \"overall\": 0-100,\n   \"contentQuality".data ++ ("\": 0-100,\n   \"engagement\": 0-100,\n   \"growthPotential\": 0-100\n \x7d\n\x7d\n\nPr".data ++ ("ovide data-driven insights with specific examples and actionable recom".data ++ ("mendations.".data ++ (([] : List Char)))))))))))))))))))))))).trans (c6_deep_dive_all_step6 ("ortunities with Priorities**\n4. **Content Strategy Recommendations**\n5".data ++ (". **Competitive Positioning**\n6. **Detailed Scoring with Rationale**\n\n".data ++ ("JSON Response Format:\n\x7b\n \"strengths\": \x7b\n   \"summary\": \"Detailed overvi".data ++ ("ew of channel strengths\",\n   \"details\": [\"specific strength with evide".data ++ ("nce\", \"strength 2\", \"strength 3\", \"strength 4\", \"strength 5\"],\n   \"sco".data ++ ("re\": 0-100\n \x7d,\n \"weaknesses\": \x7b\n   \"summary\": \"Comprehensive weakness ".data ++ ("analysis\",\n   \"details\": [\"specific weakness with suggestion\", \"weakne".data ++ ("ss 2\", \"weakness 3\"],\n   \"areas\": [\"improvement area 1\", \"area 2\", \"ar".data ++ ("ea 3\"]\n \x7d,\n \"opportunities\": \x7b\n   \"summary\": \"Strategic growth opportu".data ++ ("nities\",\n   \"recommendations\": [\n     \x7b\n       \"title\": \"Specific acti".data ++ ("onable recommendation\",\n       \"description\": \"Detailed implementation".data ++ (" strategy\",\n       \"priority\": \"HIGH|MEDIUM|LOW\",\n       \"estimatedImp".data ++ ("act\": \"Quantified impact description\"\n     \x7d\n   ]\n \x7d,\n \"contentStrateg".data ++ ("y\": \x7b\n   \"recommendedTopics\": [\"topic 1\", \"topic 2\", \"topic 3\"],\n   \"c".data ++ ("ontentGaps\": [\"gap 1\", \"gap 2\"],\n   \"optimizationTips\": [\"tip 1\", \"tip".data ++ (" 2\", \"tip 3\"]\n \x7d,\n \"scores\": \x7b\n   \"overall\": 0-100,\n   \"contentQuality".data ++ ("\": 0-100,\n   \"engagement\": 0-100,\n   \"growthPotential\": 0-100\n \x7d\n\x7d\n\nPr".data ++ ("ovide data-driven insights with specific examples and actionable recom".data ++ ("mendations.".data ++ (([] : List Char))))))))))))))))))))))).trans (c6_deep_dive_all_step7 (". **Competitive Positioning**\n6. **Detailed Scoring with Rationale**\n\n".data ++ ("JSON Response Format:\n\x7b\n \"strengths\": \x7b\n   \"summary\": \"Detailed overvi".data ++ ("ew of channel strengths\",\n   \"details\": [\"specific strength with evide".data ++ ("nce\", \"strength 2\", \"strength 3\", \"strength 4\", \"strength 5\"],\n   \"sco".data ++ ("re\": 0-100\n \x7d,\n \"weaknesses\": \x7b\n   \"summary\": \"Comprehensive weakness ".data ++ ("analysis\",\n   \"details\": [\"specific weakness with suggestion\", \"weakne".data ++ ("ss 2\", \"weakness 3\"],\n   \"areas\": [\"improvement area 1\", \"area 2\", \"ar".data ++ ("ea 3\"]\n \x7d,\n \"opportunities\": \x7b\n   \"summary\": \"Strategic growth opportu".data ++ ("nities\",\n   \"recommendations\": [\n     \x7b\n       \"title\": \"Specific acti".data ++ ("onable recommendation\",\n       \"description\": \"Detailed implementation".data ++ (" strategy\",\n       \"priority\": \"HIGH|MEDIUM|LOW\",\n       \"estimatedImp".data ++ ("act\": \"Quantified impact description\"\n     \x7d\n   ]\n \x7d,\n \"contentStrateg".data ++ ("y\": \x7b\n   \"recommendedTopics\": [\"topic 1\", \"topic 2\", \"topic 3\"],\n   \"c".data ++ ("ontentGaps\": [\"gap 1\", \"gap 2\"],\n   \"optimizationTips\": [\"tip 1\", \"tip".data ++ (" 2\", \"tip 3\"]\n \x7d,\n \"scores\": \x7b\n   \"overall\": 0-100,\n   \"contentQuality".data ++ ("\": 0-100,\n   \"engagement\": 0-100,\n   \"growthPotential\": 0-100\n \x7d\n\x7d\n\nPr".data ++ ("ovide data-driven insights with specific examples and actionable recom".data ++ ("mendations.".data ++ (([] : List Char)))))))))))))))))))))).trans (c6_deep_dive_all_step8 ("JSON Response Format:\n\x7b\n \"strengths\": \x7b\n   \"summary\": \"Detailed overvi".data ++ ("ew of channel strengths\",\n   \"details\": [\"specific strength with evide".data ++ ("nce\", \"strength 2\", \"strength 3\", \"strength 4\", \"strength 5\"],\n   \"sco".data ++ ("re\": 0-100\n \x7d,\n \"weaknesses\": \x7b\n   \"summary\": \"Comprehensive weakness ".data ++ ("analysis\",\n   \"details\": [\"specific weakness with suggestion\", \"weakne".data ++ ("ss 2\", \"weakness 3\"],\n   \"areas\": [\"improvement area 1\", \"area 2\", \"ar".data ++ ("ea 3\"]\n \x7d,\n \"opportunities\": \x7b\n   \"summary\": \"Strategic growth opportu".data ++ ("nities\",\n   \"recommendations\": [\n     \x7b\n       \"title\": \"Specific acti".data ++ ("onable recommendation\",\n       \"description\": \"Detailed implementation".data ++ (" strategy\",\n       \"priority\": \"HIGH|MEDIUM|LOW\",\n       \"estimatedImp".data ++ ("act\": \"Quantified impact description\"\n     \x7d\n   ]\n \x7d,\n \"contentStrateg".data ++ ("y\": \x7b\n   \"recommendedTopics\": [\"topic 1\", \"topic 2\", \"topic 3\"],\n   \"c".data ++ ("ontentGaps\": [\"gap 1\", \"gap 2\"],\n   \"optimizationTips\": [\"tip 1\", \"tip".data ++ (" 2\", \"tip 3\"]\n \x7d,\n \"scores\": \x7b\n   \"overall\": 0-100,\n   \"contentQuality".data ++ ("\": 0-100,\n   \"engagement\": 0-100,\n   \"growthPotential\": 0-100\n \x7d\n\x7d\n\nPr".data ++ ("ovide data-driven insights with specific examples and actionable recom".data ++ ("mendations.".data ++ (([] : List Char))))))))))))))))))))).trans (c6_deep_dive_all_step9 ("ew of channel strengths\",\n   \"details\": [\"specific strength with evide".data ++ ("nce\", \"strength 2\", \"strength 3\", \"strength 4\", \"strength 5\"],\n   \"sco".data ++ ("re\": 0-100\n \x7d,\n \"weaknesses\": \x7b\n   \"summary\": \"Comprehensive weakness ".data ++ ("analysis\",\n   \"details\": [\"specific weakness with suggestion\", \"weakne".data ++ ("ss 2\", \"weakness 3\"],\n   \"areas\": [\"improvement area 1\", \"area 2\", \"ar".data ++ ("ea 3\"]\n \x7d,\n \"opportunities\": \x7b\n   \"summary\": \"Strategic growth opportu".data ++ ("nities\",\n   \"recommendations\": [\n     \x7b\n       \"title\": \"Specific acti".data ++ ("onable recommendation\",\n       \"description\": \"Detailed implementation".data ++ (" strategy\",\n       \"priority\": \"HIGH|MEDIUM|LOW\",\n       \"estimatedImp".data ++ ("act\": \"Quantified impact description\"\n     \x7d\n   ]\n \x7d,\n \"contentStrateg".data ++ ("y\": \x7b\n   \"recommendedTopics\": [\"topic 1\", \"topic 2\", \"topic 3\"],\n   \"c".data ++ ("ontentGaps\": [\"gap 1\", \"gap 2\"],\n   \"optimizationTips\": [\"tip 1\", \"tip".data ++ (" 2\", \"tip 3\"]\n \x7d,\n \"scores\": \x7b\n   \"overall\": 0-100,\n   \"contentQuality".data ++ ("\": 0-100,\n   \"engagement\": 0-100,\n   \"growthPotential\": 0-100\n \x7d\n\x7d\n\nPr".data ++ ("ovide data-driven insights with specific examples and actionable recom".data ++ ("mendations.".data ++ (([] : List Char)))))))))))))))))))).trans (c6_deep_dive_all_step10 ("nce\", \"strength 2\", \"strength 3\", \"strength 4\", \"strength 5\"],\n   \"sco".data ++ ("re\": 0-100\n \x7d,\n \"weaknesses\": \x7b\n   \"summary\": \"Comprehensive weakness ".data ++ ("analysis\",\n   \"details\": [\"specific weakness with suggestion\", \"weakne".data ++ ("ss 2\", \"weakness 3\"],\n   \"areas\": [\"improvement area 1\", \"area 2\", \"ar".data ++ ("ea 3\"]\n \x7d,\n \"opportunities\": \x7b\n   \"summary\": \"Strategic growth opportu".data ++ ("nities\",\n   \"recommendations\": [\n     \x7b\n       \"title\": \"Specific acti".data ++ ("onable recommendation\",\n       \"description\": \"Detailed implementation".data ++ (" strategy\",\n       \"priority\": \"HIGH|MEDIUM|LOW\",\n       \"estimatedImp".data ++ ("act\": \"Quantified impact description\"\n     \x7d\n   ]\n \x7d,\n \"contentStrateg".data ++ ("y\": \x7b\n   \"recommendedTopics\": [\"topic 1\", \"topic 2\", \"topic 3\"],\n   \"c".data ++ ("ontentGaps\": [\"gap 1\", \"gap 2\"],\n   \"optimizationTips\": [\"tip 1\", \"tip".data ++ (" 2\", \"tip 3\"]\n \x7d,\n \"scores\": \x7b\n   \"overall\": 0-100,\n   \"contentQuality".data ++ ("\": 0-100,\n   \"engagement\": 0-100,\n   \"growthPotential\": 0-100\n \x7d\n\x7d\n\nPr".data ++ ("ovide data-driven insights with specific examples and actionable recom".data ++ ("mendations.".data ++ (([] : List Char))))))))))))))))))).trans (c6_deep_dive_all_step11 ("re\": 0-100\n \x7d,\n \"weaknesses\": \x7b\n   \"summary\": \"Comprehensive weakness ".data ++ ("analysis\",\n   \"details\": [\"specific weakness with suggestion\", \"weakne".data ++ ("ss 2\", \"weakness 3\"],\n   \"areas\": [\"improvement area 1\", \"area 2\", \"ar".data ++ ("ea 3\"]\n \x7d,\n \"opportunities\": \x7b\n   \"summary\": \"Strategic growth opportu".data ++ ("nities\",\n   \"recommendations\": [\n     \x7b\n       \"title\": \"Specific acti".data ++ ("onable recommendation\",\n       \"description\": \"Detailed implementation".data ++ (" strategy\",\n       \"priority\": \"HIGH|MEDIUM|LOW\",\n       \"estimatedImp".data ++ ("act\": \"Quantified impact description\"\n     \x7d\n   ]\n \x7d,\n \"contentStrateg".data ++ ("y\": \x7b\n   \"recommendedTopics\": [\"topic 1\", \"topic 2\", \"topic 3\"],\n   \"c".data ++ ("ontentGaps\": [\"gap 1\", \"gap 2\"],\n   \"optimizationTips\": [\"tip 1\", \"tip".data ++ (" 2\", \"tip 3\"]\n \x7d,\n \"scores\": \x7b\n   \"overall\": 0-100,\n   \"contentQuality".data ++ ("\": 0-100,\n   \"engagement\": 0-100,\n   \"growthPotential\": 0-100\n \x7d\n\x7d\n\nPr".data ++ ("ovide data-driven insights with specific examples and actionable recom".data ++ ("mendations.".data ++ (([] : List Char)))))))))))))))))).trans (c6_deep_dive_all_step12 ("analysis\",\n   \"details\": [\"specific weakness with suggestion\", \"weakne".data ++ ("ss 2\", \"weakness 3\"],\n   \"areas\": [\"improvement area 1\", \"area 2\", \"ar".data ++ ("ea 3\"]\n \x7d,\n \"opportunities\": \x7b\n   \"summary\": \"Strategic growth opportu".data ++ ("nities\",\n   \"recommendations\": [\n     \x7b\n       \"title\": \"Specific acti".data ++ ("onable recommendation\",\n       \"description\": \"Detailed implementation".data ++ (" strategy\",\n       \"priority\": \"HIGH|MEDIUM|LOW\",\n       \"estimatedImp".data ++ ("act\": \"Quantified impact description\"\n     \x7d\n   ]\n \x7d,\n \"contentStrateg".data ++ ("y\": \x7b\n   \"recommendedTopics\": [\"topic 1\", \"topic 2\", \"topic 3\"],\n   \"c".data ++ ("ontentGaps\": [\"gap 1\", \"gap 2\"],\n   \"optimizationTips\": [\"tip 1\", \"tip".data ++ (" 2\", \"tip 3\"]\n \x7d,\n \"scores\": \x7b\n   \"overall\": 0-100,\n   \"contentQuality".data ++ ("\": 0-100,\n   \"engagement\": 0-100,\n   \"growthPotential\": 0-100\n \x7d\n\x7d\n\nPr".data ++ ("ovide data-driven insights with specific examples and actionable recom".data ++ ("mendations.".data ++ (([] : List Char))))))))))))))))).trans (c6_deep_dive_all_step13 ("ss 2\", \"weakness 3\"],\n   \"areas\": [\"improvement area 1\", \"area 2\", \"ar".data ++ ("ea 3\"]\n \x7d,\n \"opportunities\": \x7b\n   \"summary\": \"Strategic growth opportu".data ++ ("nities\",\n   \"recommendations\": [\n     \x7b\n       \"title\": \"Specific acti".data ++ ("onable recommendation\",\n       \"description\": \"Detailed implementation".data ++ (" strategy\",\n       \"priority\": \"HIGH|MEDIUM|LOW\",\n       \"estimatedImp".data ++ ("act\": \"Quantified impact description\"\n     \x7d\n   ]\n \x7d,\n \"contentStrateg".data ++ ("y\": \x7b\n   \"recommendedTopics\": [\"topic 1\", \"topic 2\", \"topic 3\"],\n   \"c".data ++ ("ontentGaps\": [\"gap 1\", \"gap 2\"],\n   \"optimizationTips\": [\"tip 1\", \"tip".data ++ (" 2\", \"tip 3\"]\n \x7d,\n \"scores\": \x7b\n   \"overall\": 0-100,\n   \"contentQuality".data ++ ("\": 0-100,\n   \"engagement\": 0-100,\n   \"growthPotential\": 0-100\n \x7d\n\x7d\n\nPr".data ++ ("ovide data-driven insights with specific examples and actionable recom".data ++ ("mendations.".data ++ (([] : List Char)))))))))))))))).trans (c6_deep_dive_all_step14 ("ea 3\"]\n \x7d,\n \"opportunities\": \x7b\n   \"summary\": \"Strategic growth opportu".data ++ ("nities\",\n   \"recommendations\": [\n     \x7b\n       \"title\": \"Specific acti".data ++ ("onable recommendation\",\n       \"description\": \"Detailed implementation".data ++ (" strategy\",\n       \"priority\": \"HIGH|MEDIUM|LOW\",\n       \"estimatedImp".data ++ ("act\": \"Quantified impact description\"\n     \x7d\n   ]\n \x7d,\n \"contentStrateg".data ++ ("y\": \x7b\n   \"recommendedTopics\": [\"topic 1\", \"topic 2\", \"topic 3\"],\n   \"c".data ++ ("ontentGaps\": [\"gap 1\", \"gap 2\"],\n   \"optimizationTips\": [\"tip 1\", \"tip".data ++ (" 2\", \"tip 3\"]\n \x7d,\n \"scores\": \x7b\n   \"overall\": 0-100,\n   \"contentQuality".data ++ ("\": 0-100,\n   \"engagement\": 0-100,\n   \"growthPotential\": 0-100\n \x7d\n\x7d\n\nPr".data ++ ("ovide data-driven insights with specific examples and actionable recom".data ++ ("mendations.".data ++ (([] : List Char))))))))))))))).trans (c6_deep_dive_all_step15 ("nities\",\n   \"recommendations\": [\n     \x7b\n       \"title\": \"Specific acti".data ++ ("onable recommendation\",\n       \"description\": \"Detailed implementation".data ++ (" strategy\",\n       \"priority\": \"HIGH|MEDIUM|LOW\",\n       \"estimatedImp".data ++ ("act\": \"Quantified impact description\"\n     \x7d\n   ]\n \x7d,\n \"contentStrateg".data ++ ("y\": \x7b\n   \"recommendedTopics\": [\"topic 1\", \"topic 2\", \"topic 3\"],\n   \"c".data ++ ("ontentGaps\": [\"gap 1\", \"gap 2\"],\n   \"optimizationTips\": [\"tip 1\", \"tip".data ++ (" 2\", \"tip 3\"]\n \x7d,\n \"scores\": \x7b\n   \"overall\": 0-100,\n   \"contentQuality".data ++ ("\": 0-100,\n   \"engagement\": 0-100,\n   \"growthPotential\": 0-100\n \x7d\n\x7d\n\nPr".data ++ ("ovide data-driven insights with specific examples and actionable recom".data ++ ("mendations.".data ++ (([] : List Char)))))))))))))).trans (c6_deep_dive_all_step16 ("onable recommendation\",\n       \"description\": \"Detailed implementation".data ++ (" strategy\",\n       \"priority\": \"HIGH|MEDIUM|LOW\",\n       \"estimatedImp".data ++ ("act\": \"Quantified impact description\"\n     \x7d\n   ]\n \x7d,\n \"contentStrateg".data ++ ("y\": \x7b\n   \"recommendedTopics\": [\"topic 1\", \"topic 2\", \"topic 3\"],\n   \"c".data ++ ("ontentGaps\": [\"gap 1\", \"gap 2\"],\n   \"optimizationTips\": [\"tip 1\", \"tip".data ++ (" 2\", \"tip 3\"]\n \x7d,\n \"scores\": \x7b\n   \"overall\": 0-100,\n   \"contentQuality".data ++ ("\": 0-100,\n   \"engagement\": 0-100,\n   \"growthPotential\": 0-100\n \x7d\n\x7d\n\nPr".data ++ ("ovide data-driven insights with specific examples and actionable recom".data ++ ("mendations.".data ++ (([] : List Char))))))))))))).trans (c6_deep_dive_all_step17 (" strategy\",\n       \"priority\": \"HIGH|MEDIUM|LOW\",\n       \"estimatedImp".data ++ ("act\": \"Quantified impact description\"\n     \x7d\n   ]\n \x7d,\n \"contentStrateg".data ++ ("y\": \x7b\n   \"recommendedTopics\": [\"topic 1\", \"topic 2\", \"topic 3\"],\n   \"c".data ++ ("ontentGaps\": [\"gap 1\", \"gap 2\"],\n   \"optimizationTips\": [\"tip 1\", \"tip".data ++ (" 2\", \"tip 3\"]\n \x7d,\n \"scores\": \x7b\n   \"overall\": 0-100,\n   \"contentQuality".data ++ ("\": 0-100,\n   \"engagement\": 0-100,\n   \"growthPotential\": 0-100\n \x7d\n\x7d\n\nPr".data ++ ("ovide data-driven insights with specific examples and actionable recom".data ++ ("mendations.".data ++ (([] : List Char)))))))))))).trans (c6_deep_dive_all_step18 ("act\": \"Quantified impact description\"\n     \x7d\n   ]\n \x7d,\n \"contentStrateg".data ++ ("y\": \x7b\n   \"recommendedTopics\": [\"topic 1\", \"topic 2\", \"topic 3\"],\n   \"c".data ++ ("ontentGaps\": [\"gap 1\", \"gap 2\"],\n   \"optimizationTips\": [\"tip 1\", \"tip".data ++ (" 2\", \"tip 3\"]\n \x7d,\n \"scores\": \x7b\n   \"overall\": 0-100,\n   \"contentQuality".data ++ ("\": 0-100,\n   \"engagement\": 0-100,\n   \"growthPotential\": 0-100\n \x7d\n\x7d\n\nPr".data ++ ("ovide data-driven insights with specific examples and actionable recom".data ++ ("mendations.".data ++ (([] : List Char))))))))))).trans (c6_deep_dive_all_step19 ("y\": \x7b\n   \"recommendedTopics\": [\"topic 1\", \"topic 2\", \"topic 3\"],\n   \"c".data ++ ("ontentGaps\": [\"gap 1\", \"gap 2\"],\n   \"optimizationTips\": [\"tip 1\", \"tip".data ++ (" 2\", \"tip 3\"]\n \x7d,\n \"scores\": \x7b\n   \"overall\": 0-100,\n   \"contentQuality".data ++ ("\": 0-100,\n   \"engagement\": 0-100,\n   \"growthPotential\": 0-100\n \x7d\n\x7d\n\nPr".data ++ ("ovide data-driven insights with specific examples and actionable recom".data ++ ("mendations.".data ++ (([] : List Char)))))))))).trans (c6_deep_dive_all_step20 ("ontentGaps\": [\"gap 1\", \"gap 2\"],\n   \"optimizationTips\": [\"tip 1\", \"tip".data ++ (" 2\", \"tip 3\"]\n \x7d,\n \"scores\": \x7b\n   \"overall\": 0-100,\n   \"contentQuality".data ++ ("\": 0-100,\n   \"engagement\": 0-100,\n   \"growthPotential\": 0-100\n \x7d\n\x7d\n\nPr".data ++ ("ovide data-driven insights with specific examples and actionable recom".data ++ ("mendations.".data ++ (([] : List Char))))))))).trans (c6_deep_dive_all_step21 (" 2\", \"tip 3\"]\n \x7d,\n \"scores\": \x7b\n   \"overall\": 0-100,\n   \"contentQuality".data ++ ("\": 0-100,\n   \"engagement\": 0-100,\n   \"growthPotential\": 0-100\n \x7d\n\x7d\n\nPr".data ++ ("ovide data-driven insights with specific examples and actionable recom".data ++ ("mendations.".data ++ (([] : List Char)))))))).trans (c6_deep_dive_all_step22 ("\": 0-100,\n   \"engagement\": 0-100,\n   \"growthPotential\": 0-100\n \x7d\n\x7d\n\nPr".data ++ ("ovide data-driven insights with specific examples and actionable recom".data ++ ("mendations.".data ++ (([] : List Char))))))).trans (c6_deep_dive_all_step23 ("ovide data-driven insights with specific examples and actionable recom".data ++ ("mendations.".data ++ (([] : List Char)))))).trans (c6_deep_dive_all_step24 ("mendations.".data ++ (([] : List Char))))).trans (c6_deep_dive_all_step25 (([] : List Char)))).trans c6_deep_dive_all_end

/-- Claim C6 (counterexample to the claim as stated).  The claim includes
tokens inside `\x7b\x7b#each\x7d\x7d` blocks among the referenced
variables; the `DEEP_DIVE` template references `\x7b\x7btitle\x7d\x7d`
inside its loop body, and `title` is not in its declared variables list,
so the declared list is not a superset of all referenced tokens. -/
theorem claim_C6_counterexample :
    "title" ∈ referencedVarsAll PromptTemplates.DEEP_DIVE.template
    ∧ "title" ∉ PromptTemplates.DEEP_DIVE.«variables» := by
  refine ⟨?_, ?_⟩
  · rw [c6_deep_dive_all_eval]
    decide
  · decide

/-- Claim C6 (amended): for each of the four analysis types,
`getPromptTemplate` returns the type's static template, and the declared
variables list is a superset of the variable names referenced outside
`\x7b\x7b#each\x7d\x7d` loop bodies (tokens inside `\x7b\x7b#if\x7d\x7d`
blocks and the `#if`/`#each` directive names included); loop-body tokens
name array-element fields and are not declared. -/
theorem claim_C6 :
    PromptTemplates.getPromptTemplate "QUICK_SCAN" = .ok PromptTemplates.QUICK_SCAN
    ∧ PromptTemplates.getPromptTemplate "DEEP_DIVE" = .ok PromptTemplates.DEEP_DIVE
    ∧ PromptTemplates.getPromptTemplate "COMPETITOR_COMPARE"
        = .ok PromptTemplates.COMPETITOR_COMPARE
    ∧ PromptTemplates.getPromptTemplate "GROWTH_STRATEGY"
        = .ok PromptTemplates.GROWTH_STRATEGY
    ∧ (referencedVarsTop PromptTemplates.QUICK_SCAN.template).all
        (fun v => PromptTemplates.QUICK_SCAN.«variables».contains v) = true
    ∧ (referencedVarsTop PromptTemplates.DEEP_DIVE.template).all
        (fun v => PromptTemplates.DEEP_DIVE.«variables».contains v) = true
    ∧ (referencedVarsTop PromptTemplates.COMPETITOR_COMPARE.template).all
        (fun v => PromptTemplates.COMPETITOR_COMPARE.«variables».contains v) = true
    ∧ (referencedVarsTop PromptTemplates.GROWTH_STRATEGY.template).all
        (fun v => PromptTemplates.GROWTH_STRATEGY.«variables».contains v) = true := by
  refine ⟨rfl, rfl, rfl, rfl, ?_, ?_, ?_, ?_⟩
  · rw [c6_quick_scan_top_eval]
    decide
  · rw [c6_deep_dive_top_eval]
    decide
  · rw [c6_competitor_compare_top_eval]
    decide
  · rw [c6_growth_strategy_top_eval]
    decide

/-! ### Claims C1, C2, C3: analyzer usage recording, boundary, fallback -/

/-- The provider client held by the analyzer for a provider tag
(the `google` tag never has a client). -/
def AnalyzerConfig.service (cfg : AnalyzerConfig) : AIProvider → Option ProviderOracle
  | .openai => cfg.openaiService
  | .claude => cfg.claudeService
  | .google => none

/-- Message of the exception thrown inside the `try` block when the
selected provider's client is missing or unsupported. -/
def notInitializedMsg : AIProvider → String
  | .openai => "OpenAI service not initialized. Check API key."
  | .claude => "Claude service not initialized. Check API key."
  | .google => "Unsupported provider: google"

/-- Concrete quick-scan request used by the analyzer counterexamples. -/
def reqQ : AIAnalysisRequest where
  channelData :=
    { id := "c1"
      title := "T"
      description := "D"
      subscriberCount := 10
      videoCount := 2
      viewCount := 100
      contentType := "TECH"
      topics := ["ai"] }
  analysisType := .QUICK_SCAN

/-- A tagged failure result as returned by the OpenAI client when the
external call fails (the client catches and never throws). -/
def failRes : ServiceResult where
  success := false
  error := some { code := "OPENAI_ERROR"
                  message := "OpenAI API Error: rate limited"
                  provider := some .openai }
  metadata := { requestId := "openai_1"
                processingTime := 5
                tokensUsed := 0
                costCents := 0 }

/-- A tagged success result as returned by the Claude client. -/
def okRes : ServiceResult where
  success := true
  metadata := { requestId := "claude_1"
                processingTime := 7
                tokensUsed := 120
                costCents := 3 }

/-- Analyzer with only the OpenAI client configured, whose external call
always fails (tagged failure, no exception). -/
def cfgFail : AnalyzerConfig where
  openaiService := some fun _ _ => failRes

/-- Analyzer with a failing OpenAI client and a succeeding Claude client. -/
def cfgBoth : AnalyzerConfig where
  openaiService := some fun _ _ => failRes
  claudeService := some fun _ _ => okRes

/-- Claim C1 (counterexample to the claim as stated).  A Provider Client
invocation completes with a tagged failure and no fallback is specified;
the claim demands exactly one `success=false` UsageRecord, but the call
returns the failure with the tracker unchanged: zero records were
written (the failure branch of the `try` is never reached because the
client does not throw). -/
theorem claim_C1_counterexample :
    AIAnalyzer.analyzeChannel cfgFail reqQ { provider := some .openai } 0 [] =
      .ok (failRes, [])
    ∧ failRes.success = false := by
  refine ⟨?_, rfl⟩
  simp [AIAnalyzer.analyzeChannel, cfgFail, AIAnalyzer.estimateCost,
    AIAnalyzer.getDefaultModel, OpenAIService.getModelConfig, failRes,
    AIProvider.toString]

/-- Claim C1 (amended): with a provider specified and its default model,
(i) when the provider's client exists, its tagged result is returned and
exactly one UsageRecord is written if and only if the result is a success
(a tagged failure writes none and is returned unchanged); (ii) when the
provider's client is missing, the invocation throws inside the `try` and
exactly one `success=false` UsageRecord (zero tokens and cost, carrying
the error message) is written before the structured failure result is
returned. -/
theorem claim_C1 :
    (∀ (cfg : AnalyzerConfig) (req : AIAnalysisRequest) (now : Int)
       (tracker : List UsageRecord) (p : AIProvider) (svc : ProviderOracle)
       (dm : String),
       (p = .openai ∨ p = .claude) →
       AIAnalyzer.getDefaultModel p = .ok dm →
       AnalyzerConfig.service cfg p = some svc →
       AIAnalyzer.analyzeChannel cfg req { provider := some p } now tracker =
         if (svc req dm).success = true then
           .ok (svc req dm,
             CostTracker.recordUsage
               (AIAnalyzer.successUsage p dm req (svc req dm)) now tracker)
         else
           .ok (svc req dm, tracker))
    ∧ (∀ (cfg : AnalyzerConfig) (req : AIAnalysisRequest) (now : Int)
         (tracker : List UsageRecord) (p : AIProvider) (dm : String),
       (p = .openai ∨ p = .claude) →
       AIAnalyzer.getDefaultModel p = .ok dm →
       AnalyzerConfig.service cfg p = none →
       AIAnalyzer.analyzeChannel cfg req { provider := some p } now tracker =
         .ok (AIAnalyzer.analysisFailedResult (notInitializedMsg p) p now,
           CostTracker.recordUsage
             (AIAnalyzer.failedUsage p dm req (notInitializedMsg p)) now tracker)) := by
  constructor
  · intro cfg req now tracker p svc dm hp hdm hsvc
    rcases hp with rfl | rfl
    · simp only [AIAnalyzer.getDefaultModel, Except.ok.injEq] at hdm
      subst hdm
      simp only [AnalyzerConfig.service] at hsvc
      simp [AIAnalyzer.analyzeChannel, hsvc, AIAnalyzer.estimateCost,
        AIAnalyzer.getDefaultModel, OpenAIService.getModelConfig]
    · simp only [AIAnalyzer.getDefaultModel, Except.ok.injEq] at hdm
      subst hdm
      simp only [AnalyzerConfig.service] at hsvc
      simp [AIAnalyzer.analyzeChannel, hsvc, AIAnalyzer.estimateCost,
        AIAnalyzer.getDefaultModel, ClaudeService.getModelConfig]
  · intro cfg req now tracker p dm hp hdm hsvc
    rcases hp with rfl | rfl
    · simp only [AIAnalyzer.getDefaultModel, Except.ok.injEq] at hdm
      subst hdm
      simp only [AnalyzerConfig.service] at hsvc
      simp [AIAnalyzer.analyzeChannel, hsvc, AIAnalyzer.estimateCost,
        AIAnalyzer.getDefaultModel, OpenAIService.getModelConfig, notInitializedMsg]
    · simp only [AIAnalyzer.getDefaultModel, Except.ok.injEq] at hdm
      subst hdm
      simp only [AnalyzerConfig.service] at hsvc
      simp [AIAnalyzer.analyzeChannel, hsvc, AIAnalyzer.estimateCost,
        AIAnalyzer.getDefaultModel, ClaudeService.getModelConfig, notInitializedMsg]

/-- Claim C1 witness: a succeeding Claude invocation writes exactly one
successful UsageRecord; an invocation of a missing OpenAI client throws
and writes exactly one failed UsageRecord before the failure result. -/
theorem claim_C1_witness :
    (AIAnalyzer.analyzeChannel cfgBoth reqQ { provider := some .claude } 0 [] =
      .ok (okRes,
        CostTracker.recordUsage
          (AIAnalyzer.successUsage .claude "claude-3-sonnet" reqQ okRes) 0 []))
    ∧ (AIAnalyzer.analyzeChannel {} reqQ { provider := some .openai } 0 [] =
      .ok (AIAnalyzer.analysisFailedResult (notInitializedMsg .openai) .openai 0,
        CostTracker.recordUsage
          (AIAnalyzer.failedUsage .openai "gpt-4-turbo" reqQ
            (notInitializedMsg .openai)) 0 [])) := by
  constructor
  · have h := claim_C1.1 cfgBoth reqQ 0 [] .claude (fun _ _ => okRes)
      "claude-3-sonnet" (Or.inr rfl) rfl rfl
    simpa [okRes] using h
  · exact claim_C1.2 {} reqQ 0 [] .openai "gpt-4-turbo" (Or.inl rfl) rfl rfl

/-- Helper: with a provider whose model id has a configuration and no
fallback option, `analyzeChannel` always returns a tagged result (never an
uncaught exception), whatever the client's behaviour. -/
theorem analyzeChannel_known_isOk :
    ∀ (cfg : AnalyzerConfig) (req : AIAnalysisRequest) (now : Int)
      (tracker : List UsageRecord) (p : AIProvider) (m : String),
      (p = .openai ∧ OpenAIService.getModelConfig m ≠ none
        ∨ p = .claude ∧ ClaudeService.getModelConfig m ≠ none) →
      (AIAnalyzer.analyzeChannel cfg req
        { provider := some p, model := some m } now tracker).isOk = true := by
  intro cfg req now tracker p m h
  rcases h with ⟨rfl, hm⟩ | ⟨rfl, hm⟩
  · obtain ⟨c, hc⟩ := Option.ne_none_iff_exists'.mp hm
    rcases hsvc : cfg.openaiService with _ | svc
    · simp [AIAnalyzer.analyzeChannel, AIAnalyzer.estimateCost, hc, hsvc, Except.isOk, Except.toBool]
    · cases hsucc : (svc req m).success <;>
        simp [AIAnalyzer.analyzeChannel, AIAnalyzer.estimateCost, hc, hsvc, hsucc, Except.isOk, Except.toBool]
  · obtain ⟨c, hc⟩ := Option.ne_none_iff_exists'.mp hm
    rcases hsvc : cfg.claudeService with _ | svc
    · simp [AIAnalyzer.analyzeChannel, AIAnalyzer.estimateCost, hc, hsvc, Except.isOk, Except.toBool]
    · cases hsucc : (svc req m).success <;>
        simp [AIAnalyzer.analyzeChannel, AIAnalyzer.estimateCost, hc, hsvc, hsucc, Except.isOk, Except.toBool]

/-- Helper: when the selected provider's client is missing (the invocation
throws) and a distinct fallback with a valid default model is given, the
call reduces to exactly one recursive call with the fallback substituted
and no further fallback. -/
theorem analyzeChannel_fallback_eq :
    ∀ (cfg : AnalyzerConfig) (req : AIAnalysisRequest) (now : Int)
      (tracker : List UsageRecord) (p q : AIProvider) (dmq : String),
      (p = .openai ∨ p = .claude) →
      AnalyzerConfig.service cfg p = none →
      AIAnalyzer.getDefaultModel q = .ok dmq →
      q ≠ p →
      AIAnalyzer.analyzeChannel cfg req
          { provider := some p, fallbackProvider := some q } now tracker =
        AIAnalyzer.analyzeChannel cfg req
          { provider := some q, model := some dmq } now tracker := by
  intro cfg req now tracker p q dmq hp hsvc hdm hqp
  have hdpo : AIAnalyzer.getDefaultModel .openai = .ok "gpt-4-turbo" := rfl
  have hdpc : AIAnalyzer.getDefaultModel .claude = .ok "claude-3-sonnet" := rfl
  rcases hp with rfl | rfl
  · simp only [AnalyzerConfig.service] at hsvc
    conv_lhs => rw [AIAnalyzer.analyzeChannel.eq_def]
    simp [AIAnalyzer.estimateCost, OpenAIService.getModelConfig,
      hsvc, hdm, hqp, hdpo]
  · simp only [AnalyzerConfig.service] at hsvc
    conv_lhs => rw [AIAnalyzer.analyzeChannel.eq_def]
    simp [AIAnalyzer.estimateCost, ClaudeService.getModelConfig,
      hsvc, hdm, hqp, hdpc]

/-- Claim C2 (counterexample to the claim as stated).  With no provider
configured and none specified, `analyzeChannel` does not return a tagged
`NoProviderAvailable`-style failure: `selectOptimalProvider` is called
before the `try` block and its exception escapes the method uncaught. -/
theorem claim_C2_counterexample :
    AIAnalyzer.analyzeChannel {} reqQ {} 0 [] =
      .error "No AI services available. Check API keys." := by
  simp [AIAnalyzer.analyzeChannel, AIAnalyzer.selectOptimalProvider]

/-- Claim C2 (amended): when the caller specifies an existing provider
(openai or claude) with the default model and any fallback among the two
real providers, `analyzeChannel` returns a tagged success/failure result
for every client behaviour; but when no provider is configured and none is
specified, the call raises the `No AI services available` exception past
its boundary instead of returning a tagged failure. -/
theorem claim_C2 :
    (∀ (cfg : AnalyzerConfig) (req : AIAnalysisRequest) (now : Int)
       (tracker : List UsageRecord) (p : AIProvider) (fb : Option AIProvider),
       (p = .openai ∨ p = .claude) →
       (fb = none ∨ fb = some .openai ∨ fb = some .claude) →
       (AIAnalyzer.analyzeChannel cfg req
         { provider := some p, fallbackProvider := fb } now tracker).isOk = true)
    ∧ (∀ (req : AIAnalysisRequest) (now : Int) (tracker : List UsageRecord),
       AIAnalyzer.analyzeChannel {} req {} now tracker =
         .error "No AI services available. Check API keys.") := by
  constructor
  · intro cfg req now tracker p fb hp hfb
    rcases hp with rfl | rfl
    · rcases hsvc : cfg.openaiService with _ | svc
      · rcases hfb with rfl | rfl | rfl
        · simp [AIAnalyzer.analyzeChannel, AIAnalyzer.estimateCost,
            AIAnalyzer.getDefaultModel, OpenAIService.getModelConfig, hsvc,
            Except.isOk, Except.toBool]
        · simp [AIAnalyzer.analyzeChannel, AIAnalyzer.estimateCost,
            AIAnalyzer.getDefaultModel, OpenAIService.getModelConfig, hsvc,
            Except.isOk, Except.toBool]
        · rw [analyzeChannel_fallback_eq cfg req now tracker .openai .claude
            "claude-3-sonnet" (Or.inl rfl) (by simp [AnalyzerConfig.service, hsvc])
            rfl (by decide)]
          exact analyzeChannel_known_isOk cfg req now tracker .claude
            "claude-3-sonnet" (Or.inr ⟨rfl, by simp [ClaudeService.getModelConfig]⟩)
      · cases hsucc : (svc req "gpt-4-turbo").success <;>
          simp [AIAnalyzer.analyzeChannel, AIAnalyzer.estimateCost,
            AIAnalyzer.getDefaultModel, OpenAIService.getModelConfig, hsvc, hsucc,
            Except.isOk, Except.toBool]
    · rcases hsvc : cfg.claudeService with _ | svc
      · rcases hfb with rfl | rfl | rfl
        · simp [AIAnalyzer.analyzeChannel, AIAnalyzer.estimateCost,
            AIAnalyzer.getDefaultModel, ClaudeService.getModelConfig, hsvc,
            Except.isOk, Except.toBool]
        · rw [analyzeChannel_fallback_eq cfg req now tracker .claude .openai
            "gpt-4-turbo" (Or.inr rfl) (by simp [AnalyzerConfig.service, hsvc])
            rfl (by decide)]
          exact analyzeChannel_known_isOk cfg req now tracker .openai
            "gpt-4-turbo" (Or.inl ⟨rfl, by simp [OpenAIService.getModelConfig]⟩)
        · simp [AIAnalyzer.analyzeChannel, AIAnalyzer.estimateCost,
            AIAnalyzer.getDefaultModel, ClaudeService.getModelConfig, hsvc,
            Except.isOk, Except.toBool]
      · cases hsucc : (svc req "claude-3-sonnet").success <;>
          simp [AIAnalyzer.analyzeChannel, AIAnalyzer.estimateCost,
            AIAnalyzer.getDefaultModel, ClaudeService.getModelConfig, hsvc, hsucc,
            Except.isOk, Except.toBool]
  · intro req now tracker
    simp [AIAnalyzer.analyzeChannel, AIAnalyzer.selectOptimalProvider]

/-- Claim C2 witness: with a failing OpenAI client and a Claude fallback
configured, the call still returns a tagged result; with nothing
configured, the call returns the uncaught `No AI services available`
exception. -/
theorem claim_C2_witness :
    ((AIAnalyzer.analyzeChannel cfgBoth reqQ
        { provider := some .openai, fallbackProvider := some .claude }
        0 []).isOk = true)
    ∧ AIAnalyzer.analyzeChannel {} reqQ {} 5 [] =
        .error "No AI services available. Check API keys." :=
  ⟨claim_C2.1 cfgBoth reqQ 0 [] .openai (some .claude) (Or.inl rfl)
      (Or.inr (Or.inr rfl)),
   claim_C2.2 reqQ 5 []⟩

/-- Analyzer with only a succeeding Claude client. -/
def cfgOnlyClaude : AnalyzerConfig where
  claudeService := some fun _ _ => okRes

/-- Claim C3 (counterexample to the claim as stated).  The OpenAI client
invocation completes with a tagged failure, a distinct working fallback
(Claude, which would succeed) is specified — yet the analyzer returns the
OpenAI failure unchanged and never recurses: fallback handling lives in
the `catch` block, which tagged failures do not reach. -/
theorem claim_C3_counterexample :
    AIAnalyzer.analyzeChannel cfgBoth reqQ
        { provider := some .openai, fallbackProvider := some .claude } 0 [] =
      .ok (failRes, [])
    ∧ okRes.success = true
    ∧ failRes.success = false := by
  refine ⟨?_, rfl, rfl⟩
  simp [AIAnalyzer.analyzeChannel, cfgBoth, AIAnalyzer.estimateCost,
    AIAnalyzer.getDefaultModel, OpenAIService.getModelConfig, failRes]

/-- Claim C3 (amended): (i) fallback recursion happens only when the
invocation throws — the selected provider's client is missing — and a
distinct fallback is given: then the analyzer recurses exactly once with
the fallback provider and its default model substituted, and the
recursive call carries no fallback, so no further chaining is possible;
(ii) when the provider client completes with a tagged failure result,
that result is returned unchanged and the fallback option is never
consulted; (iii) when the invocation throws and no fallback is given, a
failure result is returned (with one failed usage record). -/
theorem claim_C3 :
    (∀ (cfg : AnalyzerConfig) (req : AIAnalysisRequest) (now : Int)
       (tracker : List UsageRecord) (p q : AIProvider) (dmq : String),
       (p = .openai ∨ p = .claude) →
       AnalyzerConfig.service cfg p = none →
       AIAnalyzer.getDefaultModel q = .ok dmq →
       q ≠ p →
       AIAnalyzer.analyzeChannel cfg req
           { provider := some p, fallbackProvider := some q } now tracker =
         AIAnalyzer.analyzeChannel cfg req
           { provider := some q, model := some dmq } now tracker)
    ∧ (∀ (cfg : AnalyzerConfig) (req : AIAnalysisRequest) (now : Int)
         (tracker : List UsageRecord) (p : AIProvider) (svc : ProviderOracle)
         (dm : String) (fb : Option AIProvider),
       (p = .openai ∨ p = .claude) →
       AIAnalyzer.getDefaultModel p = .ok dm →
       AnalyzerConfig.service cfg p = some svc →
       (svc req dm).success = false →
       AIAnalyzer.analyzeChannel cfg req
           { provider := some p, fallbackProvider := fb } now tracker =
         .ok (svc req dm, tracker))
    ∧ (∀ (cfg : AnalyzerConfig) (req : AIAnalysisRequest) (now : Int)
         (tracker : List UsageRecord) (p : AIProvider) (dm : String),
       (p = .openai ∨ p = .claude) →
       AIAnalyzer.getDefaultModel p = .ok dm →
       AnalyzerConfig.service cfg p = none →
       AIAnalyzer.analyzeChannel cfg req { provider := some p } now tracker =
         .ok (AIAnalyzer.analysisFailedResult (notInitializedMsg p) p now,
           CostTracker.recordUsage
             (AIAnalyzer.failedUsage p dm req (notInitializedMsg p)) now tracker)) := by
  refine ⟨analyzeChannel_fallback_eq, ?_, ?_⟩
  · intro cfg req now tracker p svc dm fb hp hdm hsvc hsucc
    rcases hp with rfl | rfl
    · simp only [AIAnalyzer.getDefaultModel, Except.ok.injEq] at hdm
      subst hdm
      simp only [AnalyzerConfig.service] at hsvc
      simp [AIAnalyzer.analyzeChannel, hsvc, hsucc, AIAnalyzer.estimateCost,
        AIAnalyzer.getDefaultModel, OpenAIService.getModelConfig]
    · simp only [AIAnalyzer.getDefaultModel, Except.ok.injEq] at hdm
      subst hdm
      simp only [AnalyzerConfig.service] at hsvc
      simp [AIAnalyzer.analyzeChannel, hsvc, hsucc, AIAnalyzer.estimateCost,
        AIAnalyzer.getDefaultModel, ClaudeService.getModelConfig]
  · intro cfg req now tracker p dm hp hdm hsvc
    rcases hp with rfl | rfl
    · simp only [AIAnalyzer.getDefaultModel, Except.ok.injEq] at hdm
      subst hdm
      simp only [AnalyzerConfig.service] at hsvc
      simp [AIAnalyzer.analyzeChannel, hsvc, AIAnalyzer.estimateCost,
        AIAnalyzer.getDefaultModel, OpenAIService.getModelConfig, notInitializedMsg]
    · simp only [AIAnalyzer.getDefaultModel, Except.ok.injEq] at hdm
      subst hdm
      simp only [AnalyzerConfig.service] at hsvc
      simp [AIAnalyzer.analyzeChannel, hsvc, AIAnalyzer.estimateCost,
        AIAnalyzer.getDefaultModel, ClaudeService.getModelConfig, notInitializedMsg]

/-- Claim C3 witness: a missing OpenAI client with Claude fallback reduces
to exactly the recursive Claude call with no fallback; a failing OpenAI
client with Claude fallback returns the OpenAI failure unchanged; a
missing OpenAI client with no fallback returns the structured failure
result with one failed usage record. -/
theorem claim_C3_witness :
    (AIAnalyzer.analyzeChannel cfgOnlyClaude reqQ
        { provider := some .openai, fallbackProvider := some .claude } 0 [] =
      AIAnalyzer.analyzeChannel cfgOnlyClaude reqQ
        { provider := some .claude, model := some "claude-3-sonnet" } 0 [])
    ∧ (AIAnalyzer.analyzeChannel cfgBoth reqQ
        { provider := some .openai, fallbackProvider := some .claude } 0 [] =
      .ok (failRes, []))
    ∧ (AIAnalyzer.analyzeChannel {} reqQ { provider := some .openai } 0 [] =
      .ok (AIAnalyzer.analysisFailedResult (notInitializedMsg .openai) .openai 0,
        CostTracker.recordUsage
          (AIAnalyzer.failedUsage .openai "gpt-4-turbo" reqQ
            (notInitializedMsg .openai)) 0 [])) := by
  refine ⟨claim_C3.1 cfgOnlyClaude reqQ 0 [] .openai .claude "claude-3-sonnet"
      (Or.inl rfl) rfl rfl (by decide), ?_,
    claim_C3.2.2 {} reqQ 0 [] .openai "gpt-4-turbo" (Or.inl rfl) rfl rfl⟩
  have h := claim_C3.2.1 cfgBoth reqQ 0 [] .openai (fun _ _ => failRes)
    "gpt-4-turbo" (some .claude) (Or.inl rfl) rfl rfl rfl
  simpa using h
